import Mathlib

/-!
# Vibe-Commerce: cart and checkout routes

A shallow embedding of `server/routes/cart.js` and `server/routes/checkout.js`,
of `ensureMinimumProducts` of `server/server.js`, and of the decrement and checkout
handlers of the client components.

* The Mongo collections `carts` and `products` are lists of documents in natural
  (insertion) order; a query by `_id` or by `productId` acts on the first match.
* A JavaScript number is `JsNum`: `NaN`, the two infinities, or a finite value.
  Finite doubles are represented by the rational number they denote, and
  `roundDouble` is the rounding of a real number to the nearest double.
  `postCartDouble`, `getCartDouble` and `postCheckoutDouble` round every sum and
  product as JavaScript does; the statements on the value of a sum or a total are
  proved on them. `postCart`, `getCart` and `postCheckout` are the same handlers
  with exact sums and products; they carry the statements that do not depend on
  that value (status codes, effects on the store, invariants).
* A handler is a function from the request and the stores to the HTTP response
  and the next cart store.
-/

namespace VibeCommerce

/-! ## JavaScript numbers and request values -/

/-- A JavaScript number. -/
inductive JsNum where
  | nan
  | posInf
  | negInf
  | fin (q : ℚ)
  deriving DecidableEq

namespace JsNum

/-- `Number.isFinite(x)` on a value that is already a number. -/
def isFinite : JsNum → Bool
  | fin _ => true
  | _ => false

/-- Sign of a number as seen by multiplication: `-1`, `0` or `1` (`NaN` has none). -/
def sign : JsNum → Int
  | nan => 0
  | posInf => 1
  | negInf => -1
  | fin q => if 0 < q then 1 else if q < 0 then -1 else 0

/-- The `+` operator on two numbers, the sum of two finite ones taken exactly
(`JsNum.addDouble` rounds it). -/
def add : JsNum → JsNum → JsNum
  | nan, _ => nan
  | _, nan => nan
  | posInf, negInf => nan
  | negInf, posInf => nan
  | posInf, _ => posInf
  | _, posInf => posInf
  | negInf, _ => negInf
  | _, negInf => negInf
  | fin a, fin b => fin (a + b)

/-- The `*` operator on two numbers, the product of two finite ones taken
exactly (`JsNum.mulDouble` rounds it). -/
def mul : JsNum → JsNum → JsNum
  | nan, _ => nan
  | _, nan => nan
  | fin a, fin b => fin (a * b)
  | x, y =>
    let s := x.sign * y.sign
    if s = 0 then nan else if 0 < s then posInf else negInf

end JsNum

/-- Round to the nearest integer, a tie going to the even one. -/
def roundHalfEven (y : ℚ) : ℤ :=
  if y - ⌊y⌋ < 1 / 2 then ⌊y⌋
  else if 1 / 2 < y - ⌊y⌋ then ⌊y⌋ + 1
  else if ⌊y⌋ % 2 = 0 then ⌊y⌋ else ⌊y⌋ + 1

/-- The double nearest to `x`, a tie going to the even significand: 53
significant bits, least exponent `-1022`. An overflow is not represented here:
`JsNum.ofRat` tests for it; in `postCartDouble` the result goes through
`Math.min(·, 20)`, which maps both an overflowed sum and `Infinity` to 20. -/
def roundDouble (x : ℚ) : ℚ :=
  if x = 0 then 0
  else (roundHalfEven (x / (2 : ℚ) ^ (max (Int.log 2 |x|) (-1022) - 52)) : ℚ) *
    (2 : ℚ) ^ (max (Int.log 2 |x|) (-1022) - 52)

/-- Largest magnitude that still rounds to a finite double: values at or above
`2^1024 - 2^970` round to an infinity. -/
def overflowBound : ℚ := 2 ^ 1024 - 2 ^ 970

/-- The number for a mathematical value, such as the value of a numeric literal
or the exact result of an operation: the nearest double, an infinity from
`overflowBound` on. -/
def JsNum.ofRat (q : ℚ) : JsNum :=
  if overflowBound ≤ q then JsNum.posInf
  else if q ≤ -overflowBound then JsNum.negInf
  else JsNum.fin (roundDouble q)

/-- The `+` operator on two doubles: the exact sum, rounded. -/
def JsNum.addDouble : JsNum → JsNum → JsNum
  | .fin a, .fin b => JsNum.ofRat (a + b)
  | x, y => x.add y

/-- The `*` operator on two doubles: the exact product, rounded. -/
def JsNum.mulDouble : JsNum → JsNum → JsNum
  | .fin a, .fin b => JsNum.ofRat (a * b)
  | x, y => x.mul y

/-- The characters `StringToNumber` skips at both ends (WhiteSpace and LineTerminator). -/
def isStrWhiteSpace (c : Char) : Bool :=
  let n := c.toNat
  n = 0x09 || n = 0x0A || n = 0x0B || n = 0x0C || n = 0x0D || n = 0x20 || n = 0xA0 ||
  n = 0x1680 || (0x2000 ≤ n && n ≤ 0x200A) || n = 0x2028 || n = 0x2029 || n = 0x202F ||
  n = 0x205F || n = 0x3000 || n = 0xFEFF

/-- Value of a digit character in the given radix, if it is one. -/
def digitValue (radix : Nat) (c : Char) : Option Nat :=
  let n := c.toNat
  let v :=
    if 48 ≤ n ∧ n ≤ 57 then some (n - 48)
    else if 97 ≤ n ∧ n ≤ 102 then some (n - 87)
    else if 65 ≤ n ∧ n ≤ 70 then some (n - 55)
    else none
  match v with
  | some d => if d < radix then some d else none
  | none => none

/-- Reads the longest run of digits at the head of `cs`: its value so far, the
number of digits read, and the rest. -/
def readDigits (radix : Nat) : List Char → Nat → Nat → Nat × Nat × List Char
  | [], acc, cnt => (acc, cnt, [])
  | c :: cs, acc, cnt =>
    match digitValue radix c with
    | some d => readDigits radix cs (acc * radix + d) (cnt + 1)
    | none => (acc, cnt, c :: cs)

/-- The optional `ExponentPart` of a decimal literal; `none` when what follows is
not an exponent part running to the end of the input. -/
def readExponent : List Char → Option Int
  | [] => some 0
  | e :: rest =>
    if e = 'e' ∨ e = 'E' then
      let (neg, ds) :=
        match rest with
        | '+' :: ds => (false, ds)
        | '-' :: ds => (true, ds)
        | ds => (false, ds)
      match readDigits 10 ds 0 0 with
      | (v, cnt, []) => if cnt = 0 then none else some (if neg then -(v : Int) else (v : Int))
      | _ => none
    else none

/-- `StrUnsignedDecimalLiteral`: `Infinity`, or digits with an optional fraction
and exponent. The result is the mathematical value, `none` for a syntax error,
`some none` for `Infinity`. -/
def readUnsignedDecimal (cs : List Char) : Option (Option ℚ) :=
  if cs = "Infinity".toList then some none
  else
    let (ip, icnt, r1) := readDigits 10 cs 0 0
    let (fp, fcnt, r2, dot) :=
      match r1 with
      | '.' :: r =>
        let (f, c, r3) := readDigits 10 r 0 0
        (f, c, r3, true)
      | r => (0, 0, r, false)
    if icnt = 0 ∧ fcnt = 0 then none
    else if icnt = 0 ∧ ¬ dot then none
    else
      match readExponent r2 with
      | none => none
      | some e => some (some (((ip : ℚ) + (fp : ℚ) / (10 : ℚ) ^ fcnt) * (10 : ℚ) ^ e))

/-- `StrNumericLiteral` after trimming: a signed decimal literal or an unsigned
binary, octal or hexadecimal integer literal. -/
def readNumericLiteral (cs : List Char) : JsNum :=
  let nonDecimal (radix : Nat) (ds : List Char) : JsNum :=
    match readDigits radix ds 0 0 with
    | (v, cnt, []) => if cnt = 0 then JsNum.nan else JsNum.ofRat v
    | _ => JsNum.nan
  match cs with
  | [] => JsNum.fin 0
  | '0' :: 'x' :: ds => nonDecimal 16 ds
  | '0' :: 'X' :: ds => nonDecimal 16 ds
  | '0' :: 'o' :: ds => nonDecimal 8 ds
  | '0' :: 'O' :: ds => nonDecimal 8 ds
  | '0' :: 'b' :: ds => nonDecimal 2 ds
  | '0' :: 'B' :: ds => nonDecimal 2 ds
  | '-' :: ds =>
    match readUnsignedDecimal ds with
    | none => JsNum.nan
    | some none => JsNum.negInf
    | some (some q) => JsNum.ofRat (-q)
  | '+' :: ds =>
    match readUnsignedDecimal ds with
    | none => JsNum.nan
    | some none => JsNum.posInf
    | some (some q) => JsNum.ofRat q
  | ds =>
    match readUnsignedDecimal ds with
    | none => JsNum.nan
    | some none => JsNum.posInf
    | some (some q) => JsNum.ofRat q

/-- The abstract operation `StringToNumber`: trim white space, then read a
numeric literal; the empty string is `0`, anything unreadable is `NaN`. -/
def stringToNumber (s : String) : JsNum :=
  let cs := s.toList.dropWhile isStrWhiteSpace
  let cs := (cs.reverse.dropWhile isStrWhiteSpace).reverse
  readNumericLiteral cs

/-- A value of a parsed JSON request body, or `undefined` for an absent field.
Of an object only one thing matters to the handlers' conversions: whether it has
an own property `toString`, which in JSON is never a function and so hides the
inherited method. -/
inductive JsValue where
  | undefined
  | null
  | bool (b : Bool)
  | num (n : JsNum)
  | str (s : String)
  | arr (elems : List JsValue)
  | obj (ownToString : Bool)

mutual
/-- Whether `String(v)` throws a `TypeError`: an object with an own `toString`
has no callable conversion method, and an array joins the strings of its
elements. -/
def toStringThrows : JsValue → Bool
  | .obj ownToString => ownToString
  | .arr elems => anyToStringThrows elems
  | _ => false
/-- Whether `String(v)` throws for some element `v` of the list. -/
def anyToStringThrows : List JsValue → Bool
  | [] => false
  | v :: vs => toStringThrows v || anyToStringThrows vs
end

/-- The conversion `Number(v)`; `none` when it throws a `TypeError`. An object
converts through its string form `"[object Object]"`, which is not numeric. An
array converts through its string form, the comma-joined elements: no element
gives `""`, one element gives that element's string (`""` for `null` and
`undefined`), and more than one element gives a string with a comma, which is
not numeric. -/
def toNumber : JsValue → Option JsNum
  | .undefined => some JsNum.nan
  | .null => some (JsNum.fin 0)
  | .bool b => some (if b then JsNum.fin 1 else JsNum.fin 0)
  | .num n => some n
  | .str s => some (stringToNumber s)
  | .obj ownToString => if ownToString then none else some JsNum.nan
  | .arr [] => some (JsNum.fin 0)
  | .arr [.undefined] => some (JsNum.fin 0)
  | .arr [.null] => some (JsNum.fin 0)
  | .arr [.bool _] => some JsNum.nan
  | .arr [.num n] => some n
  | .arr [.str s] => some (stringToNumber s)
  | .arr [.obj ownToString] => if ownToString then none else some JsNum.nan
  | .arr [.arr ys] => toNumber (.arr ys)
  | .arr (v :: w :: vs) =>
    if anyToStringThrows (v :: w :: vs) then none else some JsNum.nan

/-- `parseFloat(x.toFixed(2))`: a finite value below `10^21` in magnitude is
rounded to the nearest multiple of `1/100`, ties away from zero; larger values
and the non-finite ones print and read back as themselves. -/
def parseFloatToFixed2 : JsNum → JsNum
  | .fin q =>
    if |q| < (10 : ℚ) ^ 21 then
      let n : ℤ := ⌊|q| * 100 + 1 / 2⌋
      JsNum.fin (if q < 0 then -((n : ℚ) / 100) else (n : ℚ) / 100)
    else JsNum.fin q
  | x => x

/-! ## Documents and stores -/

/-- A Mongo `ObjectId`, as the number its twelve bytes denote. -/
abbrev ObjectId := Nat

/-- Modelled from the spec: `models/Product.js` is not among the sources; the
fields are those of the spec's Product record. -/
structure Product where
  id : ObjectId
  name : String
  price : ℚ
  image : String
  description : String
  category : String
  deriving DecidableEq

/-- Modelled from the spec: `models/Cart.js` is not among the sources; the
fields are those of the spec's CartLineItem record. `quantity` holds the number a
handler writes, always a finite one. The record makes it an integer between 1
and 20; the handlers do not test for an integer, so what a write of another
number persists is the schema's to decide: it is the parameter `QuantitySchema`
of `postCartWithSchema` and `putCartWithSchema`, and a statement that needs the
stored quantities to be integers takes that as a hypothesis. -/
structure CartLineItem where
  id : ObjectId
  productId : ObjectId
  quantity : ℚ
  deriving DecidableEq

/-- The `products` collection. -/
abbrev ProductStore := List Product

/-- The `carts` collection. -/
abbrev CartStore := List CartLineItem

/-- A cart document after `.populate('productId')`: the reference is replaced by
the product document, or by `null` when no product has that id. -/
structure JoinedItem where
  id : ObjectId
  productId : Option Product
  quantity : ℚ
  deriving DecidableEq

/-- `Product.findById(id)`. -/
def findById (products : ProductStore) (id : ObjectId) : Option Product :=
  products.find? (fun p => p.id = id)

/-- `Cart.findOne({ productId })`. -/
def findOne (store : CartStore) (productId : ObjectId) : Option CartLineItem :=
  store.find? (fun it => it.productId = productId)

/-- `doc.populate('productId')`. -/
def populate (products : ProductStore) (it : CartLineItem) : JoinedItem :=
  { id := it.id, productId := findById products it.productId, quantity := it.quantity }

/-- The write `{ $set: { quantity } }` on the document whose `_id` is `id`. -/
def setQuantityById (id : ObjectId) (quantity : ℚ) : CartStore → CartStore
  | [] => []
  | it :: rest =>
    if it.id = id then { it with quantity := quantity } :: rest
    else it :: setQuantityById id quantity rest

/-- `Cart.findByIdAndUpdate(id, { quantity }, { new: true })` for an id that casts
to an ObjectId: the updated document, or `null`, and the collection afterwards. -/
def findByIdAndUpdate (store : CartStore) (id : ObjectId) (quantity : ℚ) :
    Option CartLineItem × CartStore :=
  match store.find? (fun it => it.id = id) with
  | some it => (some { it with quantity := quantity }, setQuantityById id quantity store)
  | none => (none, store)

/-- `Cart.findByIdAndDelete(id)` for an id that casts to an ObjectId: the deleted
document, or `null`, and the collection afterwards. -/
def findByIdAndDelete (store : CartStore) (id : ObjectId) : Option CartLineItem × CartStore :=
  (store.find? (fun it => it.id = id), store.eraseP (fun it => it.id = id))

/-- `Cart.deleteMany({})`. -/
def deleteMany (_store : CartStore) : CartStore := []

/-! ## Requests and responses -/

/-- The `productId` field of a request body, by what the handler can do with it:
`falsy` fails the test `!productId`, `malformed` makes
`new mongoose.Types.ObjectId(productId)` throw, `oid` is the ObjectId it yields. -/
inductive IdArg where
  | falsy
  | malformed
  | oid (id : ObjectId)
  deriving DecidableEq

/-- The `:id` segment of a route, a non-empty string: either Mongoose casts it to
an ObjectId, or the query throws a `CastError`. -/
inductive IdParam where
  | malformed
  | oid (id : ObjectId)
  deriving DecidableEq

/-- An element of the `cartItems` array sent to checkout. `broken` is an element
that is `null`, or whose `productId` is missing or `null`: reading
`item.productId.price` throws. Otherwise only `item.productId.price` and
`item.quantity` are read. -/
inductive SnapshotItem where
  | broken
  | line (price : JsValue) (quantity : JsValue)

/-- The `cartItems` field of a checkout body: a falsy value (also when absent), an
array, or a truthy value that is not an array, with whether its `length` is `0`. -/
inductive CartItemsArg where
  | falsy
  | items (xs : List SnapshotItem)
  | nonArray (lengthIsZero : Bool)

/-- The receipt built by checkout. -/
structure Receipt where
  id : String
  items : List SnapshotItem
  total : JsNum
  timestamp : String
  status : String

/-- What a handler passes to `res.json`. -/
inductive Body where
  | error (error : String)
  | message (message : String)
  | item (item : JoinedItem)
  | cart (items : List JoinedItem) (total : JsNum)
  | receipt (receipt : Receipt)

/-- An HTTP response: `res.status(status).json(body)`, status `200` by default. -/
structure Response where
  status : Nat
  body : Body

/-- `res.json(body)`. -/
def Response.ok (body : Body) : Response := { status := 200, body := body }

/-- `res.status(status).json({ error })`. -/
def Response.fail (status : Nat) (error : String) : Response :=
  { status := status, body := Body.error error }

/-! ## `routes/cart.js` -/

/-- The reducer of `GET /cart`, `sum + item.productId.price * item.quantity`;
`none` when `item.productId` is `null` and the property read throws. -/
def cartTotal : List JoinedItem → JsNum → Option JsNum
  | [], sum => some sum
  | it :: rest, sum =>
    match it.productId with
    | none => none
    | some p => cartTotal rest (sum.add ((JsNum.fin p.price).mul (JsNum.fin it.quantity)))

/-- The handler of `GET /cart`. -/
def getCart (products : ProductStore) (store : CartStore) : Response × CartStore :=
  let cartItems := store.map (populate products)
  match cartTotal cartItems (JsNum.fin 0) with
  | some total => (Response.ok (Body.cart cartItems (parseFloatToFixed2 total)), store)
  | none => (Response.fail 500 "Failed to fetch cart", store)

/-- The destructuring default `quantity = 1` of `POST /cart`: it applies when
the field is `undefined`, and to no other value. -/
def quantityOrDefault : JsValue → JsValue
  | .undefined => JsValue.num (JsNum.fin 1)
  | v => v

/-- The handler of `POST /cart`. `newId` is the `_id` the driver gives a new
document. An absent `quantity` defaults to `1`. -/
def postCart (products : ProductStore) (newId : ObjectId) (productId : IdArg)
    (quantity : JsValue) (store : CartStore) : Response × CartStore :=
  match productId with
  | .falsy => (Response.fail 400 "productId is required", store)
  | .malformed => (Response.fail 400 "Invalid productId", store)
  | .oid productObjectId =>
    match toNumber (quantityOrDefault quantity) with
    | none => (Response.fail 500 "Failed to add item to cart", store)
    | some (.fin qty) =>
      if qty < 1 then (Response.fail 400 "Quantity must be at least 1", store)
      else
        match findById products productObjectId with
        | none => (Response.fail 404 "Product not found", store)
        | some _ =>
          match findOne store productObjectId with
          | some existing =>
            let newQty := min (existing.quantity + qty) 20
            let existing := { existing with quantity := newQty }
            (Response.ok (Body.item (populate products existing)),
              setQuantityById existing.id newQty store)
          | none =>
            let newItem : CartLineItem :=
              { id := newId, productId := productObjectId, quantity := min qty 20 }
            (Response.ok (Body.item (populate products newItem)), store ++ [newItem])
    | some _ => (Response.fail 400 "Quantity must be at least 1", store)

/-- The handler of `DELETE /cart/:id`. -/
def deleteCart (id : IdParam) (store : CartStore) : Response × CartStore :=
  match id with
  | .malformed => (Response.fail 500 "Failed to remove item from cart", store)
  | .oid id =>
    match findByIdAndDelete store id with
    | (none, _) => (Response.fail 404 "Cart item not found", store)
    | (some _, store') => (Response.ok (Body.message "Item removed from cart"), store')

/-- The handler of `PUT /cart/:id`. -/
def putCart (products : ProductStore) (id : IdParam) (quantity : JsValue)
    (store : CartStore) : Response × CartStore :=
  match toNumber quantity with
  | none => (Response.fail 500 "Failed to update cart item", store)
  | some (.fin q) =>
    let clamped := min (max q 1) 20
    match id with
    | .malformed => (Response.fail 500 "Failed to update cart item", store)
    | .oid id =>
      match findByIdAndUpdate store id clamped with
      | (none, _) => (Response.fail 404 "Cart item not found", store)
      | (some updatedItem, store') =>
        (Response.ok (Body.item (populate products updatedItem)), store')
  | some _ => (Response.fail 400 "Quantity must be a number", store)

/-! ## `routes/checkout.js` -/

/-- The reducer of checkout, `sum + item.productId.price * item.quantity`; `none`
when a property read or a conversion to a number throws. -/
def snapshotTotal : List SnapshotItem → JsNum → Option JsNum
  | [], sum => some sum
  | .broken :: _, _ => none
  | .line price quantity :: rest, sum =>
    match toNumber price, toNumber quantity with
    | some p, some q => snapshotTotal rest (sum.add (p.mul q))
    | _, _ => none

/-- `crypto.randomInt(min, max)`: an integer in `[min, max)` picked by the
entropy source, here the number `entropy`. -/
def randomInt (min max entropy : Nat) : Nat := min + entropy % (max - min)

/-- `generate12DigitId` of checkout. -/
def generate12DigitId (entropy : Nat) : String :=
  toString (randomInt (10 ^ 11) (10 ^ 12) entropy)

/-- The handler of `POST /checkout`. `entropy` feeds the id generator and `now`
is `new Date().toISOString()`. -/
def postCheckout (entropy : Nat) (now : String) (cartItems : CartItemsArg)
    (store : CartStore) : Response × CartStore :=
  match cartItems with
  | .falsy => (Response.fail 400 "Cart is empty", store)
  | .nonArray lengthIsZero =>
    if lengthIsZero then (Response.fail 400 "Cart is empty", store)
    else (Response.fail 500 "Checkout failed", store)
  | .items xs =>
    if xs.length = 0 then (Response.fail 400 "Cart is empty", store)
    else
      match snapshotTotal xs (JsNum.fin 0) with
      | none => (Response.fail 500 "Checkout failed", store)
      | some total =>
        let receipt : Receipt :=
          { id := generate12DigitId entropy
            items := xs
            total := parseFloatToFixed2 total
            timestamp := now
            status := "completed" }
        (Response.ok (Body.receipt receipt), deleteMany store)

/-! ## Sequences of requests -/

/-- One call of the cart and checkout API, with what the environment supplies
to it. -/
inductive Request where
  | addOrIncrement (newId : ObjectId) (productId : IdArg) (quantity : JsValue)
  | setQuantity (id : IdParam) (quantity : JsValue)
  | remove (id : IdParam)
  | checkout (entropy : Nat) (now : String) (cartItems : CartItemsArg)
  | getCart

/-- Dispatch of one request to its handler. -/
def handle (products : ProductStore) (store : CartStore) : Request → Response × CartStore
  | .addOrIncrement newId productId quantity => postCart products newId productId quantity store
  | .setQuantity id quantity => putCart products id quantity store
  | .remove id => deleteCart id store
  | .checkout entropy now cartItems => postCheckout entropy now cartItems store
  | .getCart => getCart products store

/-- The cart store after a sequence of requests served one after the other. -/
def run (products : ProductStore) (store : CartStore) (reqs : List Request) : CartStore :=
  reqs.foldl (fun s r => (handle products s r).2) store

/-! ## Predicates on stores -/

/-- Line-item ids are pairwise distinct (Mongo's unique index on `_id`). -/
def DistinctIds (store : CartStore) : Prop := (store.map (fun it => it.id)).Nodup

/-- At most one line item per product. -/
def UniqueProducts (store : CartStore) : Prop := (store.map (fun it => it.productId)).Nodup

/-- Every line item has a quantity between 1 and 20. -/
def QuantitiesInRange (store : CartStore) : Prop :=
  ∀ it ∈ store, 1 ≤ it.quantity ∧ it.quantity ≤ 20

/-- The store with the quantity of the line item `id` replaced, every line item
with another id kept as it is. -/
def withQuantity (id : ObjectId) (quantity : ℚ) (store : CartStore) : CartStore :=
  store.map (fun it => if it.id = id then { it with quantity := quantity } else it)

/-- The quantity of a `POST /cart` body passes the handler's test: after the
default for an absent field, `Number(quantity)` is finite and at least 1. -/
def QuantityAccepted (quantity : JsValue) : Prop :=
  ∃ q, toNumber (quantityOrDefault quantity) = some (JsNum.fin q) ∧ 1 ≤ q

/-- The quantity of a `POST /cart` body fails the handler's test: `Number(quantity)`
is a number, but not a finite one that is at least 1. -/
def QuantityRefused (quantity : JsValue) : Prop :=
  ∃ n, toNumber (quantityOrDefault quantity) = some n ∧ ∀ q, n = JsNum.fin q → q < 1

/-- The number is an integer. -/
def IsInteger (q : ℚ) : Prop := q.den = 1

/-- The number is a double: rounding leaves it as it is. -/
def IsDouble (x : ℚ) : Prop := roundDouble x = x

/-- The request is an add that gives the document it may insert the id `id`. -/
def Request.createsId (id : ObjectId) : Request → Prop
  | .addOrIncrement newId _ _ => newId = id
  | _ => False

/-! ## The spec's total -/

/-- The price the join finds for a line item: that of the first product with the
id, `0` when there is none. -/
def priceOf (products : ProductStore) (productId : ObjectId) : ℚ :=
  match findById products productId with
  | some p => p.price
  | none => 0

/-- The spec's `Σ price × quantity` over the line items of the store, each
joined with its product. -/
def subtotal (products : ProductStore) (store : CartStore) : ℚ :=
  (store.map (fun it => priceOf products it.productId * it.quantity)).sum

/-- The spec's rounding to 2 decimals, as a relation: `t` is a multiple of
`1/100` at distance at most `1/200` from `x`. -/
def IsRoundedTo2 (x t : ℚ) : Prop := (∃ n : ℤ, t = n / 100) ∧ |t - x| ≤ 1 / 200

/-- The spec's `round(x, 2)` for a non-negative `x`: the nearest multiple of
`1/100`, a tie going upward. -/
def round2 (x : ℚ) : ℚ := ((⌊x * 100 + 1 / 2⌋ : ℤ) : ℚ) / 100

/-- What holds of every double: at a magnitude of `10^21` or more it is an
integer. -/
def LargeIsInteger (x : ℚ) : Prop := (10 : ℚ) ^ 21 ≤ |x| → IsInteger x

/-- A well-formed element of a checkout snapshot: a product price and a
quantity, both finite numbers. -/
def SnapshotItem.ofLine (line : ℚ × ℚ) : SnapshotItem :=
  SnapshotItem.line (JsValue.num (JsNum.fin line.1)) (JsValue.num (JsNum.fin line.2))

/-- The spec's `Σ item.product.price × item.quantity` over a well-formed
snapshot, given as (price, quantity) pairs. -/
def snapshotSum (lines : List (ℚ × ℚ)) : ℚ := (lines.map (fun l => l.1 * l.2)).sum

/-- The element can be priced: it has a `productId`, and its price and quantity
convert to numbers without throwing. -/
def SnapshotItem.evaluates : SnapshotItem → Bool
  | .broken => false
  | .line price quantity => (toNumber price).isSome && (toNumber quantity).isSome

/-! ## Line items and the products they reference -/

/-- Every line item references a product of the product store. -/
def ReferencesExist (products : ProductStore) (store : CartStore) : Prop :=
  ∀ it ∈ store, ∃ prod ∈ products, prod.id = it.productId

/-! ## The client: checkout -/

/-- An item of the `items` array of `GET /cart` as the client sends it back in
`cartItems`: the handler of checkout reads `item.productId.price` and
`item.quantity` of it, and `item.productId` is `null` when the join found no
product. -/
def JoinedItem.toSnapshotItem (item : JoinedItem) : SnapshotItem :=
  match item.productId with
  | some product =>
    SnapshotItem.line (JsValue.num (JsNum.fin product.price))
      (JsValue.num (JsNum.fin item.quantity))
  | none => SnapshotItem.broken

/-- `checkout(cart.items)` of `CheckoutModal.handleSubmit`: the request the
client sends for the cart it was given by `GET /cart`. -/
def handleSubmit (entropy : Nat) (now : String) (items : List JoinedItem) : Request :=
  Request.checkout entropy now (CartItemsArg.items (items.map JoinedItem.toSnapshotItem))

/-! ## `server.js`: topping up the catalogue -/

/-- A product before it is inserted: the fields the seeding code supplies. -/
structure ProductData where
  name : String
  price : ℚ
  image : String
  description : String
  category : String
  deriving DecidableEq

/-- The constant `moreProducts` of `ensureMinimumProducts`. -/
def moreProducts : List ProductData :=
  [ { name := "Mechanical Keyboard", price := 11999 / 100,
      image := "https://images.unsplash.com/photo-1517336714731-489689fd1ca8?w=400&h=400&fit=crop&q=80",
      description := "Tactile switches and sturdy build.", category := "electronics" },
    { name := "USB-C Hub", price := 3999 / 100,
      image := "https://images.unsplash.com/photo-1555617117-08fda9b86ea3?w=400&h=400&fit=crop&q=80",
      description := "Expand your laptop ports easily.", category := "accessories" },
    { name := "Noise Cancelling Earbuds", price := 8999 / 100,
      image := "https://images.unsplash.com/photo-1518443893430-bbb00e409013?w=400&h=400&fit=crop&q=80",
      description := "Immersive sound on the go.", category := "electronics" },
    { name := "Portable SSD", price := 14999 / 100,
      image := "https://images.unsplash.com/photo-1546435770-a3e426bf472b?w=400&h=400&fit=crop&q=80",
      description := "Fast external storage.", category := "electronics" },
    { name := "4K Monitor", price := 39999 / 100,
      image := "https://images.unsplash.com/photo-1517336714731-489689fd1ca8?w=400&h=400&fit=crop&q=80",
      description := "Crisp visuals for work and play.", category := "electronics" },
    { name := "Smart Watch", price := 19999 / 100,
      image := "https://images.unsplash.com/photo-1523275335684-37898b6baf30?w=400&h=400&fit=crop&q=80",
      description := "Track fitness and stay connected.", category := "wearables" },
    { name := "Wireless Charger", price := 2999 / 100,
      image := "https://images.unsplash.com/photo-1518770660439-4636190af475?w=400&h=400&fit=crop&q=80",
      description := "Convenient Qi charging pad.", category := "accessories" },
    { name := "Fitness Tracker", price := 5999 / 100,
      image := "https://images.unsplash.com/photo-1518623489647-4db959c981be?w=400&h=400&fit=crop&q=80",
      description := "Monitor activity and health.", category := "wearables" },
    { name := "Action Camera", price := 24999 / 100,
      image := "https://images.unsplash.com/photo-1519181245277-cffeb31da2a1?w=400&h=400&fit=crop&q=80",
      description := "Capture adventures in 4K.", category := "electronics" },
    { name := "Drone", price := 59999 / 100,
      image := "https://images.unsplash.com/photo-1523961131990-5ea7d99bb13e?w=400&h=400&fit=crop&q=80",
      description := "Aerial photography made easy.", category := "electronics" },
    { name := "Desk Lamp", price := 3999 / 100,
      image := "https://images.unsplash.com/photo-1512453979798-5ea266f8880c?w=400&h=400&fit=crop&q=80",
      description := "Minimal LED lamp with dimmer.", category := "home" },
    { name := "Laptop Stand", price := 4999 / 100,
      image := "https://images.unsplash.com/photo-1611185974273-3f182a6469ee?w=400&h=400&fit=crop&q=80",
      description := "Ergonomic aluminum stand.", category := "accessories" } ]

/-- `Product.insertMany(docs)`: the documents are appended, the driver giving the
`i`-th of them the id `newId i`. -/
def insertMany (newId : Nat → ObjectId) (docs : List ProductData)
    (products : ProductStore) : ProductStore :=
  products ++ (List.range docs.length).zipWith (fun i d =>
    { id := newId i, name := d.name, price := d.price, image := d.image,
      description := d.description, category := d.category }) docs

/-- The function `ensureMinimumProducts(minCount)` of `server.js`, when no storage
operation fails: the product store afterwards. The only call in `server.js`
passes `minCount = 20`, which is also the default. -/
def ensureMinimumProducts (newId : Nat → ObjectId) (minCount : Nat)
    (products : ProductStore) : ProductStore :=
  let count := products.length
  if count < minCount then
    let needed := minCount - count
    let toInsert := moreProducts.take needed
    if toInsert.length > 0 then insertMany newId toInsert products
    else products
  else products

/-! ## The client: decrement buttons -/

/-- The handler `handleDecrement(item)` of `CartView`: the request it sends for
the displayed item. -/
def CartView.handleDecrement (item : JoinedItem) : Request :=
  if item.quantity ≤ 1 then Request.remove (IdParam.oid item.id)
  else
    Request.setQuantity (IdParam.oid item.id) (JsValue.num (JsNum.fin (item.quantity - 1)))

/-- `getCartItem(productId)` of `ProductGrid`, a lookup in `cartIndexByProductId`:
the index is filled in the order of `cartItems` from the items whose product was
found, so a product id is mapped to the last such item. -/
def ProductGrid.getCartItem (cartItems : List JoinedItem) (productId : ObjectId) :
    Option JoinedItem :=
  (cartItems.filter (fun item =>
    match item.productId with
    | some product => product.id = productId
    | none => false)).getLast?

/-- The handler `handleDecrement(productId)` of `ProductGrid`: the request it
sends, none when the product has no cart item. -/
def ProductGrid.handleDecrement (cartItems : List JoinedItem) (productId : ObjectId) :
    Option Request :=
  match ProductGrid.getCartItem cartItems productId with
  | none => none
  | some item =>
    if item.quantity ≤ 1 then some (Request.remove (IdParam.oid item.id))
    else
      some (Request.setQuantity (IdParam.oid item.id)
        (JsValue.num (JsNum.fin (item.quantity - 1))))

/-! ## Concurrent calls of `POST /cart` -/

/-- Lines 52-64 of `routes/cart.js` run without interruption: the store after
`Cart.findOne` and the `save` that follows it. -/
def addOrIncrementStore (productObjectId : ObjectId) (qty : ℚ) (newId : ObjectId)
    (store : CartStore) : CartStore :=
  match findOne store productObjectId with
  | some existing => setQuantityById existing.id (min (existing.quantity + qty) 20) store
  | none => store ++ [{ id := newId, productId := productObjectId, quantity := min qty 20 }]

/-- Where a call of `POST /cart` stands in lines 52-64. The handler gives up
control at each `await`: once before `Cart.findOne` answers, once before `save`
answers; `beforeSave` holds the document `existing` that `findOne` returned, or
`null`. -/
inductive AddPc where
  | beforeFindOne
  | beforeSave (existing : Option CartLineItem)
  | done
  deriving DecidableEq

/-- A call of `POST /cart` in flight, with the `_id` the driver gives the
document it may insert. -/
structure AddCall where
  newId : ObjectId
  pc : AddPc
  deriving DecidableEq

/-- The next storage operation of a call: `Cart.findOne`, which only reads, or
`save`, which writes what the call decided from its own earlier read. -/
def stepAdd (productObjectId : ObjectId) (qty : ℚ) (store : CartStore) (call : AddCall) :
    CartStore × AddCall :=
  match call.pc with
  | .beforeFindOne =>
    (store, { call with pc := AddPc.beforeSave (findOne store productObjectId) })
  | .beforeSave (some existing) =>
    let newQty := min (existing.quantity + qty) 20
    (setQuantityById existing.id newQty store, { call with pc := AddPc.done })
  | .beforeSave none =>
    (store ++ [{ id := call.newId, productId := productObjectId, quantity := min qty 20 }],
      { call with pc := AddPc.done })
  | .done => (store, call)

/-- The event loop lets call number `i` perform its next storage operation. -/
def stepAt (productObjectId : ObjectId) (qty : ℚ) (state : CartStore × List AddCall)
    (i : Nat) : CartStore × List AddCall :=
  match state.2.get? i with
  | none => state
  | some call =>
    ((stepAdd productObjectId qty state.1 call).1,
      state.2.set i (stepAdd productObjectId qty state.1 call).2)

/-- The store and the calls after the storage operations were performed in the
order of `schedule`, a list of call numbers. -/
def runSchedule (productObjectId : ObjectId) (qty : ℚ) (state : CartStore × List AddCall)
    (schedule : List Nat) : CartStore × List AddCall :=
  schedule.foldl (stepAt productObjectId qty) state

/-- The schedule `0, 0, 1, 1, ..., n-1, n-1`: each call reads and writes before
the next one starts. -/
def serialSchedule : Nat → List Nat
  | 0 => []
  | n + 1 => 0 :: 0 :: (serialSchedule n).map (fun i => i + 1)

/-- A call that has not started. -/
def AddCall.fresh (newId : ObjectId) : AddCall := { newId := newId, pc := AddPc.beforeFindOne }

/-- A call that has finished. -/
def AddCall.finished (newId : ObjectId) : AddCall := { newId := newId, pc := AddPc.done }

/-! ## Storage failures -/

/-- A storage failure injected into one call: the storage operation number
`index` of the call, counted from 0 in the order the call reaches them, rejects
with an error of content `error`. A rejected operation has no effect on the
store. -/
structure Fault where
  index : Nat
  error : String

/-- The error, if any, with which storage operation number `k` of the call
rejects. -/
def storageError (fault : Option Fault) (k : Nat) : Option String :=
  match fault with
  | some f => if f.index = k then some f.error else none
  | none => none

/-- The handler of `GET /cart` with its `try`/`catch`. Operation 0 is
`Cart.find().populate('productId')`. -/
def getCartWithFault (fault : Option Fault) (products : ProductStore) (store : CartStore) :
    Response × CartStore :=
  match storageError fault 0 with
  | some _error => (Response.fail 500 "Failed to fetch cart", store)
  | none => getCart products store

/-- The handler of `POST /cart` with its `try`/`catch`. Operation 0 is
`Product.findById`, 1 is `Cart.findOne`, 2 is `save`, 3 is `populate`. -/
def postCartWithFault (fault : Option Fault) (products : ProductStore) (newId : ObjectId)
    (productId : IdArg) (quantity : JsValue) (store : CartStore) : Response × CartStore :=
  match productId with
  | .falsy => (Response.fail 400 "productId is required", store)
  | .malformed => (Response.fail 400 "Invalid productId", store)
  | .oid productObjectId =>
    match toNumber (quantityOrDefault quantity) with
    | none => (Response.fail 500 "Failed to add item to cart", store)
    | some (.fin qty) =>
      if qty < 1 then (Response.fail 400 "Quantity must be at least 1", store)
      else
        match storageError fault 0 with
        | some _error => (Response.fail 500 "Failed to add item to cart", store)
        | none =>
          match findById products productObjectId with
          | none => (Response.fail 404 "Product not found", store)
          | some _ =>
            match storageError fault 1 with
            | some _error => (Response.fail 500 "Failed to add item to cart", store)
            | none =>
              match findOne store productObjectId with
              | some existing =>
                let newQty := min (existing.quantity + qty) 20
                let existing := { existing with quantity := newQty }
                match storageError fault 2 with
                | some _error => (Response.fail 500 "Failed to add item to cart", store)
                | none =>
                  match storageError fault 3 with
                  | some _error =>
                    (Response.fail 500 "Failed to add item to cart",
                      setQuantityById existing.id newQty store)
                  | none =>
                    (Response.ok (Body.item (populate products existing)),
                      setQuantityById existing.id newQty store)
              | none =>
                let newItem : CartLineItem :=
                  { id := newId, productId := productObjectId, quantity := min qty 20 }
                match storageError fault 2 with
                | some _error => (Response.fail 500 "Failed to add item to cart", store)
                | none =>
                  match storageError fault 3 with
                  | some _error =>
                    (Response.fail 500 "Failed to add item to cart", store ++ [newItem])
                  | none =>
                    (Response.ok (Body.item (populate products newItem)), store ++ [newItem])
    | some _ => (Response.fail 400 "Quantity must be at least 1", store)

/-- The handler of `DELETE /cart/:id` with its `try`/`catch`. Operation 0 is
`Cart.findByIdAndDelete`. -/
def deleteCartWithFault (fault : Option Fault) (id : IdParam) (store : CartStore) :
    Response × CartStore :=
  match storageError fault 0 with
  | some _error => (Response.fail 500 "Failed to remove item from cart", store)
  | none => deleteCart id store

/-- The handler of `PUT /cart/:id` with its `try`/`catch`. Operation 0 is
`Cart.findByIdAndUpdate`, operation 1 the `populate` chained to it, which runs
when a document was found. -/
def putCartWithFault (fault : Option Fault) (products : ProductStore) (id : IdParam)
    (quantity : JsValue) (store : CartStore) : Response × CartStore :=
  match toNumber quantity with
  | none => (Response.fail 500 "Failed to update cart item", store)
  | some (.fin q) =>
    let clamped := min (max q 1) 20
    match storageError fault 0 with
    | some _error => (Response.fail 500 "Failed to update cart item", store)
    | none =>
      match id with
      | .malformed => (Response.fail 500 "Failed to update cart item", store)
      | .oid id =>
        match findByIdAndUpdate store id clamped with
        | (none, _) => (Response.fail 404 "Cart item not found", store)
        | (some updatedItem, store') =>
          match storageError fault 1 with
          | some _error => (Response.fail 500 "Failed to update cart item", store')
          | none => (Response.ok (Body.item (populate products updatedItem)), store')
  | some _ => (Response.fail 400 "Quantity must be a number", store)

/-- The handler of `POST /checkout` with its `try`/`catch`. Operation 0 is
`Cart.deleteMany`. -/
def postCheckoutWithFault (fault : Option Fault) (entropy : Nat) (now : String)
    (cartItems : CartItemsArg) (store : CartStore) : Response × CartStore :=
  match cartItems with
  | .falsy => (Response.fail 400 "Cart is empty", store)
  | .nonArray lengthIsZero =>
    if lengthIsZero then (Response.fail 400 "Cart is empty", store)
    else (Response.fail 500 "Checkout failed", store)
  | .items xs =>
    if xs.length = 0 then (Response.fail 400 "Cart is empty", store)
    else
      match snapshotTotal xs (JsNum.fin 0) with
      | none => (Response.fail 500 "Checkout failed", store)
      | some total =>
        match storageError fault 0 with
        | some _error => (Response.fail 500 "Checkout failed", store)
        | none =>
          let receipt : Receipt :=
            { id := generate12DigitId entropy
              items := xs
              total := parseFloatToFixed2 total
              timestamp := now
              status := "completed" }
          (Response.ok (Body.receipt receipt), deleteMany store)

/-- Dispatch of one request to its handler, with a possible storage failure. -/
def handleWithFault (fault : Option Fault) (products : ProductStore) (store : CartStore) :
    Request → Response × CartStore
  | .addOrIncrement newId productId quantity =>
    postCartWithFault fault products newId productId quantity store
  | .setQuantity id quantity => putCartWithFault fault products id quantity store
  | .remove id => deleteCartWithFault fault id store
  | .checkout entropy now cartItems => postCheckoutWithFault fault entropy now cartItems store
  | .getCart => getCartWithFault fault products store

/-- The message of the `catch` block of the handler that serves the request. -/
def internalMessage : Request → String
  | .addOrIncrement _ _ _ => "Failed to add item to cart"
  | .setQuantity _ _ => "Failed to update cart item"
  | .remove _ => "Failed to remove item from cart"
  | .checkout _ _ _ => "Checkout failed"
  | .getCart => "Failed to fetch cart"

/-- The number of storage operations the handler performs for the request when
none of them fails. -/
def storageOps (products : ProductStore) (store : CartStore) : Request → Nat
  | .addOrIncrement _ productId quantity =>
    match productId with
    | .oid productObjectId =>
      match toNumber (quantityOrDefault quantity) with
      | some (.fin qty) =>
        if qty < 1 then 0
        else if (findById products productObjectId).isSome then 4 else 1
      | _ => 0
    | _ => 0
  | .setQuantity id quantity =>
    match toNumber quantity with
    | some (.fin _) =>
      match id with
      | .malformed => 1
      | .oid id => if (store.find? (fun it => it.id = id)).isSome then 2 else 1
    | _ => 0
  | .remove _ => 1
  | .checkout _ _ cartItems =>
    match cartItems with
    | .items xs => if xs.length ≠ 0 ∧ (snapshotTotal xs (JsNum.fin 0)).isSome then 1 else 0
    | _ => 0
  | .getCart => 1

/-! ## `POST /cart` in double arithmetic

`postCart` adds `existing.quantity + qty` exactly. `postCartDouble` is the same
handler with the sum rounded to a double, as the `+` of JavaScript does; the two
agree whenever the sum is a double already, as it is for integer quantities. -/

/-- The handler of `POST /cart` with the sum `existing.quantity + qty` rounded to
a double. -/
def postCartDouble (products : ProductStore) (newId : ObjectId) (productId : IdArg)
    (quantity : JsValue) (store : CartStore) : Response × CartStore :=
  match productId with
  | .falsy => (Response.fail 400 "productId is required", store)
  | .malformed => (Response.fail 400 "Invalid productId", store)
  | .oid productObjectId =>
    match toNumber (quantityOrDefault quantity) with
    | none => (Response.fail 500 "Failed to add item to cart", store)
    | some (.fin qty) =>
      if qty < 1 then (Response.fail 400 "Quantity must be at least 1", store)
      else
        match findById products productObjectId with
        | none => (Response.fail 404 "Product not found", store)
        | some _ =>
          match findOne store productObjectId with
          | some existing =>
            let newQty := min (roundDouble (existing.quantity + qty)) 20
            let existing := { existing with quantity := newQty }
            (Response.ok (Body.item (populate products existing)),
              setQuantityById existing.id newQty store)
          | none =>
            let newItem : CartLineItem :=
              { id := newId, productId := productObjectId, quantity := min qty 20 }
            (Response.ok (Body.item (populate products newItem)), store ++ [newItem])
    | some _ => (Response.fail 400 "Quantity must be at least 1", store)

/-- The quantity of the line item `Cart.findOne` finds for the product. -/
def quantityOf (store : CartStore) (productId : ObjectId) : Option ℚ :=
  (findOne store productId).map (fun it => it.quantity)

/-- The prior quantity of the spec: that of the product's line item, `0` when it
has none. -/
def priorQuantity (store : CartStore) (productId : ObjectId) : ℚ :=
  match findOne store productId with
  | some it => it.quantity
  | none => 0

/-- Calls of `POST /cart` for one product and one quantity, each made after the
one before has responded; `newIds` gives each call the id of the document it may
insert. -/
def sequentialAdds (products : ProductStore) (p : ObjectId) (quantity : JsValue) :
    List ObjectId → CartStore → CartStore
  | [], store => store
  | newId :: rest, store =>
    sequentialAdds products p quantity rest
      (postCartDouble products newId (IdArg.oid p) quantity store).2

/-! ## Totals in double arithmetic

`cartTotal` and `snapshotTotal` add and multiply exactly. The reducers below are
the same reducers with every product and every partial sum rounded to a double,
as `*` and `+` of JavaScript do, an overflow giving `Infinity`. -/

/-- The reducer of `GET /cart`, `sum + item.productId.price * item.quantity`, in
double arithmetic; `none` when `item.productId` is `null` and the property read
throws. -/
def cartTotalDouble : List JoinedItem → JsNum → Option JsNum
  | [], sum => some sum
  | it :: rest, sum =>
    match it.productId with
    | none => none
    | some p =>
      cartTotalDouble rest
        (sum.addDouble ((JsNum.fin p.price).mulDouble (JsNum.fin it.quantity)))

/-- The handler of `GET /cart`, the total computed in double arithmetic. -/
def getCartDouble (products : ProductStore) (store : CartStore) : Response × CartStore :=
  let cartItems := store.map (populate products)
  match cartTotalDouble cartItems (JsNum.fin 0) with
  | some total => (Response.ok (Body.cart cartItems (parseFloatToFixed2 total)), store)
  | none => (Response.fail 500 "Failed to fetch cart", store)

/-- The reducer of checkout, `sum + item.productId.price * item.quantity`, in
double arithmetic; `none` when a property read or a conversion to a number
throws. -/
def snapshotTotalDouble : List SnapshotItem → JsNum → Option JsNum
  | [], sum => some sum
  | .broken :: _, _ => none
  | .line price quantity :: rest, sum =>
    match toNumber price, toNumber quantity with
    | some p, some q => snapshotTotalDouble rest (sum.addDouble (p.mulDouble q))
    | _, _ => none

/-- The handler of `POST /checkout`, the total computed in double arithmetic. -/
def postCheckoutDouble (entropy : Nat) (now : String) (cartItems : CartItemsArg)
    (store : CartStore) : Response × CartStore :=
  match cartItems with
  | .falsy => (Response.fail 400 "Cart is empty", store)
  | .nonArray lengthIsZero =>
    if lengthIsZero then (Response.fail 400 "Cart is empty", store)
    else (Response.fail 500 "Checkout failed", store)
  | .items xs =>
    if xs.length = 0 then (Response.fail 400 "Cart is empty", store)
    else
      match snapshotTotalDouble xs (JsNum.fin 0) with
      | none => (Response.fail 500 "Checkout failed", store)
      | some total =>
        let receipt : Receipt :=
          { id := generate12DigitId entropy
            items := xs
            total := parseFloatToFixed2 total
            timestamp := now
            status := "completed" }
        (Response.ok (Body.receipt receipt), deleteMany store)

/-- The spec's `Σ price × quantity` over (price, quantity) pairs, evaluated as
JavaScript evaluates it: from 0 and from left to right, each product and each
partial sum rounded to a double. -/
def doubleSum (lines : List (ℚ × ℚ)) : JsNum :=
  lines.foldl
    (fun sum l => sum.addDouble ((JsNum.fin l.1).mulDouble (JsNum.fin l.2))) (JsNum.fin 0)

/-- The spec's `Σ price × quantity` over the line items of the store, each joined
with its product, in double arithmetic. -/
def subtotalDouble (products : ProductStore) (store : CartStore) : JsNum :=
  doubleSum (store.map (fun it => (priceOf products it.productId, it.quantity)))

/-! ## The schema of a line item

The handlers hand the quantity they computed to `save()` or to
`findByIdAndUpdate`; what is then persisted is decided by the schema of
`models/Cart.js`. The handlers above persist the number as it is. -/

/-- Modelled from the spec: the `quantity` path of the Mongoose schema in
`models/Cart.js`, which is not among the sources. A write of the number `q` to
`quantity` persists `schema q`; it is refused, the storage operation rejecting,
when that is `none`. -/
abbrev QuantitySchema : Type := ℚ → Option ℚ

/-- Modelled from the spec: the schema keeps the record
`quantity (integer, 1 ≤ quantity ≤ 20)` of CartLineItem: whatever it persists is
an integer between 1 and 20. -/
def QuantitySchema.PerSpec (schema : QuantitySchema) : Prop :=
  ∀ q v, schema q = some v → IsInteger v ∧ 1 ≤ v ∧ v ≤ 20

/-- Modelled from the spec: the schema that persists an integer between 1 and 20
as it is and refuses every other number. -/
def strictSchema : QuantitySchema :=
  fun q => if q.den = 1 ∧ 1 ≤ q ∧ q ≤ 20 then some q else none

/-- The schema that persists every number as it is. -/
def plainSchema : QuantitySchema := fun q => some q

/-- The handler of `POST /cart`, the sum rounded to a double, with the schema
applied by `save()`: a refused write is caught and answered 500. -/
def postCartWithSchema (schema : QuantitySchema) (products : ProductStore) (newId : ObjectId)
    (productId : IdArg) (quantity : JsValue) (store : CartStore) : Response × CartStore :=
  match productId with
  | .falsy => (Response.fail 400 "productId is required", store)
  | .malformed => (Response.fail 400 "Invalid productId", store)
  | .oid productObjectId =>
    match toNumber (quantityOrDefault quantity) with
    | none => (Response.fail 500 "Failed to add item to cart", store)
    | some (.fin qty) =>
      if qty < 1 then (Response.fail 400 "Quantity must be at least 1", store)
      else
        match findById products productObjectId with
        | none => (Response.fail 404 "Product not found", store)
        | some _ =>
          match findOne store productObjectId with
          | some existing =>
            let newQty := min (roundDouble (existing.quantity + qty)) 20
            match schema newQty with
            | none => (Response.fail 500 "Failed to add item to cart", store)
            | some persisted =>
              let existing := { existing with quantity := persisted }
              (Response.ok (Body.item (populate products existing)),
                setQuantityById existing.id persisted store)
          | none =>
            match schema (min qty 20) with
            | none => (Response.fail 500 "Failed to add item to cart", store)
            | some persisted =>
              let newItem : CartLineItem :=
                { id := newId, productId := productObjectId, quantity := persisted }
              (Response.ok (Body.item (populate products newItem)), store ++ [newItem])
    | some _ => (Response.fail 400 "Quantity must be at least 1", store)

/-- The handler of `PUT /cart/:id` with the schema applied by
`findByIdAndUpdate`, which casts the update before it queries: a refused write
is caught and answered 500. -/
def putCartWithSchema (schema : QuantitySchema) (products : ProductStore) (id : IdParam)
    (quantity : JsValue) (store : CartStore) : Response × CartStore :=
  match toNumber quantity with
  | none => (Response.fail 500 "Failed to update cart item", store)
  | some (.fin q) =>
    let clamped := min (max q 1) 20
    match id with
    | .malformed => (Response.fail 500 "Failed to update cart item", store)
    | .oid id =>
      match schema clamped with
      | none => (Response.fail 500 "Failed to update cart item", store)
      | some persisted =>
        match findByIdAndUpdate store id persisted with
        | (none, _) => (Response.fail 404 "Cart item not found", store)
        | (some updatedItem, store') =>
          (Response.ok (Body.item (populate products updatedItem)), store')
  | some _ => (Response.fail 400 "Quantity must be a number", store)

/-! ## Sample data -/

/-- Two of the products of `seedProducts`, with ids 1 and 2. -/
def sampleProducts : ProductStore :=
  [ { id := 1, name := "Wireless Headphones", price := 9999 / 100, image := "",
      description := "", category := "" },
    { id := 2, name := "Smartphone", price := 69999 / 100, image := "",
      description := "", category := "" } ]

/-- A cart with three headphones (line item 10) and nineteen smartphones (line
item 11). -/
def sampleCart : CartStore :=
  [ { id := 10, productId := 1, quantity := 3 },
    { id := 11, productId := 2, quantity := 19 } ]

/-- The sample products priced in doubles: the doubles nearest to 99.99 and to
699.99. -/
def sampleProductsDouble : ProductStore :=
  [ { id := 1, name := "Wireless Headphones", price := 7036170730324623 / 2 ^ 46, image := "",
      description := "", category := "" },
    { id := 2, name := "Smartphone", price := 3078588577307689 / 2 ^ 42, image := "",
      description := "", category := "" } ]

/-! ## Lemmas on the store operations -/

theorem setQuantityById_eq_of_not_mem (id : ObjectId) (q : ℚ) (store : CartStore)
    (h : ∀ it ∈ store, it.id ≠ id) : setQuantityById id q store = store := by
  induction store with
  | nil => rfl
  | cons x xs ih =>
    have hx : x.id ≠ id := h x (List.mem_cons_self _ _)
    simp only [setQuantityById, hx, if_false]
    rw [ih (fun it hit => h it (List.mem_cons_of_mem _ hit))]

theorem withQuantity_eq_of_not_mem (id : ObjectId) (q : ℚ) (store : CartStore)
    (h : ∀ it ∈ store, it.id ≠ id) : withQuantity id q store = store := by
  unfold withQuantity
  conv_rhs => rw [← List.map_id store]
  apply List.map_congr_left
  intro it hit
  simp [h it hit]

/-- With distinct ids the write by `_id` changes the one document with that id. -/
theorem setQuantityById_eq_withQuantity (id : ObjectId) (q : ℚ) (store : CartStore)
    (h : DistinctIds store) : setQuantityById id q store = withQuantity id q store := by
  induction store with
  | nil => rfl
  | cons x xs ih =>
    have hnd : (x.id :: xs.map (fun it => it.id)).Nodup := by simpa [DistinctIds] using h
    have hx : x.id ∉ xs.map (fun it => it.id) := (List.nodup_cons.mp hnd).1
    have hxs : DistinctIds xs := (List.nodup_cons.mp hnd).2
    by_cases hid : x.id = id
    · have hnot : ∀ it ∈ xs, it.id ≠ id := by
        intro it hit heq
        exact hx (List.mem_map.mpr ⟨it, hit, by rw [heq, hid]⟩)
      have hw := withQuantity_eq_of_not_mem id q xs hnot
      simp only [withQuantity] at hw
      simp [setQuantityById, withQuantity, hid, hw]
    · have ih2 := ih hxs
      simp only [withQuantity] at ih2
      simp [setQuantityById, withQuantity, hid, ih2]

theorem setQuantityById_length (id : ObjectId) (q : ℚ) (store : CartStore) :
    (setQuantityById id q store).length = store.length := by
  induction store with
  | nil => rfl
  | cons x xs ih =>
    by_cases hid : x.id = id <;> simp [setQuantityById, hid, ih]

theorem setQuantityById_map_id (id : ObjectId) (q : ℚ) (store : CartStore) :
    (setQuantityById id q store).map (fun it => it.id) = store.map (fun it => it.id) := by
  induction store with
  | nil => rfl
  | cons x xs ih =>
    by_cases hid : x.id = id <;> simp [setQuantityById, hid, ih]

theorem setQuantityById_map_productId (id : ObjectId) (q : ℚ) (store : CartStore) :
    (setQuantityById id q store).map (fun it => it.productId) =
      store.map (fun it => it.productId) := by
  induction store with
  | nil => rfl
  | cons x xs ih =>
    by_cases hid : x.id = id <;> simp [setQuantityById, hid, ih]

theorem mem_setQuantityById (id : ObjectId) (q : ℚ) (store : CartStore) (it : CartLineItem)
    (h : it ∈ setQuantityById id q store) : it ∈ store ∨ it.quantity = q := by
  induction store with
  | nil => simp [setQuantityById] at h
  | cons x xs ih =>
    by_cases hid : x.id = id
    · simp only [setQuantityById, hid, if_true, List.mem_cons] at h
      rcases h with h | h
      · right; rw [h]
      · left; exact List.mem_cons_of_mem _ h
    · simp only [setQuantityById, hid, if_false, List.mem_cons] at h
      rcases h with h | h
      · left; rw [h]; exact List.mem_cons_self _ _
      · rcases ih h with h2 | h2
        · left; exact List.mem_cons_of_mem _ h2
        · right; exact h2

theorem findOne_some_mem (store : CartStore) (p : ObjectId) (it : CartLineItem)
    (h : findOne store p = some it) : it ∈ store ∧ it.productId = p := by
  unfold findOne at h
  exact ⟨List.mem_of_find?_eq_some h, by simpa using List.find?_some h⟩

theorem findOne_none_iff (store : CartStore) (p : ObjectId) :
    findOne store p = none ↔ ∀ it ∈ store, it.productId ≠ p := by
  unfold findOne
  simp [List.find?_eq_none]

theorem findById_isSome_iff (products : ProductStore) (p : ObjectId) :
    (findById products p).isSome = true ↔ ∃ prod ∈ products, prod.id = p := by
  unfold findById
  simp [List.find?_isSome]

theorem find?_id_some (store : CartStore) (i : ObjectId) (it : CartLineItem)
    (h : store.find? (fun x => x.id = i) = some it) : it ∈ store ∧ it.id = i :=
  ⟨List.mem_of_find?_eq_some h, by simpa using List.find?_some h⟩

theorem find?_id_of_mem (store : CartStore) (existing : CartLineItem)
    (hids : DistinctIds store) (hmem : existing ∈ store) :
    store.find? (fun it => it.id = existing.id) = some existing := by
  induction store with
  | nil => cases hmem
  | cons x xs ih =>
    have hnd : (x.id :: xs.map (fun it => it.id)).Nodup := by simpa [DistinctIds] using hids
    have hx : x.id ∉ xs.map (fun it => it.id) := (List.nodup_cons.mp hnd).1
    rcases List.mem_cons.mp hmem with h | h
    · rw [h]; simp
    · have hne : x.id ≠ existing.id := by
        intro heq
        exact hx (List.mem_map.mpr ⟨existing, h, heq.symm⟩)
      simp only [List.find?_cons, hne, decide_False]
      exact ih (List.nodup_cons.mp hnd).2 h

theorem findById_none_iff (products : ProductStore) (p : ObjectId) :
    findById products p = none ↔ ∀ prod ∈ products, prod.id ≠ p := by
  unfold findById
  simp [List.find?_eq_none]

theorem exists_mem_setQuantityById (id : ObjectId) (q : ℚ) (store : CartStore)
    (h : ∃ it ∈ store, it.id = id) :
    ∃ it ∈ setQuantityById id q store, it.id = id ∧ it.quantity = q := by
  induction store with
  | nil => obtain ⟨it, hit, _⟩ := h; cases hit
  | cons x xs ih =>
    by_cases hid : x.id = id
    · exact ⟨{ x with quantity := q }, by simp [setQuantityById, hid], hid, rfl⟩
    · obtain ⟨it, hit, hitid⟩ := h
      have hit2 : it ∈ xs := by
        rcases List.mem_cons.mp hit with h1 | h1
        · rw [h1] at hitid; exact absurd hitid hid
        · exact h1
      obtain ⟨it2, hmem, h2⟩ := ih ⟨it, hit2, hitid⟩
      exact ⟨it2, by simp [setQuantityById, hid, hmem], h2⟩

theorem eraseP_eq_filter (store : CartStore) (i : ObjectId) (hids : DistinctIds store) :
    store.eraseP (fun it => it.id = i) = store.filter (fun it => it.id ≠ i) := by
  induction store with
  | nil => rfl
  | cons x xs ih =>
    have hnd : (x.id :: xs.map (fun it => it.id)).Nodup := by simpa [DistinctIds] using hids
    have hx : x.id ∉ xs.map (fun it => it.id) := (List.nodup_cons.mp hnd).1
    by_cases hid : x.id = i
    · have hall : ∀ it ∈ xs, it.id ≠ i := by
        intro it hit heq
        exact hx (List.mem_map.mpr ⟨it, hit, by rw [heq, hid]⟩)
      have hfil : xs.filter (fun it => it.id ≠ i) = xs := by
        apply List.filter_eq_self.mpr
        intro it hit
        simpa using hall it hit
      have hfil2 : xs = xs.filter (fun it => !decide (it.id = i)) := by
        simpa using hfil.symm
      simpa [List.eraseP_cons, hid] using hfil2
    · have ih2 := ih (List.nodup_cons.mp hnd).2
      simp [List.eraseP_cons, hid, ih2]

theorem isInteger_iff (q : ℚ) : IsInteger q ↔ ∃ n : ℤ, q = n := by
  unfold IsInteger
  constructor
  · intro h
    exact ⟨q.num, ((Rat.den_eq_one_iff q).mp h).symm⟩
  · rintro ⟨n, rfl⟩
    exact Rat.den_intCast n

theorem isInteger_add (a b : ℚ) (ha : IsInteger a) (hb : IsInteger b) : IsInteger (a + b) := by
  rw [isInteger_iff] at *
  obtain ⟨m, rfl⟩ := ha
  obtain ⟨n, rfl⟩ := hb
  exact ⟨m + n, by push_cast; rfl⟩

theorem isInteger_min (a b : ℚ) (ha : IsInteger a) (hb : IsInteger b) : IsInteger (min a b) := by
  rcases min_choice a b with h | h <;> rw [h] <;> assumption

theorem isInteger_max (a b : ℚ) (ha : IsInteger a) (hb : IsInteger b) : IsInteger (max a b) := by
  rcases max_choice a b with h | h <;> rw [h] <;> assumption

theorem isInteger_one : IsInteger 1 := by unfold IsInteger; rfl

theorem isInteger_twenty : IsInteger 20 := by unfold IsInteger; rfl

/-! ## Rounding to a double -/

theorem int_log_two_eq (x : ℚ) (n : ℤ) (hx : 0 < x) (hlo : (2 : ℚ) ^ n ≤ x)
    (hhi : x < (2 : ℚ) ^ (n + 1)) : Int.log 2 x = n := by
  have h1 : n ≤ Int.log 2 x := by
    have h := @Int.zpow_le_iff_le_log ℚ _ _ 2 (by norm_num) n x hx
    exact h.mp (by exact_mod_cast hlo)
  have h2 : Int.log 2 x < n + 1 := by
    have h := @Int.lt_zpow_iff_log_lt ℚ _ _ 2 (by norm_num) (n + 1) x hx
    exact h.mp (by exact_mod_cast hhi)
  omega

theorem roundHalfEven_int (m : ℤ) : roundHalfEven (m : ℚ) = m := by
  simp [roundHalfEven]

theorem roundHalfEven_tie_even (m : ℤ) (heven : m % 2 = 0) :
    roundHalfEven ((m : ℚ) + 1 / 2) = m := by
  have hfl : ⌊(m : ℚ) + 1 / 2⌋ = m := by
    rw [Int.floor_eq_iff]
    constructor <;> norm_num
  have h1 : ¬ ((m : ℚ) + 1 / 2 - (m : ℚ) < 1 / 2) := by norm_num
  have h2 : ¬ ((1 : ℚ) / 2 < (m : ℚ) + 1 / 2 - (m : ℚ)) := by norm_num
  simp only [roundHalfEven, hfl, h1, h2, if_false, heven, if_true]

theorem roundHalfEven_tie_odd (m : ℤ) (hodd : m % 2 = 1) :
    roundHalfEven ((m : ℚ) + 1 / 2) = m + 1 := by
  have hfl : ⌊(m : ℚ) + 1 / 2⌋ = m := by
    rw [Int.floor_eq_iff]
    constructor <;> norm_num
  have h1 : ¬ ((m : ℚ) + 1 / 2 - (m : ℚ) < 1 / 2) := by norm_num
  have h2 : ¬ ((1 : ℚ) / 2 < (m : ℚ) + 1 / 2 - (m : ℚ)) := by norm_num
  have h3 : ¬ (m % 2 = 0) := by omega
  simp only [roundHalfEven, hfl, h1, h2, if_false, h3]

/-- Evaluation of `roundDouble` at a positive `x` in the binade `[2^n, 2^(n+1))`. -/
theorem roundDouble_eval (x : ℚ) (n m : ℤ) (hx : 0 < x) (hlo : (2 : ℚ) ^ n ≤ x)
    (hhi : x < (2 : ℚ) ^ (n + 1)) (hn : -1022 ≤ n)
    (hm : roundHalfEven (x / (2 : ℚ) ^ (n - 52)) = m) :
    roundDouble x = (m : ℚ) * (2 : ℚ) ^ (n - 52) := by
  have hlog : Int.log 2 |x| = n := by
    rw [abs_of_pos hx]
    exact int_log_two_eq x n hx hlo hhi
  have hne : x ≠ 0 := ne_of_gt hx
  simp only [roundDouble, hne, if_false, hlog, max_eq_left hn, hm]

theorem floor_le_roundHalfEven (y : ℚ) : ⌊y⌋ ≤ roundHalfEven y := by
  unfold roundHalfEven
  split_ifs <;> omega

theorem roundHalfEven_of_near (y : ℚ) (m : ℤ) (h1 : (m : ℚ) - 1 / 2 < y)
    (h2 : y < (m : ℚ) + 1 / 2) : roundHalfEven y = m := by
  rcases lt_or_le y (m : ℚ) with h | h
  · have hfl : ⌊y⌋ = m - 1 := by
      rw [Int.floor_eq_iff]
      push_cast
      constructor <;> linarith
    have h3 : ¬ (y - ((m - 1 : ℤ) : ℚ) < 1 / 2) := by
      push_cast
      linarith
    have h4 : (1 : ℚ) / 2 < y - ((m - 1 : ℤ) : ℚ) := by
      push_cast
      linarith
    simp only [roundHalfEven, hfl, h3, h4, if_false, if_true]
    omega
  · have hfl : ⌊y⌋ = m := by
      rw [Int.floor_eq_iff]
      constructor <;> linarith
    have h3 : y - (m : ℚ) < 1 / 2 := by linarith
    simp only [roundHalfEven, hfl, h3, if_true]

/-- A positive integer below `2 ^ 53` is a double. -/
theorem roundDouble_natCast (n : ℕ) (hpos : 0 < n) (hlt : n < 2 ^ 53) :
    roundDouble (n : ℚ) = n := by
  have hk1 : 2 ^ Nat.log 2 n ≤ n := Nat.pow_log_le_self 2 (by omega)
  have hk2 : n < 2 ^ (Nat.log 2 n + 1) := Nat.lt_pow_succ_log_self (by norm_num) n
  have hk : Nat.log 2 n < 53 := Nat.log_lt_of_lt_pow (by omega) hlt
  obtain ⟨j, hj⟩ : ∃ j, Nat.log 2 n + j = 52 := ⟨52 - Nat.log 2 n, by omega⟩
  generalize Nat.log 2 n = k at hk1 hk2 hk hj
  have hx : (0 : ℚ) < n := by exact_mod_cast hpos
  have hexp : (k : ℤ) - 52 = -(j : ℤ) := by omega
  have hdiv : (n : ℚ) / (2 : ℚ) ^ ((k : ℤ) - 52) = (((n * 2 ^ j : ℕ) : ℤ) : ℚ) := by
    rw [hexp, zpow_neg, zpow_natCast]
    push_cast
    field_simp
  have hlo : (2 : ℚ) ^ (k : ℤ) ≤ n := by
    rw [zpow_natCast]
    exact_mod_cast hk1
  have hhi : (n : ℚ) < (2 : ℚ) ^ ((k : ℤ) + 1) := by
    have h : ((k : ℤ) + 1) = ((k + 1 : ℕ) : ℤ) := by push_cast; rfl
    rw [h, zpow_natCast]
    exact_mod_cast hk2
  rw [roundDouble_eval (n : ℚ) k ((n * 2 ^ j : ℕ) : ℤ) hx hlo hhi (by omega)
    (by rw [hdiv]; exact roundHalfEven_int _)]
  rw [hexp, zpow_neg, zpow_natCast]
  push_cast
  field_simp

/-- Rounding to a double does not take a number from 20 or more to below 20. -/
theorem twenty_le_roundDouble (x : ℚ) (h : 20 ≤ x) : 20 ≤ roundDouble x := by
  have hx : 0 < x := by linarith
  have hne : x ≠ 0 := ne_of_gt hx
  have hlog : 4 ≤ Int.log 2 x :=
    (@Int.zpow_le_iff_le_log ℚ _ _ 2 (by norm_num) 4 x hx).mp (by norm_num; linarith)
  have hlo : ((2 : ℕ) : ℚ) ^ Int.log 2 x ≤ x := Int.zpow_log_le_self (by norm_num) hx
  rw [Nat.cast_ofNat] at hlo
  unfold roundDouble
  rw [if_neg hne, abs_of_pos hx, max_eq_left (by omega)]
  generalize Int.log 2 x = n at hlog hlo
  have hu : (0 : ℚ) < (2 : ℚ) ^ (n - 52) := zpow_pos (by norm_num) _
  have hfl := floor_le_roundHalfEven (x / (2 : ℚ) ^ (n - 52))
  rcases le_or_lt n 52 with hn | hn
  · obtain ⟨j, hj⟩ : ∃ j : ℕ, n - 52 = -(j : ℤ) := ⟨(52 - n).toNat, by omega⟩
    rw [hj, zpow_neg, zpow_natCast] at hfl hu ⊢
    have h1 : ((20 * 2 ^ j : ℕ) : ℤ) ≤ ⌊x / ((2 : ℚ) ^ j)⁻¹⌋ := by
      rw [Int.le_floor]
      push_cast
      rw [div_inv_eq_mul]
      have hp : (0 : ℚ) < 2 ^ j := by positivity
      nlinarith
    have h2 : (((20 * 2 ^ j : ℕ) : ℤ) : ℚ) ≤ (roundHalfEven (x / ((2 : ℚ) ^ j)⁻¹) : ℚ) := by
      exact_mod_cast le_trans h1 hfl
    have h3 : (20 : ℚ) = (((20 * 2 ^ j : ℕ) : ℤ) : ℚ) * ((2 : ℚ) ^ j)⁻¹ := by
      push_cast
      field_simp
    rw [h3]
    exact mul_le_mul_of_nonneg_right h2 hu.le
  · have hu1 : (1 : ℚ) ≤ (2 : ℚ) ^ (n - 52) := one_le_zpow₀ (by norm_num) (by omega)
    have hsplit : (2 : ℚ) ^ n = (2 : ℚ) ^ (52 : ℕ) * (2 : ℚ) ^ (n - 52) := by
      rw [← zpow_natCast, ← zpow_add₀ (by norm_num)]
      congr 1
      push_cast
      ring
    have h1 : ((2 ^ 52 : ℕ) : ℤ) ≤ ⌊x / (2 : ℚ) ^ (n - 52)⌋ := by
      rw [Int.le_floor, le_div_iff₀ hu]
      have h5 : (((2 ^ 52 : ℕ) : ℤ) : ℚ) = (2 : ℚ) ^ (52 : ℕ) := by norm_num
      rw [h5, ← hsplit]
      exact hlo
    have h2 : (((2 ^ 52 : ℕ) : ℤ) : ℚ) ≤ (roundHalfEven (x / (2 : ℚ) ^ (n - 52)) : ℚ) := by
      exact_mod_cast le_trans h1 hfl
    have h4 : (0 : ℚ) ≤ (roundHalfEven (x / (2 : ℚ) ^ (n - 52)) : ℚ) :=
      le_trans (by positivity) h2
    calc (20 : ℚ) ≤ (((2 ^ 52 : ℕ) : ℤ) : ℚ) * 1 := by norm_num
      _ ≤ (roundHalfEven (x / (2 : ℚ) ^ (n - 52)) : ℚ) * (2 : ℚ) ^ (n - 52) :=
        mul_le_mul h2 hu1 (by norm_num) h4

/-- The sum of integers is either exact or, on both sides of the rounding, at least 20. -/
theorem roundDouble_of_isInteger (x : ℚ) (hint : IsInteger x) (hpos : 0 < x) :
    roundDouble x = x ∨ (20 ≤ x ∧ 20 ≤ roundDouble x) := by
  obtain ⟨n, rfl⟩ := (isInteger_iff x).mp hint
  have hn : 0 < n := by exact_mod_cast hpos
  by_cases hbig : n < 2 ^ 53
  · left
    lift n to ℕ using hn.le
    have h := roundDouble_natCast n (by omega) (by exact_mod_cast hbig)
    simpa using h
  · right
    have h20 : (20 : ℚ) ≤ (n : ℚ) := by
      have h : (20 : ℤ) ≤ n := by omega
      exact_mod_cast h
    exact ⟨h20, twenty_le_roundDouble _ h20⟩

theorem min_roundDouble_of_isInteger (x : ℚ) (hint : IsInteger x) (hpos : 0 < x) :
    min (roundDouble x) 20 = min x 20 := by
  rcases roundDouble_of_isInteger x hint hpos with h | ⟨h1, h2⟩
  · rw [h]
  · rw [min_eq_right h1, min_eq_right h2]

/-- The rounded integer is within one half of the number. -/
theorem roundHalfEven_near (y : ℚ) :
    y - 1 / 2 ≤ (roundHalfEven y : ℚ) ∧ (roundHalfEven y : ℚ) ≤ y + 1 / 2 := by
  have h1 : ((⌊y⌋ : ℤ) : ℚ) ≤ y := Int.floor_le y
  have h2 : y < ((⌊y⌋ : ℤ) : ℚ) + 1 := Int.lt_floor_add_one y
  unfold roundHalfEven
  split_ifs with ha hb hc
  · constructor <;> linarith
  · push_cast
    constructor <;> linarith
  · constructor <;> linarith
  · push_cast
    constructor <;> linarith

theorem roundHalfEven_mono (a b : ℚ) (h : a ≤ b) : roundHalfEven a ≤ roundHalfEven b := by
  by_contra hlt
  have hlt2 : roundHalfEven b + 1 ≤ roundHalfEven a := by omega
  have hq : ((roundHalfEven b : ℤ) : ℚ) + 1 ≤ (roundHalfEven a : ℚ) := by exact_mod_cast hlt2
  have ha := roundHalfEven_near a
  have hb := roundHalfEven_near b
  have hab : a = b := by linarith [ha.2, hb.1]
  rw [hab] at hlt
  exact hlt (le_refl _)

theorem roundHalfEven_le_of_le_int (y : ℚ) (k : ℤ) (h : y ≤ k) : roundHalfEven y ≤ k := by
  have := roundHalfEven_mono y k h
  rwa [roundHalfEven_int] at this

theorem le_roundHalfEven_of_int_le (y : ℚ) (k : ℤ) (h : (k : ℚ) ≤ y) : k ≤ roundHalfEven y := by
  have := roundHalfEven_mono k y h
  rwa [roundHalfEven_int] at this

/-- The exponent of the unit in the last place of the doubles around `x`. -/
theorem roundDouble_of_ne_zero (x : ℚ) (hx : x ≠ 0) :
    roundDouble x = (roundHalfEven (x / (2 : ℚ) ^ (max (Int.log 2 |x|) (-1022) - 52)) : ℚ) *
      (2 : ℚ) ^ (max (Int.log 2 |x|) (-1022) - 52) := by
  simp only [roundDouble, hx, if_false]

theorem lt_two_zpow_log_succ (x : ℚ) : x < (2 : ℚ) ^ (Int.log 2 x + 1) := by
  have h : x < ((2 : ℕ) : ℚ) ^ (Int.log 2 x + 1) := Int.lt_zpow_succ_log_self (by norm_num) x
  simpa using h

theorem two_zpow_log_le (x : ℚ) (hx : 0 < x) : (2 : ℚ) ^ (Int.log 2 x) ≤ x := by
  have h : ((2 : ℕ) : ℚ) ^ Int.log 2 x ≤ x := Int.zpow_log_le_self (by norm_num) hx
  simpa using h

theorem int_log_two_mono (x y : ℚ) (hx : 0 < x) (h : x ≤ y) : Int.log 2 x ≤ Int.log 2 y :=
  Int.log_mono_right hx h

/-- A positive number rounds into the closed binade `[0, 2 ^ (n + 1)]`, and into
`[2 ^ n, 2 ^ (n + 1)]` when it is not below the least normal exponent. -/
theorem roundDouble_bounds (x : ℚ) (hx : 0 < x) :
    0 ≤ roundDouble x ∧
    roundDouble x ≤ (2 : ℚ) ^ (max (Int.log 2 x) (-1022) + 1) ∧
    (-1022 ≤ Int.log 2 x → (2 : ℚ) ^ (Int.log 2 x) ≤ roundDouble x) := by
  have hne : x ≠ 0 := ne_of_gt hx
  rw [roundDouble_of_ne_zero x hne, abs_of_pos hx]
  have hlt := lt_two_zpow_log_succ x
  have hle := two_zpow_log_le x hx
  generalize Int.log 2 x = l at hlt hle
  have hu : (0 : ℚ) < (2 : ℚ) ^ (max l (-1022) - 52) := zpow_pos (by norm_num) _
  have h53 : (2 : ℚ) ^ (max l (-1022) + 1) =
      (((2 : ℤ) ^ 53 : ℤ) : ℚ) * (2 : ℚ) ^ (max l (-1022) - 52) := by
    have h : (((2 : ℤ) ^ 53 : ℤ) : ℚ) = (2 : ℚ) ^ (53 : ℤ) := by norm_num
    rw [h, ← zpow_add₀ (by norm_num : (2 : ℚ) ≠ 0)]
    congr 1
    ring
  have hxlt : x < (2 : ℚ) ^ (max l (-1022) + 1) :=
    lt_of_lt_of_le hlt (zpow_le_zpow_right₀ (by norm_num) (by omega))
  refine ⟨?_, ?_, ?_⟩
  · have h0 : (0 : ℤ) ≤ roundHalfEven (x / (2 : ℚ) ^ (max l (-1022) - 52)) :=
      le_roundHalfEven_of_int_le _ 0 (by push_cast; positivity)
    have h0q : (0 : ℚ) ≤ (roundHalfEven (x / (2 : ℚ) ^ (max l (-1022) - 52)) : ℚ) := by
      exact_mod_cast h0
    positivity
  · rw [h53]
    apply mul_le_mul_of_nonneg_right _ hu.le
    have hk : roundHalfEven (x / (2 : ℚ) ^ (max l (-1022) - 52)) ≤ (2 : ℤ) ^ 53 := by
      apply roundHalfEven_le_of_le_int
      rw [div_le_iff₀ hu, ← h53]
      exact hxlt.le
    exact_mod_cast hk
  · intro hl
    have hmax : max l (-1022) = l := max_eq_left hl
    rw [hmax]
    have h52 : (2 : ℚ) ^ l = (((2 : ℤ) ^ 52 : ℤ) : ℚ) * (2 : ℚ) ^ (l - 52) := by
      have h : (((2 : ℤ) ^ 52 : ℤ) : ℚ) = (2 : ℚ) ^ (52 : ℤ) := by norm_num
      rw [h, ← zpow_add₀ (by norm_num : (2 : ℚ) ≠ 0)]
      congr 1
      ring
    have hu2 : (0 : ℚ) < (2 : ℚ) ^ (l - 52) := zpow_pos (by norm_num) _
    rw [h52]
    apply mul_le_mul_of_nonneg_right _ hu2.le
    have hk : (2 : ℤ) ^ 52 ≤ roundHalfEven (x / (2 : ℚ) ^ (l - 52)) := by
      apply le_roundHalfEven_of_int_le
      rw [le_div_iff₀ hu2, ← h52]
      exact hle
    exact_mod_cast hk

/-- The mirror image of `roundDouble_bounds` for a negative number. -/
theorem roundDouble_bounds_neg (x : ℚ) (hx : x < 0) :
    roundDouble x ≤ 0 ∧
    -(2 : ℚ) ^ (max (Int.log 2 (-x)) (-1022) + 1) ≤ roundDouble x ∧
    (-1022 ≤ Int.log 2 (-x) → roundDouble x ≤ -(2 : ℚ) ^ (Int.log 2 (-x))) := by
  have hne : x ≠ 0 := ne_of_lt hx
  have hpos : 0 < -x := by linarith
  rw [roundDouble_of_ne_zero x hne, abs_of_neg hx]
  have hlt := lt_two_zpow_log_succ (-x)
  have hle := two_zpow_log_le (-x) hpos
  generalize Int.log 2 (-x) = l at hlt hle
  have hu : (0 : ℚ) < (2 : ℚ) ^ (max l (-1022) - 52) := zpow_pos (by norm_num) _
  have h53 : (2 : ℚ) ^ (max l (-1022) + 1) =
      (((2 : ℤ) ^ 53 : ℤ) : ℚ) * (2 : ℚ) ^ (max l (-1022) - 52) := by
    have h : (((2 : ℤ) ^ 53 : ℤ) : ℚ) = (2 : ℚ) ^ (53 : ℤ) := by norm_num
    rw [h, ← zpow_add₀ (by norm_num : (2 : ℚ) ≠ 0)]
    congr 1
    ring
  have hxlt : -x < (2 : ℚ) ^ (max l (-1022) + 1) :=
    lt_of_lt_of_le hlt (zpow_le_zpow_right₀ (by norm_num) (by omega))
  refine ⟨?_, ?_, ?_⟩
  · have h0 : roundHalfEven (x / (2 : ℚ) ^ (max l (-1022) - 52)) ≤ (0 : ℤ) :=
      roundHalfEven_le_of_le_int _ 0 (by
        push_cast
        exact div_nonpos_of_nonpos_of_nonneg hx.le hu.le)
    have h0q : (roundHalfEven (x / (2 : ℚ) ^ (max l (-1022) - 52)) : ℚ) ≤ 0 := by
      exact_mod_cast h0
    exact mul_nonpos_of_nonpos_of_nonneg h0q hu.le
  · rw [h53, ← neg_mul]
    apply mul_le_mul_of_nonneg_right _ hu.le
    have hk : -(2 : ℤ) ^ 53 ≤ roundHalfEven (x / (2 : ℚ) ^ (max l (-1022) - 52)) := by
      apply le_roundHalfEven_of_int_le
      rw [le_div_iff₀ hu]
      have hc : ((-(2 : ℤ) ^ 53 : ℤ) : ℚ) * (2 : ℚ) ^ (max l (-1022) - 52) =
          -(2 : ℚ) ^ (max l (-1022) + 1) := by
        rw [h53]
        push_cast
        ring
      rw [hc]
      linarith
    exact_mod_cast hk
  · intro hl
    have hmax : max l (-1022) = l := max_eq_left hl
    rw [hmax]
    have h52 : (2 : ℚ) ^ l = (((2 : ℤ) ^ 52 : ℤ) : ℚ) * (2 : ℚ) ^ (l - 52) := by
      have h : (((2 : ℤ) ^ 52 : ℤ) : ℚ) = (2 : ℚ) ^ (52 : ℤ) := by norm_num
      rw [h, ← zpow_add₀ (by norm_num : (2 : ℚ) ≠ 0)]
      congr 1
      ring
    have hu2 : (0 : ℚ) < (2 : ℚ) ^ (l - 52) := zpow_pos (by norm_num) _
    rw [h52, ← neg_mul]
    apply mul_le_mul_of_nonneg_right _ hu2.le
    have hk : roundHalfEven (x / (2 : ℚ) ^ (l - 52)) ≤ -(2 : ℤ) ^ 52 := by
      apply roundHalfEven_le_of_le_int
      rw [div_le_iff₀ hu2]
      have hc : ((-(2 : ℤ) ^ 52 : ℤ) : ℚ) * (2 : ℚ) ^ (l - 52) = -(2 : ℚ) ^ l := by
        rw [h52]
        push_cast
        ring
      rw [hc]
      linarith
    exact_mod_cast hk

theorem roundDouble_zero : roundDouble 0 = 0 := by simp [roundDouble]

theorem roundDouble_nonneg (x : ℚ) (hx : 0 ≤ x) : 0 ≤ roundDouble x := by
  rcases eq_or_lt_of_le hx with h | h
  · rw [← h, roundDouble_zero]
  · exact (roundDouble_bounds x h).1

theorem roundDouble_nonpos (x : ℚ) (hx : x ≤ 0) : roundDouble x ≤ 0 := by
  rcases eq_or_lt_of_le hx with h | h
  · rw [h, roundDouble_zero]
  · exact (roundDouble_bounds_neg x h).1

theorem roundDouble_mono_pos (x y : ℚ) (hx : 0 < x) (h : x ≤ y) :
    roundDouble x ≤ roundDouble y := by
  have hy : 0 < y := lt_of_lt_of_le hx h
  have hlog := int_log_two_mono x y hx h
  rcases eq_or_lt_of_le (max_le_max_right (-1022) hlog) with heq | hlt
  · rw [roundDouble_of_ne_zero x (ne_of_gt hx), roundDouble_of_ne_zero y (ne_of_gt hy),
      abs_of_pos hx, abs_of_pos hy, heq]
    have hu : (0 : ℚ) < (2 : ℚ) ^ (max (Int.log 2 y) (-1022) - 52) := zpow_pos (by norm_num) _
    apply mul_le_mul_of_nonneg_right _ hu.le
    have hk := roundHalfEven_mono (x / (2 : ℚ) ^ (max (Int.log 2 y) (-1022) - 52))
      (y / (2 : ℚ) ^ (max (Int.log 2 y) (-1022) - 52)) (div_le_div_of_nonneg_right h hu.le)
    exact_mod_cast hk
  · have hly : -1022 ≤ Int.log 2 y := by
      by_contra hc
      have h1 : max (Int.log 2 y) (-1022) = -1022 := max_eq_right (by omega)
      have h2 : -1022 ≤ max (Int.log 2 x) (-1022) := le_max_right _ _
      omega
    have hmy : max (Int.log 2 y) (-1022) = Int.log 2 y := max_eq_left hly
    have h1 := (roundDouble_bounds x hx).2.1
    have h2 := (roundDouble_bounds y hy).2.2 hly
    have h3 : (2 : ℚ) ^ (max (Int.log 2 x) (-1022) + 1) ≤ (2 : ℚ) ^ (Int.log 2 y) :=
      zpow_le_zpow_right₀ (by norm_num) (by omega)
    linarith

theorem roundDouble_mono_neg (x y : ℚ) (hy : y < 0) (h : x ≤ y) :
    roundDouble x ≤ roundDouble y := by
  have hx : x < 0 := lt_of_le_of_lt h hy
  have hlog := int_log_two_mono (-y) (-x) (by linarith) (by linarith)
  rcases eq_or_lt_of_le (max_le_max_right (-1022) hlog) with heq | hlt
  · rw [roundDouble_of_ne_zero x (ne_of_lt hx), roundDouble_of_ne_zero y (ne_of_lt hy),
      abs_of_neg hx, abs_of_neg hy, heq]
    have hu : (0 : ℚ) < (2 : ℚ) ^ (max (Int.log 2 (-x)) (-1022) - 52) :=
      zpow_pos (by norm_num) _
    apply mul_le_mul_of_nonneg_right _ hu.le
    have hk := roundHalfEven_mono (x / (2 : ℚ) ^ (max (Int.log 2 (-x)) (-1022) - 52))
      (y / (2 : ℚ) ^ (max (Int.log 2 (-x)) (-1022) - 52)) (div_le_div_of_nonneg_right h hu.le)
    exact_mod_cast hk
  · have hlx : -1022 ≤ Int.log 2 (-x) := by
      by_contra hc
      have h1 : max (Int.log 2 (-x)) (-1022) = -1022 := max_eq_right (by omega)
      have h2 : -1022 ≤ max (Int.log 2 (-y)) (-1022) := le_max_right _ _
      omega
    have hmx : max (Int.log 2 (-x)) (-1022) = Int.log 2 (-x) := max_eq_left hlx
    have h1 := (roundDouble_bounds_neg y hy).2.1
    have h2 := (roundDouble_bounds_neg x hx).2.2 hlx
    have h3 : (2 : ℚ) ^ (max (Int.log 2 (-y)) (-1022) + 1) ≤ (2 : ℚ) ^ (Int.log 2 (-x)) :=
      zpow_le_zpow_right₀ (by norm_num) (by omega)
    linarith

/-- Rounding to the nearest double is monotone. -/
theorem roundDouble_mono (x y : ℚ) (h : x ≤ y) : roundDouble x ≤ roundDouble y := by
  rcases lt_trichotomy 0 x with hx | hx | hx
  · exact roundDouble_mono_pos x y hx h
  · rw [← hx, roundDouble_zero]
    exact roundDouble_nonneg y (by linarith)
  · rcases lt_or_le y 0 with hy | hy
    · exact roundDouble_mono_neg x y hy h
    · exact le_trans (roundDouble_nonpos x hx.le) (roundDouble_nonneg y hy)

/-- A double of magnitude `2 ^ 53` or more is an integer. -/
theorem isInteger_roundDouble_of_large (x : ℚ) (h : (2 : ℚ) ^ 53 ≤ |roundDouble x|) :
    IsInteger (roundDouble x) := by
  have hne : x ≠ 0 := by
    intro h0
    rw [h0, roundDouble_zero] at h
    norm_num at h
  have hn : 52 ≤ max (Int.log 2 |x|) (-1022) := by
    by_contra hc
    have hc2 : max (Int.log 2 |x|) (-1022) + 1 ≤ 52 := by omega
    have hpow : (2 : ℚ) ^ (max (Int.log 2 |x|) (-1022) + 1) ≤ (2 : ℚ) ^ (52 : ℤ) :=
      zpow_le_zpow_right₀ (by norm_num) hc2
    have hbound : |roundDouble x| ≤ (2 : ℚ) ^ (max (Int.log 2 |x|) (-1022) + 1) := by
      rcases lt_or_gt_of_ne hne with hx | hx
      · have hb := roundDouble_bounds_neg x hx
        rw [abs_of_neg hx, abs_of_nonpos hb.1]
        linarith [hb.2.1]
      · have hb := roundDouble_bounds x hx
        rw [abs_of_pos hx, abs_of_nonneg hb.1]
        exact hb.2.1
    have h52 : (2 : ℚ) ^ (52 : ℤ) < (2 : ℚ) ^ 53 := by norm_num
    linarith
  obtain ⟨k, hk⟩ : ∃ k : ℕ, max (Int.log 2 |x|) (-1022) - 52 = (k : ℤ) :=
    ⟨(max (Int.log 2 |x|) (-1022) - 52).toNat, by omega⟩
  rw [roundDouble_of_ne_zero x hne, hk, zpow_natCast, isInteger_iff]
  exact ⟨roundHalfEven (x / (2 : ℚ) ^ k) * 2 ^ k, by push_cast; ring⟩

/-- Evaluation of `JsNum.ofRat` at a value that does not overflow. -/
theorem ofRat_eq_fin (q r : ℚ) (h1 : q < overflowBound) (h2 : -overflowBound < q)
    (hr : roundDouble q = r) : JsNum.ofRat q = JsNum.fin r := by
  simp only [JsNum.ofRat, not_le.mpr h1, not_le.mpr h2, if_false, hr]

/-! ## The branches of the handlers -/

/-- `POST /cart`, branch of a product already in the cart. -/
theorem postCart_increment (products : ProductStore) (newId p : ObjectId)
    (quantity : JsValue) (store : CartStore) (qty : ℚ) (prod : Product)
    (existing : CartLineItem)
    (hq : toNumber (quantityOrDefault quantity) = some (JsNum.fin qty)) (hq1 : 1 ≤ qty)
    (hp : findById products p = some prod) (hf : findOne store p = some existing) :
    postCart products newId (IdArg.oid p) quantity store =
      (Response.ok (Body.item (populate products
          { existing with quantity := min (existing.quantity + qty) 20 })),
        setQuantityById existing.id (min (existing.quantity + qty) 20) store) := by
  simp [postCart, hq, not_lt.mpr hq1, hp, hf]

/-- `POST /cart`, branch of a product not yet in the cart. -/
theorem postCart_insert (products : ProductStore) (newId p : ObjectId)
    (quantity : JsValue) (store : CartStore) (qty : ℚ) (prod : Product)
    (hq : toNumber (quantityOrDefault quantity) = some (JsNum.fin qty)) (hq1 : 1 ≤ qty)
    (hp : findById products p = some prod) (hf : findOne store p = none) :
    postCart products newId (IdArg.oid p) quantity store =
      (Response.ok (Body.item (populate products
          { id := newId, productId := p, quantity := min qty 20 })),
        store ++ [{ id := newId, productId := p, quantity := min qty 20 }]) := by
  simp [postCart, hq, not_lt.mpr hq1, hp, hf]

/-- `POST /cart`, branch of an unknown product. -/
theorem postCart_notFound (products : ProductStore) (newId p : ObjectId)
    (quantity : JsValue) (store : CartStore) (hacc : QuantityAccepted quantity)
    (hp : findById products p = none) :
    postCart products newId (IdArg.oid p) quantity store =
      (Response.fail 404 "Product not found", store) := by
  obtain ⟨qty, hq, hq1⟩ := hacc
  simp [postCart, hq, not_lt.mpr hq1, hp]

/-- `POST /cart`, branch of a quantity that is a number but not a finite one at
least 1. -/
theorem postCart_refused (products : ProductStore) (newId p : ObjectId)
    (quantity : JsValue) (store : CartStore) (h : QuantityRefused quantity) :
    postCart products newId (IdArg.oid p) quantity store =
      (Response.fail 400 "Quantity must be at least 1", store) := by
  obtain ⟨n, hn, hlt⟩ := h
  cases n with
  | nan => simp [postCart, hn]
  | posInf => simp [postCart, hn]
  | negInf => simp [postCart, hn]
  | fin q => simp [postCart, hn, hlt q rfl]

/-- `POST /cart`, branch of a quantity whose conversion throws. -/
theorem postCart_throws (products : ProductStore) (newId p : ObjectId)
    (quantity : JsValue) (store : CartStore)
    (h : toNumber (quantityOrDefault quantity) = none) :
    postCart products newId (IdArg.oid p) quantity store =
      (Response.fail 500 "Failed to add item to cart", store) := by
  simp [postCart, h]

/-- The three outcomes of the quantity test of `POST /cart`. -/
theorem quantity_cases (quantity : JsValue) :
    QuantityAccepted quantity ∨ QuantityRefused quantity ∨
      toNumber (quantityOrDefault quantity) = none := by
  cases hq : toNumber (quantityOrDefault quantity) with
  | none => right; right; rfl
  | some n =>
    cases n with
    | nan => right; left; exact ⟨_, hq, fun q h => by cases h⟩
    | posInf => right; left; exact ⟨_, hq, fun q h => by cases h⟩
    | negInf => right; left; exact ⟨_, hq, fun q h => by cases h⟩
    | fin q =>
      by_cases hlt : q < 1
      · right; left
        refine ⟨_, hq, fun q2 h => ?_⟩
        cases h
        exact hlt
      · left; exact ⟨q, hq, not_lt.mp hlt⟩

/-- What a 200 answer of `POST /cart` means: the id is well-formed and names a
product, the quantity converts to a finite `qty ≥ 1`, and the store was changed
in one of the two ways of the handler. -/
theorem postCart_ok (products : ProductStore) (newId : ObjectId) (productId : IdArg)
    (quantity : JsValue) (store : CartStore)
    (h : (postCart products newId productId quantity store).1.status = 200) :
    ∃ p qty prod, productId = IdArg.oid p ∧
      toNumber (quantityOrDefault quantity) = some (JsNum.fin qty) ∧ 1 ≤ qty ∧
      findById products p = some prod ∧
      ((∃ existing, findOne store p = some existing ∧
          postCart products newId productId quantity store =
            (Response.ok (Body.item (populate products
              { existing with quantity := min (existing.quantity + qty) 20 })),
             setQuantityById existing.id (min (existing.quantity + qty) 20) store)) ∨
       (findOne store p = none ∧
          postCart products newId productId quantity store =
            (Response.ok (Body.item (populate products
              { id := newId, productId := p, quantity := min qty 20 })),
             store ++ [{ id := newId, productId := p, quantity := min qty 20 }]))) := by
  cases productId with
  | falsy => simp [postCart, Response.fail] at h
  | malformed => simp [postCart, Response.fail] at h
  | oid p =>
    rcases quantity_cases quantity with hacc | href | hthrow
    · obtain ⟨qty, hq, hq1⟩ := hacc
      cases hp : findById products p with
      | none =>
        rw [postCart_notFound products newId p quantity store ⟨qty, hq, hq1⟩ hp] at h
        simp [Response.fail] at h
      | some prod =>
        refine ⟨p, qty, prod, rfl, hq, hq1, hp, ?_⟩
        cases hf : findOne store p with
        | some existing =>
          left
          exact ⟨existing, rfl,
            postCart_increment products newId p quantity store qty prod existing hq hq1 hp hf⟩
        | none =>
          right
          exact ⟨rfl, postCart_insert products newId p quantity store qty prod hq hq1 hp hf⟩
    · rw [postCart_refused products newId p quantity store href] at h
      simp [Response.fail] at h
    · rw [postCart_throws products newId p quantity store hthrow] at h
      simp [Response.fail] at h

/-- An answer of `POST /cart` other than 200 leaves the store as it was. -/
theorem postCart_not_ok (products : ProductStore) (newId : ObjectId) (productId : IdArg)
    (quantity : JsValue) (store : CartStore)
    (h : (postCart products newId productId quantity store).1.status ≠ 200) :
    (postCart products newId productId quantity store).2 = store := by
  cases productId with
  | falsy => rfl
  | malformed => rfl
  | oid p =>
    rcases quantity_cases quantity with hacc | href | hthrow
    · obtain ⟨qty, hq, hq1⟩ := hacc
      cases hp : findById products p with
      | none => rw [postCart_notFound products newId p quantity store ⟨qty, hq, hq1⟩ hp]
      | some prod =>
        exfalso
        apply h
        cases hf : findOne store p with
        | some existing =>
          rw [postCart_increment products newId p quantity store qty prod existing hq hq1 hp hf]
          rfl
        | none =>
          rw [postCart_insert products newId p quantity store qty prod hq hq1 hp hf]
          rfl
    · rw [postCart_refused products newId p quantity store href]
    · rw [postCart_throws products newId p quantity store hthrow]

/-- What a 200 answer of `PUT /cart/:id` means: the quantity converts to a finite
`q`, the id is well-formed and names a line item, and that document received the
clamped quantity. -/
theorem putCart_ok (products : ProductStore) (id : IdParam) (quantity : JsValue)
    (store : CartStore) (h : (putCart products id quantity store).1.status = 200) :
    ∃ i q existing, id = IdParam.oid i ∧ toNumber quantity = some (JsNum.fin q) ∧
      store.find? (fun it => it.id = i) = some existing ∧
      putCart products id quantity store =
        (Response.ok (Body.item (populate products
          { existing with quantity := min (max q 1) 20 })),
         setQuantityById i (min (max q 1) 20) store) := by
  cases hq : toNumber quantity with
  | none => simp [putCart, hq, Response.fail] at h
  | some n =>
    cases n with
    | nan => simp [putCart, hq, Response.fail] at h
    | posInf => simp [putCart, hq, Response.fail] at h
    | negInf => simp [putCart, hq, Response.fail] at h
    | fin q =>
      cases id with
      | malformed => simp [putCart, hq, Response.fail] at h
      | oid i =>
        cases hf : store.find? (fun it => it.id = i) with
        | none => simp [putCart, hq, findByIdAndUpdate, hf, Response.fail] at h
        | some existing =>
          exact ⟨i, q, existing, rfl, rfl, hf, by simp [putCart, hq, findByIdAndUpdate, hf]⟩

/-- An answer of `PUT /cart/:id` other than 200 leaves the store as it was. -/
theorem putCart_not_ok (products : ProductStore) (id : IdParam) (quantity : JsValue)
    (store : CartStore) (h : (putCart products id quantity store).1.status ≠ 200) :
    (putCart products id quantity store).2 = store := by
  cases hq : toNumber quantity with
  | none => simp [putCart, hq]
  | some n =>
    cases n with
    | nan => simp [putCart, hq]
    | posInf => simp [putCart, hq]
    | negInf => simp [putCart, hq]
    | fin q =>
      cases id with
      | malformed => simp [putCart, hq]
      | oid i =>
        cases hf : store.find? (fun it => it.id = i) with
        | none => simp [putCart, hq, findByIdAndUpdate, hf]
        | some existing =>
          exfalso
          apply h
          simp [putCart, hq, findByIdAndUpdate, hf, Response.ok]

theorem deleteCart_sublist (id : IdParam) (store : CartStore) :
    List.Sublist (deleteCart id store).2 store := by
  unfold deleteCart
  cases id with
  | malformed => exact List.Sublist.refl _
  | oid id =>
    simp only [findByIdAndDelete]
    cases hf : store.find? (fun it => it.id = id) with
    | none => exact List.Sublist.refl _
    | some it => exact List.eraseP_sublist _

theorem postCheckout_store (entropy : Nat) (now : String) (cartItems : CartItemsArg)
    (store : CartStore) :
    (postCheckout entropy now cartItems store).2 = store ∨
      (postCheckout entropy now cartItems store).2 = [] := by
  unfold postCheckout
  cases cartItems with
  | falsy => left; rfl
  | nonArray z => left; cases z <;> rfl
  | items xs =>
    simp only
    split
    · left; rfl
    · cases snapshotTotal xs (JsNum.fin 0) with
      | none => left; rfl
      | some total => right; rfl

theorem getCart_store (products : ProductStore) (store : CartStore) :
    (getCart products store).2 = store := by
  unfold getCart
  simp only
  cases cartTotal (List.map (populate products) store) (JsNum.fin 0) <;> rfl

/-! ## AddOrIncrement on a product already in the cart -/

/-- `POST /cart` with the rounded sum, branch of a product already in the cart. -/
theorem postCartDouble_increment (products : ProductStore) (newId p : ObjectId)
    (quantity : JsValue) (store : CartStore) (qty : ℚ) (prod : Product)
    (existing : CartLineItem)
    (hq : toNumber (quantityOrDefault quantity) = some (JsNum.fin qty)) (hq1 : 1 ≤ qty)
    (hp : findById products p = some prod) (hf : findOne store p = some existing) :
    postCartDouble products newId (IdArg.oid p) quantity store =
      (Response.ok (Body.item (populate products
          { existing with quantity := min (roundDouble (existing.quantity + qty)) 20 })),
        setQuantityById existing.id (min (roundDouble (existing.quantity + qty)) 20) store) := by
  simp [postCartDouble, hq, not_lt.mpr hq1, hp, hf]

/-- C1: when product `p` exists and the cart's line item for `p` has quantity `e`,
`POST /cart` with a finite quantity `q ≥ 1` answers 200 with that line item at
quantity `min (e + q) 20`, the sum `e + q` being the double that JavaScript's `+`
gives, `roundDouble (e + q)`; the store keeps its length, only that line item
changes, the new quantity is at most 20 and, when `e ≤ 20` is a double, at least
`e`; and it is `min (e + q) 20` with the exact sum whenever `e + q` is a double,
as it is, up to the clamp, for integers `e` and `q`. -/
theorem postCartDouble_existing (products : ProductStore) (store : CartStore)
    (newId p : ObjectId) (q : ℚ) (existing : CartLineItem)
    (hprod : ∃ prod ∈ products, prod.id = p)
    (hex : findOne store p = some existing)
    (hids : DistinctIds store)
    (hq : 1 ≤ q) :
    postCartDouble products newId (IdArg.oid p) (JsValue.num (JsNum.fin q)) store =
      (Response.ok (Body.item (populate products
          { existing with quantity := min (roundDouble (existing.quantity + q)) 20 })),
        withQuantity existing.id (min (roundDouble (existing.quantity + q)) 20) store) ∧
    (postCartDouble products newId (IdArg.oid p) (JsValue.num (JsNum.fin q)) store).2.length
      = store.length ∧
    min (roundDouble (existing.quantity + q)) 20 ≤ 20 ∧
    (existing.quantity ≤ 20 → IsDouble existing.quantity →
      existing.quantity ≤ min (roundDouble (existing.quantity + q)) 20) ∧
    (IsDouble (existing.quantity + q) →
      min (roundDouble (existing.quantity + q)) 20 = min (existing.quantity + q) 20) ∧
    (IsInteger existing.quantity → IsInteger q → 0 < existing.quantity →
      min (roundDouble (existing.quantity + q)) 20 = min (existing.quantity + q) 20) := by
  have hsome : (findById products p).isSome = true := (findById_isSome_iff products p).mpr hprod
  obtain ⟨prod, hprod2⟩ := Option.isSome_iff_exists.mp hsome
  have hpost := postCartDouble_increment products newId p (JsValue.num (JsNum.fin q)) store q
    prod existing rfl hq hprod2 hex
  refine ⟨?_, ?_, min_le_right _ _, ?_, ?_, ?_⟩
  · rw [hpost, setQuantityById_eq_withQuantity _ _ _ hids]
  · rw [hpost]; exact setQuantityById_length _ _ _
  · intro he hd
    have hmono := roundDouble_mono existing.quantity (existing.quantity + q) (by linarith)
    unfold IsDouble at hd
    rw [hd] at hmono
    exact le_min hmono he
  · intro hd
    unfold IsDouble at hd
    rw [hd]
  · intro hie hiq hpos
    exact min_roundDouble_of_isInteger _ (isInteger_add _ _ hie hiq) (by linarith)

/-! ## AddOrIncrement on a product not yet in the cart -/

/-- C2: when product `p` exists and no line item of the cart is for `p`,
`POST /cart` with a finite quantity `q ≥ 1` answers 200 with a new line item for
`p` at quantity `min q 20`, and the store is the previous store followed by that
one item. -/
theorem postCart_new (products : ProductStore) (store : CartStore)
    (newId p : ObjectId) (q : ℚ)
    (hprod : ∃ prod ∈ products, prod.id = p)
    (hnone : ∀ it ∈ store, it.productId ≠ p)
    (hq : 1 ≤ q) :
    postCart products newId (IdArg.oid p) (JsValue.num (JsNum.fin q)) store =
      (Response.ok (Body.item (populate products
          { id := newId, productId := p, quantity := min q 20 })),
        store ++ [{ id := newId, productId := p, quantity := min q 20 }]) := by
  have hsome : (findById products p).isSome = true := (findById_isSome_iff products p).mpr hprod
  obtain ⟨prod, hprod2⟩ := Option.isSome_iff_exists.mp hsome
  have hfind : findOne store p = none := (findOne_none_iff store p).mpr hnone
  exact postCart_insert products newId p (JsValue.num (JsNum.fin q)) store q prod rfl hq
    hprod2 hfind

/-! ## Invariants of the cart store -/

theorem quantitiesInRange_setQuantityById (id : ObjectId) (q : ℚ) (store : CartStore)
    (h : QuantitiesInRange store) (hq : 1 ≤ q ∧ q ≤ 20) :
    QuantitiesInRange (setQuantityById id q store) := by
  intro it hit
  rcases mem_setQuantityById id q store it hit with h1 | h1
  · exact h it h1
  · rw [h1]; exact hq

theorem postCart_quantitiesInRange (products : ProductStore) (newId : ObjectId)
    (productId : IdArg) (quantity : JsValue) (store : CartStore)
    (h : QuantitiesInRange store) :
    QuantitiesInRange (postCart products newId productId quantity store).2 := by
  by_cases hst : (postCart products newId productId quantity store).1.status = 200
  · obtain ⟨p, qty, prod, _, _, hq1, _, hcase⟩ :=
      postCart_ok products newId productId quantity store hst
    rcases hcase with ⟨existing, hf, hpost⟩ | ⟨_, hpost⟩
    · rw [hpost]
      have he := h existing (findOne_some_mem store p existing hf).1
      apply quantitiesInRange_setQuantityById _ _ _ h
      exact ⟨le_min (by linarith) (by norm_num), min_le_right _ _⟩
    · rw [hpost]
      intro it hit
      simp only [List.mem_append, List.mem_singleton] at hit
      rcases hit with hit | hit
      · exact h it hit
      · rw [hit]; exact ⟨le_min hq1 (by norm_num), min_le_right _ _⟩
  · rw [postCart_not_ok products newId productId quantity store hst]
    exact h

theorem putCart_quantitiesInRange (products : ProductStore) (id : IdParam)
    (quantity : JsValue) (store : CartStore) (h : QuantitiesInRange store) :
    QuantitiesInRange (putCart products id quantity store).2 := by
  by_cases hst : (putCart products id quantity store).1.status = 200
  · obtain ⟨i, q, existing, _, _, _, hput⟩ := putCart_ok products id quantity store hst
    rw [hput]
    apply quantitiesInRange_setQuantityById _ _ _ h
    exact ⟨le_min (le_max_right _ _) (by norm_num), min_le_right _ _⟩
  · rw [putCart_not_ok products id quantity store hst]
    exact h

theorem handle_quantitiesInRange (products : ProductStore) (store : CartStore)
    (req : Request) (h : QuantitiesInRange store) :
    QuantitiesInRange (handle products store req).2 := by
  cases req with
  | addOrIncrement newId productId quantity =>
    exact postCart_quantitiesInRange products newId productId quantity store h
  | setQuantity id quantity => exact putCart_quantitiesInRange products id quantity store h
  | remove id =>
    intro it hit
    exact h it ((deleteCart_sublist id store).subset hit)
  | checkout entropy now cartItems =>
    rcases postCheckout_store entropy now cartItems store with h1 | h1
    · simp only [handle, h1]; exact h
    · simp only [handle, h1]; intro it hit; cases hit
  | getCart => simp only [handle, getCart_store]; exact h

/-- C3: if every line item of the store has a quantity between 1 and 20 (as in
the empty cart), the same holds after any sequence of AddOrIncrement,
SetQuantity, Remove, Checkout and GetCart requests, whatever their arguments and
whether they succeed or fail. -/
theorem run_quantitiesInRange (products : ProductStore) (reqs : List Request)
    (store : CartStore) (h : QuantitiesInRange store) :
    QuantitiesInRange (run products store reqs) := by
  induction reqs generalizing store with
  | nil => exact h
  | cons r rs ih =>
    simp only [run, List.foldl_cons]
    exact ih _ (handle_quantitiesInRange products store r h)

theorem postCart_uniqueProducts (products : ProductStore) (newId : ObjectId)
    (productId : IdArg) (quantity : JsValue) (store : CartStore)
    (h : UniqueProducts store) :
    UniqueProducts (postCart products newId productId quantity store).2 := by
  by_cases hst : (postCart products newId productId quantity store).1.status = 200
  · obtain ⟨p, qty, prod, _, _, _, _, hcase⟩ :=
      postCart_ok products newId productId quantity store hst
    rcases hcase with ⟨existing, _, hpost⟩ | ⟨hf, hpost⟩
    · rw [hpost]
      simp only [UniqueProducts, setQuantityById_map_productId]
      exact h
    · rw [hpost]
      have hno := (findOne_none_iff store p).mp hf
      simp only [UniqueProducts, List.map_append, List.map_cons, List.map_nil]
      apply List.Nodup.append h (List.nodup_singleton _)
      intro x hx hx2
      simp only [List.mem_singleton] at hx2
      obtain ⟨it, hit, hitp⟩ := List.mem_map.mp hx
      exact hno it hit (by rw [hitp, hx2])
  · rw [postCart_not_ok products newId productId quantity store hst]
    exact h

theorem putCart_uniqueProducts (products : ProductStore) (id : IdParam)
    (quantity : JsValue) (store : CartStore) (h : UniqueProducts store) :
    UniqueProducts (putCart products id quantity store).2 := by
  by_cases hst : (putCart products id quantity store).1.status = 200
  · obtain ⟨i, q, existing, _, _, _, hput⟩ := putCart_ok products id quantity store hst
    rw [hput]
    simp only [UniqueProducts, setQuantityById_map_productId]
    exact h
  · rw [putCart_not_ok products id quantity store hst]
    exact h

theorem handle_uniqueProducts (products : ProductStore) (store : CartStore)
    (req : Request) (h : UniqueProducts store) :
    UniqueProducts (handle products store req).2 := by
  cases req with
  | addOrIncrement newId productId quantity =>
    exact postCart_uniqueProducts products newId productId quantity store h
  | setQuantity id quantity => exact putCart_uniqueProducts products id quantity store h
  | remove id =>
    exact List.Nodup.sublist ((deleteCart_sublist id store).map _) h
  | checkout entropy now cartItems =>
    rcases postCheckout_store entropy now cartItems store with h1 | h1
    · simp only [handle, h1]; exact h
    · simp only [handle, h1]; exact List.nodup_nil
  | getCart => simp only [handle, getCart_store]; exact h

/-- C4: if the store has at most one line item per product (as in the empty
cart), the same holds after any sequence of AddOrIncrement, SetQuantity, Remove,
Checkout and GetCart requests. -/
theorem run_uniqueProducts (products : ProductStore) (reqs : List Request)
    (store : CartStore) (h : UniqueProducts store) :
    UniqueProducts (run products store reqs) := by
  induction reqs generalizing store with
  | nil => exact h
  | cons r rs ih =>
    simp only [run, List.foldl_cons]
    exact ih _ (handle_uniqueProducts products store r h)

/-! ## Instances of the theorems above on the sample data -/

/-- Adding five smartphones to the sample cart, which holds nineteen, leaves
twenty in line item 11 and the other line item as it was; and adding the double
nearest to 2.7 to a line item of quantity 7 leaves `2730307274093363 / 2 ^ 48`,
the double nearest to 9.7, the exact sum lying half-way between two doubles. -/
theorem postCartDouble_existing_witness :
    (postCartDouble sampleProducts 12 (IdArg.oid 2) (JsValue.num (JsNum.fin 5)) sampleCart).2 =
      [ { id := 10, productId := 1, quantity := 3 },
        { id := 11, productId := 2, quantity := 20 } ] ∧
    (postCartDouble sampleProducts 12 (IdArg.oid 1)
        (JsValue.num (JsNum.fin (3039929748475085 / 2 ^ 50)))
        [ { id := 10, productId := 1, quantity := 7 } ]).2 =
      [ { id := 10, productId := 1, quantity := 2730307274093363 / 2 ^ 48 } ] := by
  have h := postCartDouble_existing sampleProducts sampleCart 12 2 5
    { id := 11, productId := 2, quantity := 19 }
    ⟨_, List.mem_cons_of_mem _ (List.mem_cons_self _ _), rfl⟩
    (by simp [findOne, sampleCart])
    (by simp [DistinctIds, sampleCart])
    (by norm_num)
  have hsum := h.2.2.2.2.2 (by unfold IsInteger; rfl) (by unfold IsInteger; rfl) (by norm_num)
  have h2 := (postCartDouble_existing sampleProducts
    [ { id := 10, productId := 1, quantity := 7 } ] 12 1 (3039929748475085 / 2 ^ 50)
    { id := 10, productId := 1, quantity := 7 }
    ⟨_, List.mem_cons_self _ _, rfl⟩
    (by simp [findOne])
    (by simp [DistinctIds])
    (by norm_num)).1
  have hround : roundDouble ((7 : ℚ) + 3039929748475085 / 2 ^ 50) =
      2730307274093363 / 2 ^ 48 := by
    have hy : ((7 : ℚ) + 3039929748475085 / 2 ^ 50) / (2 : ℚ) ^ ((3 : ℤ) - 52) =
        ((5460614548186726 : ℤ) : ℚ) + 1 / 2 := by norm_num
    rw [roundDouble_eval _ 3 5460614548186726 (by norm_num) (by norm_num) (by norm_num)
      (by norm_num) (by rw [hy]; exact roundHalfEven_tie_even _ (by norm_num))]
    norm_num
  constructor
  · rw [h.1, hsum]
    norm_num [withQuantity, sampleCart]
  · rw [h2]
    simp only [withQuantity, List.map_cons, List.map_nil, if_true]
    rw [hround]
    norm_num

/-- Adding twenty-five headphones to a cart holding only smartphones appends one
line item for the headphones, at quantity twenty. -/
theorem postCart_new_witness :
    (postCart sampleProducts 12 (IdArg.oid 1) (JsValue.num (JsNum.fin 25))
        [ { id := 11, productId := 2, quantity := 19 } ]).2 =
      [ { id := 11, productId := 2, quantity := 19 },
        { id := 12, productId := 1, quantity := 20 } ] := by
  have h := postCart_new sampleProducts [ { id := 11, productId := 2, quantity := 19 } ] 12 1 25
    ⟨_, List.mem_cons_self _ _, rfl⟩
    (by simp)
    (by norm_num)
  rw [h]
  norm_num

/-- A run from the empty cart with an oversized add, a zero update, a removal
with a malformed id and a checkout of an empty snapshot keeps quantities in
range. -/
theorem run_quantitiesInRange_witness :
    QuantitiesInRange (run sampleProducts []
      [ Request.addOrIncrement 10 (IdArg.oid 1) (JsValue.num (JsNum.fin 25)),
        Request.setQuantity (IdParam.oid 10) (JsValue.num (JsNum.fin 0)),
        Request.remove IdParam.malformed,
        Request.checkout 0 "" (CartItemsArg.items []) ]) :=
  run_quantitiesInRange sampleProducts _ [] (by intro it hit; cases hit)

/-- A run from the empty cart that adds the same product twice and another
product once keeps one line item per product. -/
theorem run_uniqueProducts_witness :
    UniqueProducts (run sampleProducts []
      [ Request.addOrIncrement 10 (IdArg.oid 1) (JsValue.num (JsNum.fin 2)),
        Request.addOrIncrement 11 (IdArg.oid 1) (JsValue.num (JsNum.fin 2)),
        Request.addOrIncrement 12 (IdArg.oid 2) JsValue.undefined ]) :=
  run_uniqueProducts sampleProducts _ [] List.nodup_nil

/-! ## The quantities that are persisted -/

/-- With the schema that persists every number as it is, the handlers are the
handlers without a schema. -/
theorem withSchema_plain (products : ProductStore) (store : CartStore) :
    (∀ newId productId quantity,
      postCartWithSchema plainSchema products newId productId quantity store =
        postCartDouble products newId productId quantity store) ∧
    (∀ id quantity,
      putCartWithSchema plainSchema products id quantity store =
        putCart products id quantity store) := by
  constructor
  · intro newId productId quantity
    simp only [postCartWithSchema, postCartDouble, plainSchema]
  · intro id quantity
    simp only [putCartWithSchema, putCart, plainSchema]

/-- The outcomes of `POST /cart` under a schema: no change of the store, with an
answer other than 200; or one line item rewritten with what the schema persists
of `min (existing.quantity + qty) 20`; or one line item appended with what it
persists of `min qty 20`. -/
theorem postCartWithSchema_cases (schema : QuantitySchema) (products : ProductStore)
    (newId : ObjectId) (productId : IdArg) (quantity : JsValue) (store : CartStore) :
    ((postCartWithSchema schema products newId productId quantity store).1.status ≠ 200 ∧
      (postCartWithSchema schema products newId productId quantity store).2 = store) ∨
    (∃ existing qty persisted, existing ∈ store ∧ 1 ≤ qty ∧
      schema (min (roundDouble (existing.quantity + qty)) 20) = some persisted ∧
      postCartWithSchema schema products newId productId quantity store =
        (Response.ok (Body.item (populate products { existing with quantity := persisted })),
          setQuantityById existing.id persisted store)) ∨
    (∃ p qty persisted, 1 ≤ qty ∧ schema (min qty 20) = some persisted ∧
      postCartWithSchema schema products newId productId quantity store =
        (Response.ok (Body.item (populate products
            { id := newId, productId := p, quantity := persisted })),
          store ++ [{ id := newId, productId := p, quantity := persisted }])) := by
  cases productId with
  | falsy => left; exact ⟨by simp [postCartWithSchema, Response.fail], rfl⟩
  | malformed => left; exact ⟨by simp [postCartWithSchema, Response.fail], rfl⟩
  | oid p =>
    cases hq : toNumber (quantityOrDefault quantity) with
    | none => left; simp [postCartWithSchema, hq, Response.fail]
    | some n =>
      cases n with
      | nan => left; simp [postCartWithSchema, hq, Response.fail]
      | posInf => left; simp [postCartWithSchema, hq, Response.fail]
      | negInf => left; simp [postCartWithSchema, hq, Response.fail]
      | fin qty =>
        by_cases hlt : qty < 1
        · left; simp [postCartWithSchema, hq, hlt, Response.fail]
        · cases hp : findById products p with
          | none => left; simp [postCartWithSchema, hq, hlt, hp, Response.fail]
          | some prod =>
            cases hf : findOne store p with
            | some existing =>
              cases hs : schema (min (roundDouble (existing.quantity + qty)) 20) with
              | none => left; simp [postCartWithSchema, hq, hlt, hp, hf, hs, Response.fail]
              | some persisted =>
                right; left
                exact ⟨existing, qty, persisted, (findOne_some_mem store p existing hf).1,
                  not_lt.mp hlt, hs, by simp [postCartWithSchema, hq, hlt, hp, hf, hs]⟩
            | none =>
              cases hs : schema (min qty 20) with
              | none => left; simp [postCartWithSchema, hq, hlt, hp, hf, hs, Response.fail]
              | some persisted =>
                right; right
                exact ⟨p, qty, persisted, not_lt.mp hlt, hs,
                  by simp [postCartWithSchema, hq, hlt, hp, hf, hs]⟩

/-- The outcomes of `PUT /cart/:id` under a schema: no change of the store, with
an answer other than 200; or one line item rewritten with what the schema
persists of `min (max q 1) 20`. -/
theorem putCartWithSchema_cases (schema : QuantitySchema) (products : ProductStore)
    (id : IdParam) (quantity : JsValue) (store : CartStore) :
    ((putCartWithSchema schema products id quantity store).1.status ≠ 200 ∧
      (putCartWithSchema schema products id quantity store).2 = store) ∨
    (∃ existing q persisted, existing ∈ store ∧
      schema (min (max q 1) 20) = some persisted ∧
      putCartWithSchema schema products id quantity store =
        (Response.ok (Body.item (populate products { existing with quantity := persisted })),
          setQuantityById existing.id persisted store)) := by
  cases hq : toNumber quantity with
  | none => left; simp [putCartWithSchema, hq, Response.fail]
  | some n =>
    cases n with
    | nan => left; simp [putCartWithSchema, hq, Response.fail]
    | posInf => left; simp [putCartWithSchema, hq, Response.fail]
    | negInf => left; simp [putCartWithSchema, hq, Response.fail]
    | fin q =>
      cases id with
      | malformed => left; simp [putCartWithSchema, hq, Response.fail]
      | oid i =>
        cases hs : schema (min (max q 1) 20) with
        | none => left; simp [putCartWithSchema, hq, hs, Response.fail]
        | some persisted =>
          cases hf : store.find? (fun it => it.id = i) with
          | none => left; simp [putCartWithSchema, hq, hs, findByIdAndUpdate, hf, Response.fail]
          | some existing =>
            right
            have hmem := find?_id_some store i existing hf
            refine ⟨existing, q, persisted, hmem.1, hs, ?_⟩
            simp [putCartWithSchema, hq, hs, findByIdAndUpdate, hf, hmem.2]

theorem one_le_roundDouble (x : ℚ) (h : 1 ≤ x) : 1 ≤ roundDouble x := by
  have h1 : roundDouble 1 = 1 := by
    have h := roundDouble_natCast 1 (by norm_num) (by norm_num)
    simpa using h
  have hm := roundDouble_mono 1 x h
  rw [h1] at hm
  exact hm

/-- C5: under a schema that keeps the spec's record of a line item, every
accepted `POST /cart` or `PUT /cart/:id` returns a line item that is in the store
afterwards with the returned quantity, an integer between 1 and 20; when every
quantity of the store is such an integer, so is every quantity of the store
after any such request, accepted or not; and on a store with quantities between
1 and 20 the number an accepted request hands to the schema, of which the
returned quantity is what the schema persists, lies between 1 and 20, by the
handler's own clamp and for any schema. -/
theorem persisted_quantity_integer (schema : QuantitySchema) (hspec : schema.PerSpec)
    (products : ProductStore) (store : CartStore) :
    (∀ newId productId quantity,
      (postCartWithSchema schema products newId productId quantity store).1.status = 200 →
      ∃ item, (postCartWithSchema schema products newId productId quantity store).1 =
          Response.ok (Body.item item) ∧
        (∃ it ∈ (postCartWithSchema schema products newId productId quantity store).2,
          it.id = item.id ∧ it.quantity = item.quantity) ∧
        IsInteger item.quantity ∧ 1 ≤ item.quantity ∧ item.quantity ≤ 20) ∧
    (∀ id quantity,
      (putCartWithSchema schema products id quantity store).1.status = 200 →
      ∃ item, (putCartWithSchema schema products id quantity store).1 =
          Response.ok (Body.item item) ∧
        (∃ it ∈ (putCartWithSchema schema products id quantity store).2,
          it.id = item.id ∧ it.quantity = item.quantity) ∧
        IsInteger item.quantity ∧ 1 ≤ item.quantity ∧ item.quantity ≤ 20) ∧
    ((∀ it ∈ store, IsInteger it.quantity ∧ 1 ≤ it.quantity ∧ it.quantity ≤ 20) →
      (∀ newId productId quantity,
        ∀ it ∈ (postCartWithSchema schema products newId productId quantity store).2,
          IsInteger it.quantity ∧ 1 ≤ it.quantity ∧ it.quantity ≤ 20) ∧
      (∀ id quantity,
        ∀ it ∈ (putCartWithSchema schema products id quantity store).2,
          IsInteger it.quantity ∧ 1 ≤ it.quantity ∧ it.quantity ≤ 20)) ∧
    (QuantitiesInRange store →
      (∀ (anySchema : QuantitySchema) newId productId quantity,
        (postCartWithSchema anySchema products newId productId quantity store).1.status = 200 →
        ∃ item handed,
          (postCartWithSchema anySchema products newId productId quantity store).1 =
            Response.ok (Body.item item) ∧
          anySchema handed = some item.quantity ∧ 1 ≤ handed ∧ handed ≤ 20) ∧
      (∀ (anySchema : QuantitySchema) id quantity,
        (putCartWithSchema anySchema products id quantity store).1.status = 200 →
        ∃ item handed,
          (putCartWithSchema anySchema products id quantity store).1 =
            Response.ok (Body.item item) ∧
          anySchema handed = some item.quantity ∧ 1 ≤ handed ∧ handed ≤ 20)) := by
  refine ⟨?_, ?_, ?_, ?_⟩
  · intro newId productId quantity h
    rcases postCartWithSchema_cases schema products newId productId quantity store with
      ⟨hne, _⟩ | ⟨existing, qty, persisted, hmem, _, hs, hpost⟩ |
      ⟨p, qty, persisted, _, hs, hpost⟩
    · exact absurd h hne
    · refine ⟨_, by rw [hpost], ?_, hspec _ persisted hs⟩
      rw [hpost]
      exact exists_mem_setQuantityById _ _ _ ⟨existing, hmem, rfl⟩
    · refine ⟨_, by rw [hpost], ?_, hspec _ persisted hs⟩
      rw [hpost]
      exact ⟨_, List.mem_append_right _ (List.mem_singleton_self _), rfl, rfl⟩
  · intro id quantity h
    rcases putCartWithSchema_cases schema products id quantity store with
      ⟨hne, _⟩ | ⟨existing, q, persisted, hmem, hs, hput⟩
    · exact absurd h hne
    · refine ⟨_, by rw [hput], ?_, hspec _ persisted hs⟩
      rw [hput]
      exact exists_mem_setQuantityById _ _ _ ⟨existing, hmem, rfl⟩
  · intro hall
    constructor
    · intro newId productId quantity it hit
      rcases postCartWithSchema_cases schema products newId productId quantity store with
        ⟨_, hst⟩ | ⟨existing, qty, persisted, _, _, hs, hpost⟩ |
        ⟨p, qty, persisted, _, hs, hpost⟩
      · rw [hst] at hit
        exact hall it hit
      · rw [hpost] at hit
        rcases mem_setQuantityById _ _ _ _ hit with h1 | h1
        · exact hall it h1
        · rw [h1]; exact hspec _ persisted hs
      · rw [hpost] at hit
        rcases List.mem_append.mp hit with h1 | h1
        · exact hall it h1
        · rw [List.mem_singleton.mp h1]; exact hspec _ persisted hs
    · intro id quantity it hit
      rcases putCartWithSchema_cases schema products id quantity store with
        ⟨_, hst⟩ | ⟨existing, q, persisted, _, hs, hput⟩
      · rw [hst] at hit
        exact hall it hit
      · rw [hput] at hit
        rcases mem_setQuantityById _ _ _ _ hit with h1 | h1
        · exact hall it h1
        · rw [h1]; exact hspec _ persisted hs
  · intro hrange
    constructor
    · intro anySchema newId productId quantity h
      rcases postCartWithSchema_cases anySchema products newId productId quantity store with
        ⟨hne, _⟩ | ⟨existing, qty, persisted, hmem, hq1, hs, hpost⟩ |
        ⟨p, qty, persisted, hq1, hs, hpost⟩
      · exact absurd h hne
      · have he := hrange existing hmem
        refine ⟨_, _, by rw [hpost], hs, ?_, min_le_right _ _⟩
        exact le_min (one_le_roundDouble _ (by linarith [he.1])) (by norm_num)
      · exact ⟨_, _, by rw [hpost], hs, le_min hq1 (by norm_num), min_le_right _ _⟩
    · intro anySchema id quantity h
      rcases putCartWithSchema_cases anySchema products id quantity store with
        ⟨hne, _⟩ | ⟨existing, q, persisted, _, hs, hput⟩
      · exact absurd h hne
      · exact ⟨_, _, by rw [hput], hs, le_min (le_max_right _ _) (by norm_num),
          min_le_right _ _⟩

theorem strictSchema_perSpec : strictSchema.PerSpec := by
  intro q v h
  unfold strictSchema at h
  split_ifs at h with hc
  cases h
  exact hc

/-- Under the schema that refuses what the record excludes, updating line item
10 of the sample cart to quantity 25 is accepted and persists 20, and updating
it to 2.5 is refused with 500 and changes nothing. -/
theorem persisted_quantity_integer_witness :
    (∃ item, (putCartWithSchema strictSchema sampleProducts (IdParam.oid 10)
          (JsValue.num (JsNum.fin 25)) sampleCart).1 = Response.ok (Body.item item) ∧
        IsInteger item.quantity ∧ 1 ≤ item.quantity ∧ item.quantity ≤ 20) ∧
    (putCartWithSchema strictSchema sampleProducts (IdParam.oid 10)
        (JsValue.num (JsNum.fin 25)) sampleCart).2 =
      [ { id := 10, productId := 1, quantity := 20 },
        { id := 11, productId := 2, quantity := 19 } ] ∧
    putCartWithSchema strictSchema sampleProducts (IdParam.oid 10)
        (JsValue.num (JsNum.fin (5 / 2))) sampleCart =
      (Response.fail 500 "Failed to update cart item", sampleCart) := by
  have hs20 : strictSchema (min (max 25 1) 20) = some 20 := by
    norm_num [strictSchema]
  have hs : strictSchema (min (max (5 / 2) 1) 20) = none := by
    norm_num [strictSchema]
  have hput : putCartWithSchema strictSchema sampleProducts (IdParam.oid 10)
      (JsValue.num (JsNum.fin 25)) sampleCart =
      (Response.ok (Body.item (populate sampleProducts
        { id := 10, productId := 1, quantity := 20 })),
        [ { id := 10, productId := 1, quantity := 20 },
          { id := 11, productId := 2, quantity := 19 } ]) := by
    simp only [putCartWithSchema, toNumber, hs20]
    simp [findByIdAndUpdate, sampleCart, setQuantityById]
  refine ⟨?_, ?_, ?_⟩
  · obtain ⟨item, h1, _, h2⟩ :=
      (persisted_quantity_integer strictSchema strictSchema_perSpec sampleProducts
        sampleCart).2.1 (IdParam.oid 10) (JsValue.num (JsNum.fin 25))
        (by rw [hput]; rfl)
    exact ⟨item, h1, h2⟩
  · rw [hput]
  · simp only [putCartWithSchema, toNumber, hs]

/-! ## SetQuantity -/

/-- C6: for a line item `existing` of a store with distinct ids and a finite
`q`, `PUT /cart/:id` answers 200 with that line item at quantity
`min (max q 1) 20`; the store keeps its length, the line item is still there with
its id and productId, no other line item changes; the stored quantity is 1 for
`q ≤ 1`, 20 for `q ≥ 20` and `q` in between. -/
theorem putCart_existing (products : ProductStore) (store : CartStore)
    (existing : CartLineItem) (q : ℚ)
    (hids : DistinctIds store) (hmem : existing ∈ store) :
    putCart products (IdParam.oid existing.id) (JsValue.num (JsNum.fin q)) store =
      (Response.ok (Body.item (populate products
          { existing with quantity := min (max q 1) 20 })),
        withQuantity existing.id (min (max q 1) 20) store) ∧
    (putCart products (IdParam.oid existing.id) (JsValue.num (JsNum.fin q)) store).2.length
      = store.length ∧
    ({ existing with quantity := min (max q 1) 20 } : CartLineItem) ∈
      (putCart products (IdParam.oid existing.id) (JsValue.num (JsNum.fin q)) store).2 ∧
    (q ≤ 1 → min (max q 1) 20 = 1) ∧
    (20 ≤ q → min (max q 1) 20 = 20) ∧
    (1 ≤ q → q ≤ 20 → min (max q 1) 20 = q) := by
  have hf := find?_id_of_mem store existing hids hmem
  have hput : putCart products (IdParam.oid existing.id) (JsValue.num (JsNum.fin q)) store =
      (Response.ok (Body.item (populate products
          { existing with quantity := min (max q 1) 20 })),
        withQuantity existing.id (min (max q 1) 20) store) := by
    rw [← setQuantityById_eq_withQuantity _ _ _ hids]
    simp [putCart, toNumber, findByIdAndUpdate, hf]
  refine ⟨hput, ?_, ?_, ?_, ?_, ?_⟩
  · rw [hput]; simp [withQuantity]
  · rw [hput]
    exact List.mem_map.mpr ⟨existing, hmem, by simp⟩
  · intro h
    rw [max_eq_right h]; norm_num
  · intro h
    rw [max_eq_left (by linarith)]; exact min_eq_right h
  · intro h1 h2
    rw [max_eq_left h1]; exact min_eq_left h2

/-- Setting line item 10 of the sample cart to quantity 0 stores quantity 1 and
keeps the line item. -/
theorem putCart_existing_witness :
    (putCart sampleProducts (IdParam.oid 10) (JsValue.num (JsNum.fin 0)) sampleCart).2 =
      [ { id := 10, productId := 1, quantity := 1 },
        { id := 11, productId := 2, quantity := 19 } ] := by
  have h := (putCart_existing sampleProducts sampleCart
    { id := 10, productId := 1, quantity := 3 } 0
    (by simp [DistinctIds, sampleCart])
    (by simp [sampleCart])).1
  rw [h]
  simp [withQuantity, sampleCart]

/-- Setting line item 10 of the sample cart to 25 stores 20, and to 5 stores 5. -/
theorem putCart_examples :
    (putCart sampleProducts (IdParam.oid 10) (JsValue.num (JsNum.fin 25)) sampleCart).2 =
      [ { id := 10, productId := 1, quantity := 20 },
        { id := 11, productId := 2, quantity := 19 } ] ∧
    (putCart sampleProducts (IdParam.oid 10) (JsValue.num (JsNum.fin 5)) sampleCart).2 =
      [ { id := 10, productId := 1, quantity := 5 },
        { id := 11, productId := 2, quantity := 19 } ] := by
  constructor
  · norm_num [putCart, sampleCart, toNumber, findByIdAndUpdate, setQuantityById]
  · norm_num [putCart, sampleCart, toNumber, findByIdAndUpdate, setQuantityById]

/-- C7, as stated, fails: `null`, `false`, the empty string and the empty array
are not numbers, yet `PUT /cart/10` accepts each of them, converts it to `0` and
stores quantity 1. -/
theorem putCart_accepts_non_numbers :
    ((putCart sampleProducts (IdParam.oid 10) JsValue.null sampleCart).1.status = 200 ∧
      (putCart sampleProducts (IdParam.oid 10) JsValue.null sampleCart).2 =
        [ { id := 10, productId := 1, quantity := 1 },
          { id := 11, productId := 2, quantity := 19 } ]) ∧
    ((putCart sampleProducts (IdParam.oid 10) (JsValue.bool false) sampleCart).1.status = 200 ∧
      (putCart sampleProducts (IdParam.oid 10) (JsValue.bool false) sampleCart).2 =
        [ { id := 10, productId := 1, quantity := 1 },
          { id := 11, productId := 2, quantity := 19 } ]) ∧
    ((putCart sampleProducts (IdParam.oid 10) (JsValue.str "") sampleCart).1.status = 200 ∧
      (putCart sampleProducts (IdParam.oid 10) (JsValue.str "") sampleCart).2 =
        [ { id := 10, productId := 1, quantity := 1 },
          { id := 11, productId := 2, quantity := 19 } ]) ∧
    ((putCart sampleProducts (IdParam.oid 10) (JsValue.arr []) sampleCart).1.status = 200 ∧
      (putCart sampleProducts (IdParam.oid 10) (JsValue.arr []) sampleCart).2 =
        [ { id := 10, productId := 1, quantity := 1 },
          { id := 11, productId := 2, quantity := 19 } ]) := by
  have key : ∀ v, toNumber v = some (JsNum.fin 0) →
      (putCart sampleProducts (IdParam.oid 10) v sampleCart).1.status = 200 ∧
      (putCart sampleProducts (IdParam.oid 10) v sampleCart).2 =
        [ { id := 10, productId := 1, quantity := 1 },
          { id := 11, productId := 2, quantity := 19 } ] := by
    intro v hv
    constructor
    · simp [putCart, hv, sampleCart, findByIdAndUpdate, Response.ok]
    · norm_num [putCart, hv, sampleCart, findByIdAndUpdate, setQuantityById]
  exact ⟨key _ (by decide), key _ (by decide), key _ (by decide), key _ (by decide)⟩

/-- C7, amended: `PUT /cart/:id` answers 400 exactly when `Number(quantity)` is a
number that is not finite, and then the store is unchanged; that is so for an
absent quantity, `NaN`, the infinities, a plain object, the string `"abc"` and
the string `"Infinity"`, while `null`, the booleans, the empty string and the
empty array convert to the finite numbers 0 and 1. When the conversion throws,
the answer is 500 and the store is unchanged as well. -/
theorem putCart_invalid_iff (products : ProductStore) (id : IdParam) (quantity : JsValue)
    (store : CartStore) :
    ((putCart products id quantity store).1.status = 400 ↔
      (toNumber quantity).map JsNum.isFinite = some false) ∧
    ((toNumber quantity).map JsNum.isFinite = some false →
      putCart products id quantity store =
        (Response.fail 400 "Quantity must be a number", store)) ∧
    (toNumber quantity = none →
      putCart products id quantity store =
        (Response.fail 500 "Failed to update cart item", store)) ∧
    (∀ v ∈ [JsValue.undefined, JsValue.num JsNum.nan, JsValue.num JsNum.posInf,
        JsValue.num JsNum.negInf, JsValue.obj false, JsValue.str "abc",
        JsValue.str "Infinity"],
      (toNumber v).map JsNum.isFinite = some false) ∧
    (∀ v ∈ [JsValue.null, JsValue.bool false, JsValue.bool true, JsValue.str "",
        JsValue.arr []], (toNumber v).map JsNum.isFinite = some true) := by
  refine ⟨?_, ?_, ?_, by decide, by decide⟩
  · cases hq : toNumber quantity with
    | none => simp [putCart, hq, Response.fail]
    | some n =>
      cases n with
      | nan => simp [putCart, hq, Response.fail, JsNum.isFinite]
      | posInf => simp [putCart, hq, Response.fail, JsNum.isFinite]
      | negInf => simp [putCart, hq, Response.fail, JsNum.isFinite]
      | fin q =>
        cases id with
        | malformed => simp [putCart, hq, Response.fail, JsNum.isFinite]
        | oid i =>
          cases hf : store.find? (fun it => it.id = i) <;>
            simp [putCart, hq, findByIdAndUpdate, hf, Response.fail, Response.ok,
              JsNum.isFinite]
  · intro h
    cases hq : toNumber quantity with
    | none => rw [hq] at h; simp at h
    | some n =>
      cases n with
      | nan => simp [putCart, hq]
      | posInf => simp [putCart, hq]
      | negInf => simp [putCart, hq]
      | fin q => rw [hq] at h; simp [JsNum.isFinite] at h
  · intro h
    simp [putCart, h]

/-- An absent quantity is refused with 400 and the sample cart is unchanged. -/
theorem putCart_invalid_iff_witness :
    putCart sampleProducts (IdParam.oid 10) JsValue.undefined sampleCart =
      (Response.fail 400 "Quantity must be a number", sampleCart) :=
  (putCart_invalid_iff sampleProducts (IdParam.oid 10) JsValue.undefined sampleCart).2.1
    (by decide)

/-- C8: `PUT /cart/:id` with a finite quantity answers 404 and leaves the store
unchanged when the id is a well-formed ObjectId of no line item; with an id that
is not a well-formed ObjectId it answers 500, also leaving the store
unchanged. -/
theorem putCart_unknown_id (products : ProductStore) (store : CartStore) (q : ℚ) :
    (∀ i, (∀ it ∈ store, it.id ≠ i) →
      putCart products (IdParam.oid i) (JsValue.num (JsNum.fin q)) store =
        (Response.fail 404 "Cart item not found", store)) ∧
    putCart products IdParam.malformed (JsValue.num (JsNum.fin q)) store =
      (Response.fail 500 "Failed to update cart item", store) := by
  constructor
  · intro i hi
    have hf : store.find? (fun it => it.id = i) = none := by
      simp [List.find?_eq_none]
      exact hi
    simp [putCart, toNumber, findByIdAndUpdate, hf]
  · simp [putCart, toNumber]

/-- On the sample cart, id 99 names no line item and is answered 404. -/
theorem putCart_unknown_id_witness :
    putCart sampleProducts (IdParam.oid 99) (JsValue.num (JsNum.fin 5)) sampleCart =
      (Response.fail 404 "Cart item not found", sampleCart) :=
  (putCart_unknown_id sampleProducts sampleCart 5).1 99 (by
    intro it hit
    simp only [sampleCart, List.mem_cons, List.mem_singleton, List.not_mem_nil,
      or_false] at hit
    rcases hit with h | h <;> rw [h] <;> decide)

/-! ## Error classification of AddOrIncrement -/

/-- C9, as stated, fails: with a valid quantity, a `productId` that is not a
well-formed ObjectId resolves to no product, yet the answer is 400 and not 404;
and the quantities `true` and `"5"`, which are not numbers, are accepted and
counted as 1 and 5. -/
theorem postCart_classification_fails :
    (postCart sampleProducts 12 IdArg.malformed (JsValue.num (JsNum.fin 1)) sampleCart).1.status
      = 400 ∧
    (postCart sampleProducts 12 (IdArg.oid 1) (JsValue.bool true) sampleCart).1.status = 200 ∧
    (postCart sampleProducts 12 (IdArg.oid 1) (JsValue.bool true) sampleCart).2 =
      [ { id := 10, productId := 1, quantity := 4 },
        { id := 11, productId := 2, quantity := 19 } ] ∧
    (postCart sampleProducts 12 (IdArg.oid 1) (JsValue.str "5") sampleCart).2 =
      [ { id := 10, productId := 1, quantity := 8 },
        { id := 11, productId := 2, quantity := 19 } ] := by
  have h5 : toNumber (JsValue.str "5") = some (JsNum.fin 5) := by
    have hread : toNumber (JsValue.str "5") = some
        (JsNum.ofRat ((((5 : ℕ) : ℚ) + ((0 : ℕ) : ℚ) / (10 : ℚ) ^ (0 : ℕ)) * (10 : ℚ) ^ (0 : ℤ))) :=
      rfl
    have hfive : roundDouble 5 = 5 := by
      have h := roundDouble_natCast 5 (by norm_num) (by norm_num)
      simpa using h
    rw [hread]
    norm_num [JsNum.ofRat, overflowBound, hfive]
  have hp : findById sampleProducts 1 = some
      { id := 1, name := "Wireless Headphones", price := 9999 / 100, image := "",
        description := "", category := "" } := by
    simp [findById, sampleProducts]
  have hf : findOne sampleCart 1 = some { id := 10, productId := 1, quantity := 3 } := by
    simp [findOne, sampleCart]
  have htrue := postCart_increment sampleProducts 12 1 (JsValue.bool true) sampleCart 1 _ _
    rfl (le_refl _) hp hf
  have hfive := postCart_increment sampleProducts 12 1 (JsValue.str "5") sampleCart 5 _ _
    h5 (by norm_num) hp hf
  refine ⟨?_, ?_, ?_, ?_⟩
  · simp [postCart, Response.fail]
  · rw [htrue]; rfl
  · rw [htrue]; norm_num [sampleCart, setQuantityById]
  · rw [hfive]; norm_num [sampleCart, setQuantityById]

/-- C9, amended: `POST /cart` answers 400 when `productId` is falsy and when it
is not a well-formed ObjectId, whatever the quantity; for a well-formed id it
answers 400 when `Number(quantity)` (with 1 for an absent quantity) is a number
but not a finite one at least 1, whether or not the product exists, 500 when
that conversion throws, and 404 when the quantity passes and no product has the
id; every answer other than 200 leaves the store unchanged; and the answer is
200 exactly when the id is well-formed, a product has it, and the quantity
passes. -/
theorem postCart_classification (products : ProductStore) (newId : ObjectId)
    (quantity : JsValue) (store : CartStore) :
    postCart products newId IdArg.falsy quantity store =
      (Response.fail 400 "productId is required", store) ∧
    postCart products newId IdArg.malformed quantity store =
      (Response.fail 400 "Invalid productId", store) ∧
    (∀ p, QuantityRefused quantity →
      postCart products newId (IdArg.oid p) quantity store =
        (Response.fail 400 "Quantity must be at least 1", store)) ∧
    (∀ p, toNumber (quantityOrDefault quantity) = none →
      postCart products newId (IdArg.oid p) quantity store =
        (Response.fail 500 "Failed to add item to cart", store)) ∧
    (∀ p, QuantityAccepted quantity → (∀ prod ∈ products, prod.id ≠ p) →
      postCart products newId (IdArg.oid p) quantity store =
        (Response.fail 404 "Product not found", store)) ∧
    (∀ productId, (postCart products newId productId quantity store).1.status ≠ 200 →
      (postCart products newId productId quantity store).2 = store) ∧
    (∀ productId, (postCart products newId productId quantity store).1.status = 200 ↔
      ∃ p, productId = IdArg.oid p ∧ (∃ prod ∈ products, prod.id = p) ∧
        QuantityAccepted quantity) := by
  refine ⟨rfl, rfl, ?_, ?_, ?_, ?_, ?_⟩
  · intro p h
    exact postCart_refused products newId p quantity store h
  · intro p h
    exact postCart_throws products newId p quantity store h
  · intro p hacc hno
    exact postCart_notFound products newId p quantity store hacc
      ((findById_none_iff products p).mpr hno)
  · intro productId hne
    exact postCart_not_ok products newId productId quantity store hne
  · intro productId
    constructor
    · intro h
      obtain ⟨p, qty, prod, hpid, hq, hq1, hprod, _⟩ :=
        postCart_ok products newId productId quantity store h
      refine ⟨p, hpid, ?_, ⟨qty, hq, hq1⟩⟩
      exact (findById_isSome_iff products p).mp (by rw [hprod]; rfl)
    · rintro ⟨p, rfl, hex, ⟨qty, hq, hq1⟩⟩
      have hsome := (findById_isSome_iff products p).mpr hex
      obtain ⟨prod, hprod⟩ := Option.isSome_iff_exists.mp hsome
      cases hf : findOne store p with
      | some existing =>
        rw [postCart_increment products newId p quantity store qty prod existing hq hq1 hprod hf]
        rfl
      | none =>
        rw [postCart_insert products newId p quantity store qty prod hq hq1 hprod hf]
        rfl

/-- On the sample data: a quantity of 0 is refused with 400 for a product that
exists, a passing quantity for the unknown product 3 is refused with 404, and
the quantity `"0.99999999999999999"`, which `Number` reads as the double 1, is
accepted. -/
theorem postCart_classification_witness :
    postCart sampleProducts 12 (IdArg.oid 1) (JsValue.num (JsNum.fin 0)) sampleCart =
      (Response.fail 400 "Quantity must be at least 1", sampleCart) ∧
    postCart sampleProducts 12 (IdArg.oid 3) JsValue.undefined sampleCart =
      (Response.fail 404 "Product not found", sampleCart) ∧
    (postCart sampleProducts 12 (IdArg.oid 1) (JsValue.str "0.99999999999999999")
      sampleCart).1.status = 200 := by
  refine ⟨?_, ?_, ?_⟩
  · refine (postCart_classification sampleProducts 12 (JsValue.num (JsNum.fin 0))
      sampleCart).2.2.1 1 ⟨JsNum.fin 0, rfl, ?_⟩
    intro q hq
    cases hq
    norm_num
  · refine (postCart_classification sampleProducts 12 JsValue.undefined
      sampleCart).2.2.2.2.1 3 ⟨1, rfl, le_refl _⟩ ?_
    intro prod hprod
    simp only [sampleProducts, List.mem_cons, List.mem_singleton, List.not_mem_nil,
      or_false] at hprod
    rcases hprod with h | h <;> rw [h] <;> decide
  · have hread : toNumber (quantityOrDefault (JsValue.str "0.99999999999999999")) = some
        (JsNum.ofRat ((((0 : ℕ) : ℚ) + ((99999999999999999 : ℕ) : ℚ) / (10 : ℚ) ^ (17 : ℕ)) *
          (10 : ℚ) ^ (0 : ℤ))) := rfl
    have hone : JsNum.ofRat ((((0 : ℕ) : ℚ) + ((99999999999999999 : ℕ) : ℚ) /
        (10 : ℚ) ^ (17 : ℕ)) * (10 : ℚ) ^ (0 : ℤ)) = JsNum.fin 1 := by
      apply ofRat_eq_fin _ _ (by norm_num [overflowBound]) (by norm_num [overflowBound])
      rw [roundDouble_eval _ (-1) 9007199254740992 (by norm_num) (by norm_num) (by norm_num)
        (by norm_num) (roundHalfEven_of_near _ _ (by norm_num) (by norm_num))]
      norm_num
    rw [hone] at hread
    exact ((postCart_classification sampleProducts 12 (JsValue.str "0.99999999999999999")
      sampleCart).2.2.2.2.2.2 (IdArg.oid 1)).mpr
      ⟨1, rfl, ⟨_, List.mem_cons_self _ _, rfl⟩, ⟨1, hread, le_refl _⟩⟩

/-! ## Remove -/

/-- C10: for a line item `existing` of a store with distinct ids,
`DELETE /cart/:id` answers 200 and the store afterwards is the previous store
with exactly that line item left out, whatever its quantity: it is gone, and
every other line item is kept, in the same order. -/
theorem deleteCart_existing (store : CartStore) (existing : CartLineItem)
    (hids : DistinctIds store) (hmem : existing ∈ store) :
    deleteCart (IdParam.oid existing.id) store =
      (Response.ok (Body.message "Item removed from cart"),
        store.filter (fun it => it.id ≠ existing.id)) ∧
    existing ∉ (deleteCart (IdParam.oid existing.id) store).2 ∧
    (∀ it ∈ store, it ≠ existing → it ∈ (deleteCart (IdParam.oid existing.id) store).2) ∧
    (deleteCart (IdParam.oid existing.id) store).2.length + 1 = store.length := by
  have hf := find?_id_of_mem store existing hids hmem
  have hdel : deleteCart (IdParam.oid existing.id) store =
      (Response.ok (Body.message "Item removed from cart"),
        store.filter (fun it => it.id ≠ existing.id)) := by
    rw [← eraseP_eq_filter store existing.id hids]
    simp [deleteCart, findByIdAndDelete, hf]
  have hlen : (deleteCart (IdParam.oid existing.id) store).2.length + 1 = store.length := by
    have h1 : (deleteCart (IdParam.oid existing.id) store).2 =
        store.eraseP (fun it => it.id = existing.id) := by
      simp [deleteCart, findByIdAndDelete, hf]
    rw [h1, List.length_eraseP_of_mem hmem (by simp)]
    have hpos : 0 < store.length := List.length_pos_of_mem hmem
    omega
  refine ⟨hdel, ?_, ?_, hlen⟩
  · rw [hdel]
    simp
  · intro it hit hne
    rw [hdel]
    refine List.mem_filter.mpr ⟨hit, ?_⟩
    have hidne : it.id ≠ existing.id := by
      intro heq
      have h2 := find?_id_of_mem store it hids hit
      rw [heq, hf] at h2
      exact hne (Option.some.inj h2).symm
    simpa using hidne

/-- Removing line item 10 from the sample cart leaves line item 11 alone. -/
theorem deleteCart_existing_witness :
    (deleteCart (IdParam.oid 10) sampleCart).2 =
      [ { id := 11, productId := 2, quantity := 19 } ] := by
  have h := (deleteCart_existing sampleCart { id := 10, productId := 1, quantity := 3 }
    (by simp [DistinctIds, sampleCart])
    (by simp [sampleCart])).1
  rw [h]
  simp [sampleCart]

/-! ## Remove, repeated -/

theorem handle_ids (products : ProductStore) (store : CartStore) (req : Request)
    (it : CartLineItem) (h : it ∈ (handle products store req).2) :
    (∃ old ∈ store, old.id = it.id) ∨ req.createsId it.id := by
  cases req with
  | addOrIncrement newId productId quantity =>
    simp only [handle] at h
    by_cases hst : (postCart products newId productId quantity store).1.status = 200
    · obtain ⟨p, qty, prod, _, _, _, _, hcase⟩ :=
        postCart_ok products newId productId quantity store hst
      rcases hcase with ⟨existing, _, hpost⟩ | ⟨_, hpost⟩
      · rw [hpost] at h
        left
        have hid : it.id ∈ (setQuantityById existing.id
            (min (existing.quantity + qty) 20) store).map (fun x => x.id) :=
          List.mem_map.mpr ⟨it, h, rfl⟩
        rw [setQuantityById_map_id] at hid
        obtain ⟨old, hold, hoid⟩ := List.mem_map.mp hid
        exact ⟨old, hold, hoid⟩
      · rw [hpost] at h
        simp only [List.mem_append, List.mem_singleton] at h
        rcases h with h | h
        · left; exact ⟨it, h, rfl⟩
        · right; rw [h]; rfl
    · rw [postCart_not_ok products newId productId quantity store hst] at h
      left; exact ⟨it, h, rfl⟩
  | setQuantity id quantity =>
    simp only [handle] at h
    left
    by_cases hst : (putCart products id quantity store).1.status = 200
    · obtain ⟨i, q, existing, _, _, _, hput⟩ := putCart_ok products id quantity store hst
      rw [hput] at h
      have hid : it.id ∈ (setQuantityById i (min (max q 1) 20) store).map (fun x => x.id) :=
        List.mem_map.mpr ⟨it, h, rfl⟩
      rw [setQuantityById_map_id] at hid
      obtain ⟨old, hold, hoid⟩ := List.mem_map.mp hid
      exact ⟨old, hold, hoid⟩
    · rw [putCart_not_ok products id quantity store hst] at h
      exact ⟨it, h, rfl⟩
  | remove id =>
    left
    exact ⟨it, (deleteCart_sublist id store).subset h, rfl⟩
  | checkout entropy now cartItems =>
    left
    simp only [handle] at h
    rcases postCheckout_store entropy now cartItems store with h1 | h1
    · rw [h1] at h; exact ⟨it, h, rfl⟩
    · rw [h1] at h; cases h
  | getCart =>
    left
    simp only [handle, getCart_store] at h
    exact ⟨it, h, rfl⟩

/-- An id absent from the store stays absent over requests that do not create
it. -/
theorem run_id_absent (products : ProductStore) (id : ObjectId) (reqs : List Request)
    (store : CartStore) (habs : ∀ it ∈ store, it.id ≠ id)
    (hfresh : ∀ r ∈ reqs, ¬ r.createsId id) :
    ∀ it ∈ run products store reqs, it.id ≠ id := by
  induction reqs generalizing store with
  | nil => exact habs
  | cons r rs ih =>
    simp only [run, List.foldl_cons]
    apply ih
    · intro it hit heq
      rcases handle_ids products store r it hit with ⟨old, hold, hoid⟩ | hc
      · exact habs old hold (by rw [hoid, heq])
      · rw [heq] at hc
        exact hfresh r (List.mem_cons_self _ _) hc
    · intro r2 hr2
      exact hfresh r2 (List.mem_cons_of_mem _ hr2)

theorem deleteCart_absent (store : CartStore) (id : ObjectId)
    (habs : ∀ it ∈ store, it.id ≠ id) :
    deleteCart (IdParam.oid id) store = (Response.fail 404 "Cart item not found", store) := by
  have hf : store.find? (fun it => it.id = id) = none := by
    simp [List.find?_eq_none]
    exact habs
  simp [deleteCart, findByIdAndDelete, hf]

/-- C11: for a line item `existing` of a store with distinct ids, a first
`DELETE /cart/:id` answers 200, and a later one, after any requests that do not
create that id again, answers 404 and leaves the store as it is; a well-formed
id of no line item is answered 404 with the store unchanged. An id that is not a
well-formed ObjectId is answered 500 instead of 404, the store unchanged. -/
theorem deleteCart_twice (products : ProductStore) (store : CartStore)
    (existing : CartLineItem) (reqs : List Request)
    (hids : DistinctIds store) (hmem : existing ∈ store)
    (hfresh : ∀ r ∈ reqs, ¬ r.createsId existing.id) :
    (deleteCart (IdParam.oid existing.id) store).1.status = 200 ∧
    deleteCart (IdParam.oid existing.id)
        (run products (deleteCart (IdParam.oid existing.id) store).2 reqs) =
      (Response.fail 404 "Cart item not found",
        run products (deleteCart (IdParam.oid existing.id) store).2 reqs) ∧
    (∀ i s, (∀ it ∈ s, it.id ≠ i) →
      deleteCart (IdParam.oid i) s = (Response.fail 404 "Cart item not found", s)) ∧
    (∀ s, deleteCart IdParam.malformed s =
      (Response.fail 500 "Failed to remove item from cart", s)) := by
  have hf := find?_id_of_mem store existing hids hmem
  have hdel : (deleteCart (IdParam.oid existing.id) store).2 =
      store.filter (fun it => it.id ≠ existing.id) := by
    rw [← eraseP_eq_filter store existing.id hids]
    simp [deleteCart, findByIdAndDelete, hf]
  refine ⟨?_, ?_, ?_, ?_⟩
  · simp [deleteCart, findByIdAndDelete, hf, Response.ok]
  · apply deleteCart_absent
    apply run_id_absent products existing.id reqs _ _ hfresh
    intro it hit
    rw [hdel] at hit
    simpa using (List.mem_filter.mp hit).2
  · intro i s hs
    exact deleteCart_absent s i hs
  · intro s
    rfl

/-- Removing line item 10 of the sample cart twice, with an update and an add
under another id in between: the second removal is answered 404. -/
theorem deleteCart_twice_witness :
    deleteCart (IdParam.oid 10)
        (run sampleProducts (deleteCart (IdParam.oid 10) sampleCart).2
          [ Request.setQuantity (IdParam.oid 11) (JsValue.num (JsNum.fin 2)),
            Request.addOrIncrement 12 (IdArg.oid 1) JsValue.undefined ]) =
      (Response.fail 404 "Cart item not found",
        run sampleProducts (deleteCart (IdParam.oid 10) sampleCart).2
          [ Request.setQuantity (IdParam.oid 11) (JsValue.num (JsNum.fin 2)),
            Request.addOrIncrement 12 (IdArg.oid 1) JsValue.undefined ]) :=
  (deleteCart_twice sampleProducts sampleCart { id := 10, productId := 1, quantity := 3 }
    [ Request.setQuantity (IdParam.oid 11) (JsValue.num (JsNum.fin 2)),
      Request.addOrIncrement 12 (IdArg.oid 1) JsValue.undefined ]
    (by simp [DistinctIds, sampleCart])
    (by simp [sampleCart])
    (by
      intro r hr
      simp only [List.mem_cons, List.mem_singleton, List.not_mem_nil, or_false] at hr
      rcases hr with h | h <;> rw [h] <;> simp [Request.createsId])).2.1

/-! ## The total of GetCart -/

theorem findById_some_mem (products : ProductStore) (p : ObjectId) (prod : Product)
    (h : findById products p = some prod) : prod ∈ products ∧ prod.id = p := by
  unfold findById at h
  exact ⟨List.mem_of_find?_eq_some h, by simpa using List.find?_some h⟩

/-- The reducer of `GET /cart` adds up `price × quantity` when every line item
finds its product. -/
theorem cartTotal_populate (products : ProductStore) (store : CartStore) (s : ℚ)
    (href : ∀ it ∈ store, ∃ prod ∈ products, prod.id = it.productId) :
    cartTotal (store.map (populate products)) (JsNum.fin s) =
      some (JsNum.fin (s + subtotal products store)) := by
  induction store generalizing s with
  | nil => simp [cartTotal, subtotal]
  | cons x xs ih =>
    have hx := href x (List.mem_cons_self _ _)
    have hsome : (findById products x.productId).isSome = true :=
      (findById_isSome_iff products x.productId).mpr hx
    obtain ⟨prod, hprod⟩ := Option.isSome_iff_exists.mp hsome
    have hrest := ih (s + prod.price * x.quantity)
      (fun it hit => href it (List.mem_cons_of_mem _ hit))
    simp only [List.map_cons, cartTotal, populate, hprod, JsNum.mul, JsNum.add]
    simp only [populate] at hrest
    rw [hrest]
    simp only [subtotal, List.map_cons, List.sum_cons, priceOf, hprod]
    congr 2
    ring

/-- `parseFloat(x.toFixed(2))` rounds to 2 decimals. -/
theorem parseFloatToFixed2_rounded (x : ℚ) (hx : LargeIsInteger x) :
    ∃ t, parseFloatToFixed2 (JsNum.fin x) = JsNum.fin t ∧ IsRoundedTo2 x t ∧
      (0 ≤ x → x < (10 : ℚ) ^ 21 → t = round2 x) := by
  by_cases hlt : |x| < (10 : ℚ) ^ 21
  · have hfl1 : ((⌊|x| * 100 + 1 / 2⌋ : ℤ) : ℚ) ≤ |x| * 100 + 1 / 2 := Int.floor_le _
    have hfl2 : |x| * 100 + 1 / 2 < ((⌊|x| * 100 + 1 / 2⌋ : ℤ) : ℚ) + 1 := Int.lt_floor_add_one _
    by_cases hneg : x < 0
    · refine ⟨-(((⌊|x| * 100 + 1 / 2⌋ : ℤ) : ℚ) / 100), ?_, ⟨⟨-⌊|x| * 100 + 1 / 2⌋, ?_⟩, ?_⟩, ?_⟩
      · simp [parseFloatToFixed2, hlt, hneg]
      · push_cast; ring
      · have habs : |x| = -x := abs_of_neg hneg
        rw [habs] at hfl1 hfl2
        rw [habs, abs_le]
        constructor <;> linarith
      · intro h0
        exact absurd hneg (not_lt.mpr h0)
    · have h0 : 0 ≤ x := not_lt.mp hneg
      have habs : |x| = x := abs_of_nonneg h0
      refine ⟨((⌊|x| * 100 + 1 / 2⌋ : ℤ) : ℚ) / 100, ?_, ⟨⟨⌊|x| * 100 + 1 / 2⌋, rfl⟩, ?_⟩, ?_⟩
      · simp [parseFloatToFixed2, hlt, hneg]
      · rw [habs] at hfl1 hfl2
        rw [habs, abs_le]
        constructor <;> linarith
      · intro _ _
        rw [habs, round2]
  · have hge : (10 : ℚ) ^ 21 ≤ |x| := not_lt.mp hlt
    obtain ⟨n, hn⟩ := (isInteger_iff x).mp (hx hge)
    refine ⟨x, ?_, ⟨⟨n * 100, ?_⟩, ?_⟩, ?_⟩
    · simp [parseFloatToFixed2, hlt]
    · rw [hn]; push_cast; ring
    · simp
    · intro h0 hlt2
      rw [abs_of_nonneg h0] at hge
      exact absurd hlt2 (not_lt.mpr hge)

/-! ## Totals in double arithmetic -/

/-- A finite result of `JsNum.ofRat` is a double. -/
theorem ofRat_fin (q S : ℚ) (h : JsNum.ofRat q = JsNum.fin S) : S = roundDouble q := by
  unfold JsNum.ofRat at h
  split_ifs at h
  cases h
  rfl

/-- A finite sum of two numbers is a double. -/
theorem addDouble_fin (x y : JsNum) (S : ℚ) (h : x.addDouble y = JsNum.fin S) :
    ∃ z, S = roundDouble z := by
  cases x <;> cases y <;> simp [JsNum.addDouble, JsNum.add] at h
  exact ⟨_, ofRat_fin _ _ h⟩

theorem foldl_doubleSum_fin (lines : List (ℚ × ℚ)) :
    ∀ (start : JsNum) (S : ℚ), (∀ s, start = JsNum.fin s → ∃ z, s = roundDouble z) →
      lines.foldl
        (fun sum l => sum.addDouble ((JsNum.fin l.1).mulDouble (JsNum.fin l.2))) start =
          JsNum.fin S →
      ∃ z, S = roundDouble z := by
  induction lines with
  | nil =>
    intro start S hstart h
    exact hstart S h
  | cons l ls ih =>
    intro start S _ h
    exact ih _ S (fun s hs => addDouble_fin _ _ s hs) h

/-- A finite `doubleSum` is a double. -/
theorem doubleSum_fin (lines : List (ℚ × ℚ)) (S : ℚ) (h : doubleSum lines = JsNum.fin S) :
    ∃ z, S = roundDouble z :=
  foldl_doubleSum_fin lines (JsNum.fin 0) S
    (fun s hs => ⟨0, by cases hs; exact roundDouble_zero.symm⟩) h

/-- A double of magnitude `10 ^ 21` or more is an integer. -/
theorem largeIsInteger_roundDouble (z : ℚ) : LargeIsInteger (roundDouble z) := by
  intro h
  apply isInteger_roundDouble_of_large
  have h53 : (2 : ℚ) ^ 53 ≤ (10 : ℚ) ^ 21 := by norm_num
  linarith

/-- `parseFloat(x.toFixed(2))` rounds a finite `doubleSum` to 2 decimals. -/
theorem parseFloatToFixed2_doubleSum (lines : List (ℚ × ℚ)) (S : ℚ)
    (h : doubleSum lines = JsNum.fin S) :
    ∃ t, parseFloatToFixed2 (JsNum.fin S) = JsNum.fin t ∧ IsRoundedTo2 S t ∧
      (0 ≤ S → S < (10 : ℚ) ^ 21 → t = round2 S) := by
  obtain ⟨z, hz⟩ := doubleSum_fin lines S h
  rw [hz]
  exact parseFloatToFixed2_rounded _ (largeIsInteger_roundDouble z)

/-- The reducer of `GET /cart` in double arithmetic, when every line item finds
its product. -/
theorem cartTotalDouble_populate (products : ProductStore) (store : CartStore) (start : JsNum)
    (href : ∀ it ∈ store, ∃ prod ∈ products, prod.id = it.productId) :
    cartTotalDouble (store.map (populate products)) start =
      some ((store.map (fun it => (priceOf products it.productId, it.quantity))).foldl
        (fun sum l => sum.addDouble ((JsNum.fin l.1).mulDouble (JsNum.fin l.2))) start) := by
  induction store generalizing start with
  | nil => rfl
  | cons x xs ih =>
    have hx := href x (List.mem_cons_self _ _)
    have hsome : (findById products x.productId).isSome = true :=
      (findById_isSome_iff products x.productId).mpr hx
    obtain ⟨prod, hprod⟩ := Option.isSome_iff_exists.mp hsome
    have hrest := ih
      (start.addDouble ((JsNum.fin prod.price).mulDouble (JsNum.fin x.quantity)))
      (fun it hit => href it (List.mem_cons_of_mem _ hit))
    have hprice : priceOf products x.productId = prod.price := by simp [priceOf, hprod]
    simp only [List.map_cons, cartTotalDouble, populate, hprod, List.foldl_cons, hprice]
    simp only [populate] at hrest
    rw [hrest]

/-- The reducer of checkout in double arithmetic over a well-formed snapshot. -/
theorem snapshotTotalDouble_ofLine (lines : List (ℚ × ℚ)) (start : JsNum) :
    snapshotTotalDouble (lines.map SnapshotItem.ofLine) start =
      some (lines.foldl
        (fun sum l => sum.addDouble ((JsNum.fin l.1).mulDouble (JsNum.fin l.2))) start) := by
  induction lines generalizing start with
  | nil => rfl
  | cons l ls ih =>
    have hrest := ih (start.addDouble ((JsNum.fin l.1).mulDouble (JsNum.fin l.2)))
    simp only [List.map_cons, SnapshotItem.ofLine, snapshotTotalDouble, toNumber,
      List.foldl_cons]
    simp only [SnapshotItem.ofLine] at hrest
    rw [hrest]

/-- C12: when every line item of the store references an existing product,
`GET /cart` answers 200 with every line item joined with its product and with
`total` the sum of `price × quantity` rounded to 2 decimals, the sum being the
one JavaScript computes, each product and each partial sum a double: when it is
finite, `total` is a multiple of `1/100` within `1/200` of it, equal to the
spec's `round2` of a sum in `[0, 10^21)`. The store is unchanged. -/
theorem getCartDouble_total (products : ProductStore) (store : CartStore)
    (href : ∀ it ∈ store, ∃ prod ∈ products, prod.id = it.productId) :
    getCartDouble products store =
      (Response.ok (Body.cart (store.map (populate products))
        (parseFloatToFixed2 (subtotalDouble products store))), store) ∧
    (∀ it ∈ store, ∃ prod ∈ products, prod.id = it.productId ∧
      populate products it = { id := it.id, productId := some prod, quantity := it.quantity }) ∧
    ∀ S, subtotalDouble products store = JsNum.fin S →
      ∃ t, parseFloatToFixed2 (subtotalDouble products store) = JsNum.fin t ∧
        IsRoundedTo2 S t ∧ (0 ≤ S → S < (10 : ℚ) ^ 21 → t = round2 S) := by
  refine ⟨?_, ?_, ?_⟩
  · have h := cartTotalDouble_populate products store (JsNum.fin 0) href
    simp [getCartDouble, h, subtotalDouble, doubleSum]
  · intro it hit
    have hsome : (findById products it.productId).isSome = true :=
      (findById_isSome_iff products it.productId).mpr (href it hit)
    obtain ⟨prod, hprod⟩ := Option.isSome_iff_exists.mp hsome
    have hm := findById_some_mem products it.productId prod hprod
    exact ⟨prod, hm.1, hm.2, by simp [populate, hprod]⟩
  · intro S hS
    rw [hS]
    exact parseFloatToFixed2_doubleSum _ S hS

theorem parseFloatToFixed2_eval (S : ℚ) (n : ℤ) (h0 : 0 ≤ S) (hlt : S < (10 : ℚ) ^ 21)
    (hn : ⌊S * 100 + 1 / 2⌋ = n) : parseFloatToFixed2 (JsNum.fin S) = JsNum.fin ((n : ℚ) / 100) := by
  have habs : |S| = S := abs_of_nonneg h0
  have hlt2 : |S| < (10 : ℚ) ^ 21 := by rw [habs]; exact hlt
  simp only [parseFloatToFixed2, hlt2, hlt, if_true, habs, hn, not_lt.mpr h0, if_false]

theorem mulDouble_fin_fin (a b : ℚ) :
    (JsNum.fin a).mulDouble (JsNum.fin b) = JsNum.ofRat (a * b) := rfl

theorem addDouble_fin_fin (a b : ℚ) :
    (JsNum.fin a).addDouble (JsNum.fin b) = JsNum.ofRat (a + b) := rfl

/-- The sum of two headphones at 99.99 and one smartphone at 699.99, in doubles. -/
theorem doubleSum_sample :
    doubleSum [(7036170730324623 / 2 ^ 46, 2), (3078588577307689 / 2 ^ 42, 1)] =
      JsNum.fin (3958109918598267 / 2 ^ 42) := by
  have m1 : JsNum.ofRat ((7036170730324623 : ℚ) / 2 ^ 46 * 2) =
      JsNum.fin (7036170730324623 / 2 ^ 45) := by
    apply ofRat_eq_fin _ _ (by norm_num [overflowBound]) (by norm_num [overflowBound])
    have hy : ((7036170730324623 : ℚ) / 2 ^ 46 * 2) / (2 : ℚ) ^ ((7 : ℤ) - 52) =
        ((7036170730324623 : ℤ) : ℚ) := by norm_num
    rw [roundDouble_eval _ 7 7036170730324623 (by norm_num) (by norm_num) (by norm_num)
      (by norm_num) (by rw [hy]; exact roundHalfEven_int _)]
    norm_num
  have s1 : JsNum.ofRat ((0 : ℚ) + 7036170730324623 / 2 ^ 45) =
      JsNum.fin (7036170730324623 / 2 ^ 45) := by
    apply ofRat_eq_fin _ _ (by norm_num [overflowBound]) (by norm_num [overflowBound])
    have hy : ((0 : ℚ) + 7036170730324623 / 2 ^ 45) / (2 : ℚ) ^ ((7 : ℤ) - 52) =
        ((7036170730324623 : ℤ) : ℚ) := by norm_num
    rw [roundDouble_eval _ 7 7036170730324623 (by norm_num) (by norm_num) (by norm_num)
      (by norm_num) (by rw [hy]; exact roundHalfEven_int _)]
    norm_num
  have m2 : JsNum.ofRat ((3078588577307689 : ℚ) / 2 ^ 42 * 1) =
      JsNum.fin (3078588577307689 / 2 ^ 42) := by
    apply ofRat_eq_fin _ _ (by norm_num [overflowBound]) (by norm_num [overflowBound])
    have hy : ((3078588577307689 : ℚ) / 2 ^ 42 * 1) / (2 : ℚ) ^ ((9 : ℤ) - 52) =
        ((6157177154615378 : ℤ) : ℚ) := by norm_num
    rw [roundDouble_eval _ 9 6157177154615378 (by norm_num) (by norm_num) (by norm_num)
      (by norm_num) (by rw [hy]; exact roundHalfEven_int _)]
    norm_num
  have s2 : JsNum.ofRat ((7036170730324623 : ℚ) / 2 ^ 45 + 3078588577307689 / 2 ^ 42) =
      JsNum.fin (3958109918598267 / 2 ^ 42) := by
    apply ofRat_eq_fin _ _ (by norm_num [overflowBound]) (by norm_num [overflowBound])
    rw [roundDouble_eval _ 9 7916219837196534 (by norm_num) (by norm_num) (by norm_num)
      (by norm_num) (roundHalfEven_of_near _ _ (by norm_num) (by norm_num))]
    norm_num
  have e1 : (JsNum.fin 0).addDouble
      ((JsNum.fin (7036170730324623 / 2 ^ 46)).mulDouble (JsNum.fin 2)) =
      JsNum.fin (7036170730324623 / 2 ^ 45) := by
    rw [mulDouble_fin_fin, m1, addDouble_fin_fin, s1]
  have e2 : (JsNum.fin (7036170730324623 / 2 ^ 45)).addDouble
      ((JsNum.fin (3078588577307689 / 2 ^ 42)).mulDouble (JsNum.fin 1)) =
      JsNum.fin (3958109918598267 / 2 ^ 42) := by
    rw [mulDouble_fin_fin, m2, addDouble_fin_fin, s2]
  unfold doubleSum
  rw [List.foldl_cons]
  show List.foldl _ ((JsNum.fin 0).addDouble
    ((JsNum.fin (7036170730324623 / 2 ^ 46)).mulDouble (JsNum.fin 2))) _ = _
  rw [e1, List.foldl_cons]
  show List.foldl _ ((JsNum.fin (7036170730324623 / 2 ^ 45)).addDouble
    ((JsNum.fin (3078588577307689 / 2 ^ 42)).mulDouble (JsNum.fin 1))) _ = _
  rw [e2, List.foldl_nil]

/-- The product of the double nearest to 0.075 and 5, and of the double nearest
to 0.15 and 2.5, is the double 0.375: the exact product lies just below it. -/
theorem doubleSum_three_eighths :
    doubleSum [(5404319552844595 / 2 ^ 56, 5)] = JsNum.fin (3 / 8) ∧
    doubleSum [(5404319552844595 / 2 ^ 55, 5 / 2)] = JsNum.fin (3 / 8) := by
  have hround : roundDouble ((27021597764222975 : ℚ) / 2 ^ 56) = 3 / 8 := by
    rw [roundDouble_eval _ (-2) 6755399441055744 (by norm_num) (by norm_num) (by norm_num)
      (by norm_num) (roundHalfEven_of_near _ _ (by norm_num) (by norm_num))]
    norm_num
  have m1 : JsNum.ofRat ((5404319552844595 : ℚ) / 2 ^ 56 * 5) = JsNum.fin (3 / 8) := by
    apply ofRat_eq_fin _ _ (by norm_num [overflowBound]) (by norm_num [overflowBound])
    have hx : (5404319552844595 : ℚ) / 2 ^ 56 * 5 = 27021597764222975 / 2 ^ 56 := by norm_num
    rw [hx, hround]
  have m2 : JsNum.ofRat ((5404319552844595 : ℚ) / 2 ^ 55 * (5 / 2)) = JsNum.fin (3 / 8) := by
    apply ofRat_eq_fin _ _ (by norm_num [overflowBound]) (by norm_num [overflowBound])
    have hx : (5404319552844595 : ℚ) / 2 ^ 55 * (5 / 2) = 27021597764222975 / 2 ^ 56 := by
      norm_num
    rw [hx, hround]
  have s1 : JsNum.ofRat ((0 : ℚ) + 3 / 8) = JsNum.fin (3 / 8) := by
    apply ofRat_eq_fin _ _ (by norm_num [overflowBound]) (by norm_num [overflowBound])
    have hy : ((0 : ℚ) + 3 / 8) / (2 : ℚ) ^ ((-2 : ℤ) - 52) =
        ((6755399441055744 : ℤ) : ℚ) := by norm_num
    rw [roundDouble_eval _ (-2) 6755399441055744 (by norm_num) (by norm_num) (by norm_num)
      (by norm_num) (by rw [hy]; exact roundHalfEven_int _)]
    norm_num
  have e1 : (JsNum.fin 0).addDouble
      ((JsNum.fin (5404319552844595 / 2 ^ 56)).mulDouble (JsNum.fin 5)) = JsNum.fin (3 / 8) := by
    rw [mulDouble_fin_fin, m1, addDouble_fin_fin, s1]
  have e2 : (JsNum.fin 0).addDouble
      ((JsNum.fin (5404319552844595 / 2 ^ 55)).mulDouble (JsNum.fin (5 / 2))) =
      JsNum.fin (3 / 8) := by
    rw [mulDouble_fin_fin, m2, addDouble_fin_fin, s1]
  constructor
  · unfold doubleSum
    rw [List.foldl_cons]
    show List.foldl _ ((JsNum.fin 0).addDouble
      ((JsNum.fin (5404319552844595 / 2 ^ 56)).mulDouble (JsNum.fin 5))) _ = _
    rw [e1, List.foldl_nil]
  · unfold doubleSum
    rw [List.foldl_cons]
    show List.foldl _ ((JsNum.fin 0).addDouble
      ((JsNum.fin (5404319552844595 / 2 ^ 55)).mulDouble (JsNum.fin (5 / 2)))) _ = _
    rw [e2, List.foldl_nil]

/-- The empty cart has total 0; two headphones at 99.99 with one smartphone at
699.99, the prices being the nearest doubles, have total 899.97; and five items
at the double nearest to 0.075 have total 0.38, their product being the double
0.375. -/
theorem getCartDouble_total_witness :
    getCartDouble sampleProductsDouble [] = (Response.ok (Body.cart [] (JsNum.fin 0)), []) ∧
    (getCartDouble sampleProductsDouble
        [ { id := 10, productId := 1, quantity := 2 },
          { id := 11, productId := 2, quantity := 1 } ]).1 =
      Response.ok (Body.cart
        [ { id := 10, productId := findById sampleProductsDouble 1, quantity := 2 },
          { id := 11, productId := findById sampleProductsDouble 2, quantity := 1 } ]
        (JsNum.fin (89997 / 100))) ∧
    (getCartDouble
        [ { id := 1, name := "Sticker", price := 5404319552844595 / 2 ^ 56, image := "",
            description := "", category := "" } ]
        [ { id := 10, productId := 1, quantity := 5 } ]).1 =
      Response.ok (Body.cart
        [ { id := 10,
            productId := some { id := 1, name := "Sticker", price := 5404319552844595 / 2 ^ 56,
                                image := "", description := "", category := "" },
            quantity := 5 } ]
        (JsNum.fin (19 / 50))) := by
  refine ⟨?_, ?_, ?_⟩
  · have h := (getCartDouble_total sampleProductsDouble [] (by intro it hit; cases hit)).1
    rw [h]
    have h0 := parseFloatToFixed2_eval 0 0 (le_refl _) (by norm_num)
      (by rw [Int.floor_eq_iff]; norm_num)
    simp only [subtotalDouble, doubleSum, List.map_nil, List.foldl_nil, h0]
    norm_num
  · have h := (getCartDouble_total sampleProductsDouble
      [ { id := 10, productId := 1, quantity := 2 },
        { id := 11, productId := 2, quantity := 1 } ]
      (by
        intro it hit
        simp only [List.mem_cons, List.mem_singleton, List.not_mem_nil, or_false] at hit
        rcases hit with h | h <;> rw [h] <;> simp [sampleProductsDouble])).1
    have hp1 : priceOf sampleProductsDouble 1 = 7036170730324623 / 2 ^ 46 := by
      simp only [priceOf, findById, sampleProductsDouble, List.find?_cons, decide_True]
    have hp2 : priceOf sampleProductsDouble 2 = 3078588577307689 / 2 ^ 42 := by
      have hne : ¬ ((1 : ObjectId) = 2) := by decide
      simp only [priceOf, findById, sampleProductsDouble, List.find?_cons, hne, decide_False,
        decide_True]
    have hsub : subtotalDouble sampleProductsDouble
        [ { id := 10, productId := 1, quantity := 2 },
          { id := 11, productId := 2, quantity := 1 } ] =
        JsNum.fin (3958109918598267 / 2 ^ 42) := by
      simp only [subtotalDouble, List.map_cons, List.map_nil, hp1, hp2]
      exact doubleSum_sample
    have hround := parseFloatToFixed2_eval (3958109918598267 / 2 ^ 42) 89997 (by norm_num)
      (by norm_num) (by rw [Int.floor_eq_iff]; norm_num)
    rw [h, hsub, hround]
    simp only [populate, List.map_cons, List.map_nil]
    norm_num
  · have h := (getCartDouble_total
      [ { id := 1, name := "Sticker", price := 5404319552844595 / 2 ^ 56, image := "",
          description := "", category := "" } ]
      [ { id := 10, productId := 1, quantity := 5 } ]
      (by
        intro it hit
        simp only [List.mem_singleton] at hit
        rw [hit]
        simp)).1
    have hp1 : priceOf
        [ { id := 1, name := "Sticker", price := 5404319552844595 / 2 ^ 56, image := "",
            description := "", category := "" } ] 1 = 5404319552844595 / 2 ^ 56 := by
      simp only [priceOf, findById, List.find?_cons, decide_True]
    have hsub : subtotalDouble
        [ { id := 1, name := "Sticker", price := 5404319552844595 / 2 ^ 56, image := "",
            description := "", category := "" } ]
        [ { id := 10, productId := 1, quantity := 5 } ] = JsNum.fin (3 / 8) := by
      simp only [subtotalDouble, List.map_cons, List.map_nil, hp1]
      exact doubleSum_three_eighths.1
    have hround := parseFloatToFixed2_eval (3 / 8) 38 (by norm_num)
      (by norm_num) (by rw [Int.floor_eq_iff]; norm_num)
    rw [h, hsub, hround]
    simp only [populate, List.map_cons, List.map_nil]
    norm_num [findById]

/-! ## Checkout -/

/-- C13: checkout with an empty `cartItems` array, or with `cartItems` absent (or
otherwise falsy), answers 400 "Cart is empty" and leaves the store as it was. -/
theorem postCheckout_empty (entropy : Nat) (now : String) (store : CartStore) :
    postCheckout entropy now (CartItemsArg.items []) store =
      (Response.fail 400 "Cart is empty", store) ∧
    postCheckout entropy now CartItemsArg.falsy store =
      (Response.fail 400 "Cart is empty", store) :=
  ⟨rfl, rfl⟩

/-- The reducer of checkout adds up `price × quantity` over a well-formed
snapshot. -/
theorem snapshotTotal_ofLine (lines : List (ℚ × ℚ)) (s : ℚ) :
    snapshotTotal (lines.map SnapshotItem.ofLine) (JsNum.fin s) =
      some (JsNum.fin (s + snapshotSum lines)) := by
  induction lines generalizing s with
  | nil => simp [snapshotTotal, snapshotSum]
  | cons l ls ih =>
    have hrest := ih (s + l.1 * l.2)
    simp only [List.map_cons, SnapshotItem.ofLine, snapshotTotal, toNumber, JsNum.mul,
      JsNum.add]
    simp only [SnapshotItem.ofLine] at hrest
    rw [hrest]
    simp only [snapshotSum, List.map_cons, List.sum_cons]
    congr 2
    ring

/-- Checkout of a non-empty array whose total can be computed. -/
theorem postCheckout_some (entropy : Nat) (now : String) (xs : List SnapshotItem)
    (store : CartStore) (total : JsNum) (hne : xs ≠ [])
    (htotal : snapshotTotal xs (JsNum.fin 0) = some total) :
    postCheckout entropy now (CartItemsArg.items xs) store =
      (Response.ok (Body.receipt
        { id := generate12DigitId entropy
          items := xs
          total := parseFloatToFixed2 total
          timestamp := now
          status := "completed" }), []) := by
  have hlen : ¬ xs.length = 0 := by
    intro h
    exact hne (List.length_eq_zero.mp h)
  simp [postCheckout, hlen, htotal, deleteMany]

/-- Checkout of a non-empty array whose total computation throws. -/
theorem postCheckout_none (entropy : Nat) (now : String) (xs : List SnapshotItem)
    (store : CartStore) (hne : xs ≠ [])
    (htotal : snapshotTotal xs (JsNum.fin 0) = none) :
    postCheckout entropy now (CartItemsArg.items xs) store =
      (Response.fail 500 "Checkout failed", store) := by
  have hlen : ¬ xs.length = 0 := by
    intro h
    exact hne (List.length_eq_zero.mp h)
  simp [postCheckout, hlen, htotal]

theorem postCheckoutDouble_some (entropy : Nat) (now : String) (xs : List SnapshotItem)
    (store : CartStore) (total : JsNum) (hne : xs ≠ [])
    (htotal : snapshotTotalDouble xs (JsNum.fin 0) = some total) :
    postCheckoutDouble entropy now (CartItemsArg.items xs) store =
      (Response.ok (Body.receipt
        { id := generate12DigitId entropy
          items := xs
          total := parseFloatToFixed2 total
          timestamp := now
          status := "completed" }), []) := by
  have hlen : ¬ xs.length = 0 := by
    intro h
    exact hne (List.length_eq_zero.mp h)
  simp [postCheckoutDouble, hlen, htotal, deleteMany]

/-- C14: for a non-empty snapshot of well-formed line items, checkout answers
200 with a receipt whose `items` is the snapshot, whose `status` is
`"completed"` and whose `total` is the sum of `price × quantity` over the
snapshot rounded to 2 decimals, the sum being the one JavaScript computes, each
product and each partial sum a double: when it is finite, `total` is a multiple
of `1/100` within `1/200` of it, equal to the spec's `round2` of a sum in
`[0, 10^21)`. -/
theorem postCheckoutDouble_receipt (entropy : Nat) (now : String) (lines : List (ℚ × ℚ))
    (store : CartStore) (hne : lines ≠ []) :
    postCheckoutDouble entropy now (CartItemsArg.items (lines.map SnapshotItem.ofLine)) store =
      (Response.ok (Body.receipt
        { id := generate12DigitId entropy
          items := lines.map SnapshotItem.ofLine
          total := parseFloatToFixed2 (doubleSum lines)
          timestamp := now
          status := "completed" }), []) ∧
    ∀ S, doubleSum lines = JsNum.fin S →
      ∃ t, parseFloatToFixed2 (doubleSum lines) = JsNum.fin t ∧
        IsRoundedTo2 S t ∧ (0 ≤ S → S < (10 : ℚ) ^ 21 → t = round2 S) := by
  constructor
  · have h := snapshotTotalDouble_ofLine lines (JsNum.fin 0)
    exact postCheckoutDouble_some entropy now _ store _ (by simpa using hne) h
  · intro S hS
    rw [hS]
    exact parseFloatToFixed2_doubleSum lines S hS

/-- The snapshot of two items at 99.99 and one at 699.99, the prices being the
nearest doubles, gives a receipt with total 899.97; the snapshot of 2.5 items at
the double nearest to 0.15 gives total 0.38, the product being the double 0.375;
and the snapshot of ten items at the double `1e308` gives the total `Infinity`,
the product overflowing. -/
theorem postCheckoutDouble_receipt_witness :
    postCheckoutDouble 0 "2025-01-01T00:00:00.000Z"
        (CartItemsArg.items
          ([(7036170730324623 / 2 ^ 46, 2), (3078588577307689 / 2 ^ 42, 1)].map
            SnapshotItem.ofLine)) sampleCart =
      (Response.ok (Body.receipt
        { id := generate12DigitId 0
          items := [(7036170730324623 / 2 ^ 46, 2), (3078588577307689 / 2 ^ 42, 1)].map
            SnapshotItem.ofLine
          total := JsNum.fin (89997 / 100)
          timestamp := "2025-01-01T00:00:00.000Z"
          status := "completed" }), []) ∧
    (∃ receipt,
      postCheckoutDouble 0 "" (CartItemsArg.items
          ([(5404319552844595 / 2 ^ 55, 5 / 2)].map SnapshotItem.ofLine)) sampleCart =
        (Response.ok (Body.receipt receipt), []) ∧
      receipt.total = JsNum.fin (19 / 50)) ∧
    (∃ receipt,
      postCheckoutDouble 0 "" (CartItemsArg.items
          ([(156575653125701 * 2 ^ 976, 10)].map SnapshotItem.ofLine)) sampleCart =
        (Response.ok (Body.receipt receipt), []) ∧
      receipt.total = JsNum.posInf) := by
  refine ⟨?_, ?_, ?_⟩
  · have h := (postCheckoutDouble_receipt 0 "2025-01-01T00:00:00.000Z"
      [(7036170730324623 / 2 ^ 46, 2), (3078588577307689 / 2 ^ 42, 1)] sampleCart
      (by simp)).1
    have hround := parseFloatToFixed2_eval (3958109918598267 / 2 ^ 42) 89997 (by norm_num)
      (by norm_num) (by rw [Int.floor_eq_iff]; norm_num)
    rw [h, doubleSum_sample, hround]
    norm_num
  · have h := (postCheckoutDouble_receipt 0 "" [(5404319552844595 / 2 ^ 55, 5 / 2)]
      sampleCart (by simp)).1
    have hround := parseFloatToFixed2_eval (3 / 8) 38 (by norm_num)
      (by norm_num) (by rw [Int.floor_eq_iff]; norm_num)
    refine ⟨_, h, ?_⟩
    show parseFloatToFixed2 (doubleSum [(5404319552844595 / 2 ^ 55, 5 / 2)]) = _
    rw [doubleSum_three_eighths.2, hround]
    norm_num
  · have h := (postCheckoutDouble_receipt 0 "" [(156575653125701 * 2 ^ 976, 10)]
      sampleCart (by simp)).1
    refine ⟨_, h, ?_⟩
    have hover : JsNum.ofRat ((156575653125701 : ℚ) * 2 ^ 976 * 10) = JsNum.posInf := by
      have hb : overflowBound ≤ (156575653125701 : ℚ) * 2 ^ 976 * 10 := by
        norm_num [overflowBound]
      simp only [JsNum.ofRat, hb, if_true]
    have hsum : doubleSum [(156575653125701 * 2 ^ 976, 10)] = JsNum.posInf := by
      unfold doubleSum
      rw [List.foldl_cons]
      show List.foldl _ ((JsNum.fin 0).addDouble
        ((JsNum.fin (156575653125701 * 2 ^ 976)).mulDouble (JsNum.fin 10))) _ = _
      rw [mulDouble_fin_fin, hover, List.foldl_nil]
      rfl
    show parseFloatToFixed2 (doubleSum [(156575653125701 * 2 ^ 976, 10)]) = _
    rw [hsum]
    rfl

theorem getCart_nil (products : ProductStore) :
    getCart products [] = (Response.ok (Body.cart [] (JsNum.fin 0)), []) := by
  have hfl : ⌊|(0 : ℚ)| * 100 + 1 / 2⌋ = 0 := by
    rw [Int.floor_eq_iff]
    norm_num
  have hlt : |(0 : ℚ)| < 10 ^ 21 := by norm_num
  simp only [getCart, List.map_nil, cartTotal, parseFloatToFixed2, hlt, if_true, hfl]
  norm_num

/-- C15: for every store and every non-empty snapshot of well-formed line
items, whatever line items they name, checkout answers 200 and the store is
empty afterwards, so that `GET /cart` then answers with no items and total 0. -/
theorem postCheckout_clears (products : ProductStore) (entropy : Nat) (now : String)
    (lines : List (ℚ × ℚ)) (store : CartStore) (hne : lines ≠ []) :
    (postCheckout entropy now
      (CartItemsArg.items (lines.map SnapshotItem.ofLine)) store).1.status = 200 ∧
    (postCheckout entropy now
      (CartItemsArg.items (lines.map SnapshotItem.ofLine)) store).2 = [] ∧
    getCart products (postCheckout entropy now
        (CartItemsArg.items (lines.map SnapshotItem.ofLine)) store).2 =
      (Response.ok (Body.cart [] (JsNum.fin 0)), []) := by
  have h := snapshotTotal_ofLine lines 0
  have hpost := postCheckout_some entropy now _ store _ (by simpa using hne) h
  rw [hpost]
  exact ⟨rfl, rfl, getCart_nil products⟩

/-- Checking out a snapshot that names a product absent from the sample cart
empties the sample cart. -/
theorem postCheckout_clears_witness :
    (postCheckout 0 "" (CartItemsArg.items ([(5, 1)].map SnapshotItem.ofLine)) sampleCart).2
      = [] :=
  (postCheckout_clears sampleProducts 0 "" [(5, 1)] sampleCart (by simp)).2.1

/-- C16: checkout either answers 200 with a receipt and an empty store, or
answers 400 or 500 with an error and the store as it was, whether or not a
storage operation fails. `Cart.deleteMany` is the one storage operation of the
call; when it rejects, the answer is 500 "Checkout failed" and the store is as it
was, a rejected `deleteMany` being taken to have deleted nothing (see `Fault`).
Without a failure the handler is `postCheckout`. -/
theorem postCheckoutWithFault_all_or_nothing (fault : Option Fault) (entropy : Nat)
    (now : String) (cartItems : CartItemsArg) (store : CartStore) :
    (((∃ receipt, (postCheckoutWithFault fault entropy now cartItems store).1 =
          Response.ok (Body.receipt receipt)) ∧
        (postCheckoutWithFault fault entropy now cartItems store).2 = []) ∨
      ((∃ status error, (postCheckoutWithFault fault entropy now cartItems store).1 =
          Response.fail status error ∧ (status = 400 ∨ status = 500)) ∧
        (postCheckoutWithFault fault entropy now cartItems store).2 = store)) ∧
    postCheckoutWithFault none entropy now cartItems store =
      postCheckout entropy now cartItems store ∧
    (∀ e, (postCheckout entropy now cartItems store).1.status = 200 →
      postCheckoutWithFault (some { index := 0, error := e }) entropy now cartItems store =
        (Response.fail 500 "Checkout failed", store)) := by
  refine ⟨?_, ?_, ?_⟩
  · cases cartItems with
    | falsy => right; exact ⟨⟨400, _, rfl, Or.inl rfl⟩, rfl⟩
    | nonArray z =>
      right
      cases z
      · exact ⟨⟨500, _, rfl, Or.inr rfl⟩, rfl⟩
      · exact ⟨⟨400, _, rfl, Or.inl rfl⟩, rfl⟩
    | items xs =>
      by_cases hlen : xs.length = 0
      · right
        simp only [postCheckoutWithFault, hlen, if_true]
        exact ⟨⟨400, _, rfl, Or.inl rfl⟩, trivial⟩
      · cases htotal : snapshotTotal xs (JsNum.fin 0) with
        | none =>
          right
          simp only [postCheckoutWithFault, hlen, if_false, htotal]
          exact ⟨⟨500, _, rfl, Or.inr rfl⟩, trivial⟩
        | some total =>
          cases herr : storageError fault 0 with
          | some e =>
            right
            simp only [postCheckoutWithFault, hlen, if_false, htotal, herr]
            exact ⟨⟨500, _, rfl, Or.inr rfl⟩, trivial⟩
          | none =>
            left
            simp only [postCheckoutWithFault, hlen, if_false, htotal, herr]
            exact ⟨⟨_, rfl⟩, rfl⟩
  · simp only [postCheckoutWithFault, postCheckout, storageError]
  · intro e h
    cases cartItems with
    | falsy => simp [postCheckout, Response.fail] at h
    | nonArray z => cases z <;> simp [postCheckout, Response.fail] at h
    | items xs =>
      by_cases hlen : xs.length = 0
      · simp [postCheckout, hlen, Response.fail] at h
      · cases htotal : snapshotTotal xs (JsNum.fin 0) with
        | none => simp [postCheckout, hlen, htotal, Response.fail] at h
        | some total => simp [postCheckoutWithFault, hlen, htotal, storageError]

/-- On the sample cart, a checkout of one item whose `deleteMany` rejects answers
500 and leaves both line items in the store. -/
theorem postCheckoutWithFault_all_or_nothing_witness :
    postCheckoutWithFault (some { index := 0, error := "connection reset" }) 0 ""
        (CartItemsArg.items [SnapshotItem.ofLine (5, 1)]) sampleCart =
      (Response.fail 500 "Checkout failed", sampleCart) :=
  (postCheckoutWithFault_all_or_nothing none 0 ""
    (CartItemsArg.items [SnapshotItem.ofLine (5, 1)]) sampleCart).2.2 "connection reset"
    (by simp [postCheckout, SnapshotItem.ofLine, snapshotTotal, toNumber, Response.ok])

/-- C17, as stated, fails: a non-empty snapshot whose one element is `null`, or
lacks `productId`, passes the emptiness test, the total computation throws, and
checkout answers 500 with the store untouched; so does a snapshot whose price is
an object with an own `toString`. -/
theorem postCheckout_fails_after_validation :
    postCheckout 0 "" (CartItemsArg.items [SnapshotItem.broken]) sampleCart =
      (Response.fail 500 "Checkout failed", sampleCart) ∧
    postCheckout 0 ""
        (CartItemsArg.items
          [SnapshotItem.line (JsValue.obj true) (JsValue.num (JsNum.fin 1))]) sampleCart =
      (Response.fail 500 "Checkout failed", sampleCart) :=
  ⟨rfl, rfl⟩

theorem snapshotTotal_none_iff (xs : List SnapshotItem) (s : JsNum) :
    snapshotTotal xs s = none ↔ ∃ x ∈ xs, x.evaluates = false := by
  induction xs generalizing s with
  | nil => simp [snapshotTotal]
  | cons x rest ih =>
    cases x with
    | broken => simp [snapshotTotal, SnapshotItem.evaluates]
    | line price quantity =>
      cases hp : toNumber price with
      | none => simp [snapshotTotal, SnapshotItem.evaluates, hp]
      | some p =>
        cases hq : toNumber quantity with
        | none => simp [snapshotTotal, SnapshotItem.evaluates, hp, hq]
        | some q => simp [snapshotTotal, SnapshotItem.evaluates, hp, hq, ih]

/-- C17, amended: for a non-empty snapshot, checkout answers 200 with a receipt
and clears the store when every element can be priced (it has a `productId`, and
its price and quantity convert to numbers), and answers 500 "Checkout failed"
with the store untouched as soon as one element cannot. -/
theorem postCheckout_total_cases (entropy : Nat) (now : String) (xs : List SnapshotItem)
    (store : CartStore) (hne : xs ≠ []) :
    ((∀ x ∈ xs, x.evaluates = true) →
      ∃ receipt, postCheckout entropy now (CartItemsArg.items xs) store =
        (Response.ok (Body.receipt receipt), []) ∧ receipt.items = xs) ∧
    ((∃ x ∈ xs, x.evaluates = false) →
      postCheckout entropy now (CartItemsArg.items xs) store =
        (Response.fail 500 "Checkout failed", store)) := by
  constructor
  · intro hall
    cases htotal : snapshotTotal xs (JsNum.fin 0) with
    | none =>
      obtain ⟨x, hx, hev⟩ := (snapshotTotal_none_iff xs _).mp htotal
      rw [hall x hx] at hev
      cases hev
    | some total =>
      exact ⟨_, postCheckout_some entropy now xs store total hne htotal, rfl⟩
  · intro hex
    exact postCheckout_none entropy now xs store hne
      ((snapshotTotal_none_iff xs _).mpr hex)

/-- A snapshot whose second element has no `productId` is answered 500 and the
sample cart is untouched. -/
theorem postCheckout_total_cases_witness :
    postCheckout 0 ""
        (CartItemsArg.items [SnapshotItem.ofLine (5, 1), SnapshotItem.broken]) sampleCart =
      (Response.fail 500 "Checkout failed", sampleCart) :=
  (postCheckout_total_cases 0 "" [SnapshotItem.ofLine (5, 1), SnapshotItem.broken]
    sampleCart (by simp)).2 ⟨SnapshotItem.broken, by simp, rfl⟩

/-- C19: for a non-empty snapshot of well-formed line items and any two stores,
entropy values and instants, both checkouts answer with a receipt; the two
receipts have the same `items`, the snapshot, and the same `total`. -/
theorem postCheckout_ignores_store (entropy1 entropy2 : Nat) (now1 now2 : String)
    (lines : List (ℚ × ℚ)) (store1 store2 : CartStore) (hne : lines ≠ []) :
    ∃ receipt1 receipt2,
      (postCheckout entropy1 now1
        (CartItemsArg.items (lines.map SnapshotItem.ofLine)) store1).1 =
          Response.ok (Body.receipt receipt1) ∧
      (postCheckout entropy2 now2
        (CartItemsArg.items (lines.map SnapshotItem.ofLine)) store2).1 =
          Response.ok (Body.receipt receipt2) ∧
      receipt1.items = lines.map SnapshotItem.ofLine ∧
      receipt2.items = receipt1.items ∧
      receipt2.total = receipt1.total := by
  have h := snapshotTotal_ofLine lines 0
  have hne2 : lines.map SnapshotItem.ofLine ≠ [] := by simpa using hne
  have h1 := postCheckout_some entropy1 now1 _ store1 _ hne2 h
  have h2 := postCheckout_some entropy2 now2 _ store2 _ hne2 h
  exact ⟨_, _, congrArg Prod.fst h1, congrArg Prod.fst h2, rfl, rfl, rfl⟩

/-- The same snapshot checked out against the sample cart and against the empty
cart, with different entropy and instants, gives receipts with the same items
and total. -/
theorem postCheckout_ignores_store_witness :
    ∃ receipt1 receipt2,
      (postCheckout 1 "a" (CartItemsArg.items ([(5, 2)].map SnapshotItem.ofLine))
        sampleCart).1 = Response.ok (Body.receipt receipt1) ∧
      (postCheckout 2 "b" (CartItemsArg.items ([(5, 2)].map SnapshotItem.ofLine))
        []).1 = Response.ok (Body.receipt receipt2) ∧
      receipt1.items = [(5, 2)].map SnapshotItem.ofLine ∧
      receipt2.items = receipt1.items ∧
      receipt2.total = receipt1.total :=
  postCheckout_ignores_store 1 2 "a" "b" [(5, 2)] sampleCart [] (by simp)

/-! ## GetCart reads only -/

/-- C20: `GET /cart` leaves the cart store as it was (the product store is only
an argument of the handler, never written), a second call right after the first
gives the same response, and any number of calls in a row leave the store as it
was. -/
theorem getCart_pure (products : ProductStore) (store : CartStore) :
    (getCart products store).2 = store ∧
    getCart products (getCart products store).2 = getCart products store ∧
    ∀ n, run products store (List.replicate n Request.getCart) = store := by
  refine ⟨getCart_store products store, by rw [getCart_store], ?_⟩
  intro n
  induction n with
  | zero => rfl
  | succ k ih =>
    simp only [List.replicate_succ, run, List.foldl_cons, handle, getCart_store]
    exact ih

/-! ## The receipt id -/

/-- The digits `Nat.toDigitsCore` pushes are those of `Nat.digits`, most
significant first. -/
theorem toDigitsCore_eq_digits (b : Nat) (hb : 1 < b) :
    ∀ (fuel n : Nat) (ds : List Char), n < fuel → 0 < n →
      Nat.toDigitsCore b fuel n ds = (Nat.digits b n).reverse.map Nat.digitChar ++ ds := by
  intro fuel
  induction fuel with
  | zero => intro n ds h; exact absurd h (Nat.not_lt_zero n)
  | succ f ih =>
    intro n ds hlt hpos
    have hdig : Nat.digits b n = (n % b) :: Nat.digits b (n / b) := Nat.digits_def' hb hpos
    by_cases hq : n / b = 0
    · have hnil : Nat.digits b (n / b) = [] := by rw [hq]; exact Nat.digits_zero b
      simp [Nat.toDigitsCore, hq, hdig, hnil]
    · have hqpos : 0 < n / b := Nat.pos_of_ne_zero hq
      have hqlt : n / b < f := by
        have h1 : n / b < n := Nat.div_lt_self hpos hb
        omega
      simp only [Nat.toDigitsCore, hq, if_false]
      rw [ih (n / b) _ hqlt hqpos, hdig]
      simp

theorem repr_eq_digits (n : Nat) (hpos : 0 < n) :
    (toString n).toList = (Nat.digits 10 n).reverse.map Nat.digitChar := by
  have h := toDigitsCore_eq_digits 10 (by decide) (n + 1) n [] (Nat.lt_succ_self n) hpos
  show (Nat.repr n).toList = _
  simp only [Nat.repr, Nat.toDigits, h, List.append_nil]
  rfl

theorem digitChar_isDigit : ∀ d < 10, (Nat.digitChar d).isDigit = true := by decide

theorem digitChar_ne_zero : ∀ d < 10, d ≠ 0 → Nat.digitChar d ≠ '0' := by decide

/-- The decimal rendering of a number in `[10^11, 10^12)` has twelve characters,
all of them digits, the first one not `0`. -/
theorem toString_twelve_digits (n : Nat) (hlo : 10 ^ 11 ≤ n) (hhi : n < 10 ^ 12) :
    (toString n).length = 12 ∧
    (∀ c ∈ (toString n).toList, c.isDigit = true) ∧
    ∃ c rest, (toString n).toList = c :: rest ∧ c ≠ '0' := by
  have hpos : 0 < n := lt_of_lt_of_le (by norm_num) hlo
  have hne : n ≠ 0 := Nat.pos_iff_ne_zero.mp hpos
  have hrepr := repr_eq_digits n hpos
  have hlen : (Nat.digits 10 n).length = 12 := by
    rw [Nat.digits_len 10 n (by decide) hne,
      Nat.log_eq_of_pow_le_of_lt_pow hlo hhi]
  refine ⟨?_, ?_, ?_⟩
  · show (toString n).toList.length = 12
    rw [hrepr]
    simp [hlen]
  · intro c hc
    rw [hrepr] at hc
    obtain ⟨d, hd, hdc⟩ := List.mem_map.mp hc
    rw [← hdc]
    exact digitChar_isDigit d (Nat.digits_lt_base (by decide) (List.mem_reverse.mp hd))
  · have hnil : Nat.digits 10 n ≠ [] := Nat.digits_ne_nil_iff_ne_zero.mpr hne
    have hlast := Nat.getLast_digit_ne_zero 10 hne
    have hmem : (Nat.digits 10 n).getLast hnil ∈ Nat.digits 10 n := List.getLast_mem hnil
    have hsplit : (Nat.digits 10 n).reverse =
        (Nat.digits 10 n).getLast hnil :: (Nat.digits 10 n).dropLast.reverse := by
      conv_lhs => rw [← List.dropLast_append_getLast hnil]
      simp
    refine ⟨Nat.digitChar ((Nat.digits 10 n).getLast hnil),
      (Nat.digits 10 n).dropLast.reverse.map Nat.digitChar, ?_, ?_⟩
    · rw [hrepr, hsplit]
      rfl
    · exact digitChar_ne_zero _ (Nat.digits_lt_base (by decide) hmem) hlast

/-- C18: every number the id generator draws lies in `[10^11, 10^12)`, every
number of that interval can be drawn, and the receipt id, its decimal
rendering, has exactly twelve characters, all decimal digits, the first one not
`0`. -/
theorem generate12DigitId_twelve_digits (entropy : Nat) :
    10 ^ 11 ≤ randomInt (10 ^ 11) (10 ^ 12) entropy ∧
    randomInt (10 ^ 11) (10 ^ 12) entropy < 10 ^ 12 ∧
    (∀ n, 10 ^ 11 ≤ n → n < 10 ^ 12 → ∃ e, randomInt (10 ^ 11) (10 ^ 12) e = n) ∧
    (generate12DigitId entropy).length = 12 ∧
    (∀ c ∈ (generate12DigitId entropy).toList, c.isDigit = true) ∧
    ∃ c rest, (generate12DigitId entropy).toList = c :: rest ∧ c ≠ '0' := by
  have hmod : entropy % (10 ^ 12 - 10 ^ 11) < 10 ^ 12 - 10 ^ 11 :=
    Nat.mod_lt _ (by norm_num)
  have hlo : 10 ^ 11 ≤ randomInt (10 ^ 11) (10 ^ 12) entropy := by
    unfold randomInt
    omega
  have hhi : randomInt (10 ^ 11) (10 ^ 12) entropy < 10 ^ 12 := by
    unfold randomInt
    omega
  refine ⟨hlo, hhi, ?_, toString_twelve_digits _ hlo hhi⟩
  intro n hn1 hn2
  refine ⟨n - 10 ^ 11, ?_⟩
  unfold randomInt
  rw [Nat.mod_eq_of_lt (by omega)]
  omega

/-! ## Stores reachable from the empty cart -/

theorem handle_referencesExist (products : ProductStore) (store : CartStore)
    (req : Request) (h : ReferencesExist products store) :
    ReferencesExist products (handle products store req).2 := by
  cases req with
  | addOrIncrement newId productId quantity =>
    simp only [handle]
    by_cases hst : (postCart products newId productId quantity store).1.status = 200
    · obtain ⟨p, qty, prod, _, _, _, hprod, hcase⟩ :=
        postCart_ok products newId productId quantity store hst
      rcases hcase with ⟨existing, _, hpost⟩ | ⟨_, hpost⟩
      · rw [hpost]
        intro it hit
        have hpid : it.productId ∈ (setQuantityById existing.id
            (min (existing.quantity + qty) 20) store).map (fun x => x.productId) :=
          List.mem_map.mpr ⟨it, hit, rfl⟩
        rw [setQuantityById_map_productId] at hpid
        obtain ⟨old, hold, hopid⟩ := List.mem_map.mp hpid
        obtain ⟨pr, hpr, hprid⟩ := h old hold
        exact ⟨pr, hpr, by rw [hprid, hopid]⟩
      · rw [hpost]
        intro it hit
        simp only [List.mem_append, List.mem_singleton] at hit
        rcases hit with hit | hit
        · exact h it hit
        · have hm := findById_some_mem products p prod hprod
          exact ⟨prod, hm.1, by rw [hit]; exact hm.2⟩
    · rw [postCart_not_ok products newId productId quantity store hst]
      exact h
  | setQuantity id quantity =>
    simp only [handle]
    by_cases hst : (putCart products id quantity store).1.status = 200
    · obtain ⟨i, q, existing, _, _, _, hput⟩ := putCart_ok products id quantity store hst
      rw [hput]
      intro it hit
      have hpid : it.productId ∈ (setQuantityById i (min (max q 1) 20) store).map
          (fun x => x.productId) := List.mem_map.mpr ⟨it, hit, rfl⟩
      rw [setQuantityById_map_productId] at hpid
      obtain ⟨old, hold, hopid⟩ := List.mem_map.mp hpid
      obtain ⟨pr, hpr, hprid⟩ := h old hold
      exact ⟨pr, hpr, by rw [hprid, hopid]⟩
    · rw [putCart_not_ok products id quantity store hst]
      exact h
  | remove id =>
    intro it hit
    exact h it ((deleteCart_sublist id store).subset hit)
  | checkout entropy now cartItems =>
    simp only [handle]
    rcases postCheckout_store entropy now cartItems store with h1 | h1
    · rw [h1]; exact h
    · rw [h1]; intro it hit; cases hit
  | getCart =>
    simp only [handle, getCart_store]
    exact h

theorem run_referencesExist (products : ProductStore) (reqs : List Request)
    (store : CartStore) (h : ReferencesExist products store) :
    ReferencesExist products (run products store reqs) := by
  induction reqs generalizing store with
  | nil => exact h
  | cons r rs ih =>
    simp only [run, List.foldl_cons]
    exact ih _ (handle_referencesExist products store r h)

theorem getCart_ok_of_references (products : ProductStore) (store : CartStore)
    (h : ReferencesExist products store) :
    getCart products store =
      (Response.ok (Body.cart (store.map (populate products))
        (parseFloatToFixed2 (JsNum.fin (subtotal products store)))), store) := by
  have hc := cartTotal_populate products store 0 h
  rw [zero_add] at hc
  simp [getCart, hc]

/-- C27: with the product store fixed, in every store reached from the empty
cart by a sequence of AddOrIncrement, SetQuantity, Remove, Checkout and GetCart
requests every line item references an existing product, and `GET /cart` on it
answers 200 with the joined items and a total, not the 500 error. -/
theorem getCart_reachable (products : ProductStore) (reqs : List Request) :
    ReferencesExist products (run products [] reqs) ∧
    (getCart products (run products [] reqs)).1.status = 200 ∧
    getCart products (run products [] reqs) =
      (Response.ok (Body.cart ((run products [] reqs).map (populate products))
        (parseFloatToFixed2 (JsNum.fin (subtotal products (run products [] reqs))))),
        run products [] reqs) := by
  have href : ReferencesExist products (run products [] reqs) :=
    run_referencesExist products reqs [] (by intro it hit; cases hit)
  have hget := getCart_ok_of_references products _ href
  exact ⟨href, by rw [hget]; rfl, hget⟩

/-! ## Checkout of the cart that GetCart returned -/

theorem snapshotTotal_toSnapshotItem (products : ProductStore) (store : CartStore) (s : ℚ)
    (href : ReferencesExist products store) :
    snapshotTotal ((store.map (populate products)).map JoinedItem.toSnapshotItem)
        (JsNum.fin s) =
      some (JsNum.fin (s + subtotal products store)) := by
  induction store generalizing s with
  | nil => simp [snapshotTotal, subtotal]
  | cons x xs ih =>
    have hx := href x (List.mem_cons_self _ _)
    have hsome : (findById products x.productId).isSome = true :=
      (findById_isSome_iff products x.productId).mpr hx
    obtain ⟨prod, hprod⟩ := Option.isSome_iff_exists.mp hsome
    have hrest := ih (s + prod.price * x.quantity)
      (fun it hit => href it (List.mem_cons_of_mem _ hit))
    simp only [List.map_cons, populate, hprod, JoinedItem.toSnapshotItem, snapshotTotal,
      toNumber, JsNum.mul, JsNum.add]
    simp only [populate] at hrest
    rw [hrest]
    simp only [subtotal, List.map_cons, List.sum_cons, priceOf, hprod]
    congr 2
    ring

/-- C26: for a non-empty store whose line items all reference existing
products, `GET /cart` answers 200 with some items and total, and the checkout
the client then sends with these items, against any store, answers 200 with a
receipt whose total is that same total. -/
theorem checkout_total_eq_getCart_total (products : ProductStore) (store later : CartStore)
    (entropy : Nat) (now : String)
    (href : ReferencesExist products store) (hne : store ≠ []) :
    ∃ items total receipt,
      getCart products store = (Response.ok (Body.cart items total), store) ∧
      handle products later (handleSubmit entropy now items) =
        (Response.ok (Body.receipt receipt), []) ∧
      receipt.total = total := by
  have hget := getCart_ok_of_references products store href
  have hsnap := snapshotTotal_toSnapshotItem products store 0 href
  rw [zero_add] at hsnap
  have hne2 : (store.map (populate products)).map JoinedItem.toSnapshotItem ≠ [] := by
    simpa using hne
  have hpost := postCheckout_some entropy now _ later _ hne2 hsnap
  exact ⟨_, _, _, hget, hpost, rfl⟩

/-- The cart with two headphones and one smartphone: the total of `GET /cart`
and the total of the receipt of the checkout that follows are the same. -/
theorem checkout_total_eq_getCart_total_witness :
    ∃ items total receipt,
      getCart sampleProducts
          [ { id := 10, productId := 1, quantity := 2 },
            { id := 11, productId := 2, quantity := 1 } ] =
        (Response.ok (Body.cart items total),
          [ { id := 10, productId := 1, quantity := 2 },
            { id := 11, productId := 2, quantity := 1 } ]) ∧
      handle sampleProducts
          [ { id := 10, productId := 1, quantity := 2 },
            { id := 11, productId := 2, quantity := 1 } ]
          (handleSubmit 0 "" items) =
        (Response.ok (Body.receipt receipt), []) ∧
      receipt.total = total :=
  checkout_total_eq_getCart_total sampleProducts _ _ 0 ""
    (by
      intro it hit
      simp only [List.mem_cons, List.mem_singleton, List.not_mem_nil, or_false] at hit
      rcases hit with h | h <;> rw [h] <;> simp [sampleProducts])
    (by simp)

/-! ## Topping up the catalogue -/

theorem moreProducts_length : moreProducts.length = 12 := rfl

theorem insertMany_length (newId : Nat → ObjectId) (docs : List ProductData)
    (products : ProductStore) :
    (insertMany newId docs products).length = products.length + docs.length := by
  simp [insertMany]

/-- C24: `ensureMinimumProducts` inserts nothing when the store already holds
`minCount` products; otherwise it inserts the first `minCount - count` of its
twelve top-up products, so the store ends with `minCount` products when at most
twelve are missing, and with `count + 12`, fewer than `minCount`, when more than
twelve are missing. -/
theorem ensureMinimumProducts_length (newId : Nat → ObjectId) (minCount : Nat)
    (products : ProductStore) :
    (minCount ≤ products.length →
      ensureMinimumProducts newId minCount products = products) ∧
    (products.length < minCount → minCount ≤ products.length + 12 →
      (ensureMinimumProducts newId minCount products).length = minCount) ∧
    (products.length + 12 < minCount →
      (ensureMinimumProducts newId minCount products).length = products.length + 12 ∧
      (ensureMinimumProducts newId minCount products).length < minCount) := by
  refine ⟨?_, ?_, ?_⟩
  · intro h
    simp [ensureMinimumProducts, Nat.not_lt.mpr h]
  · intro h1 h2
    have htake : (moreProducts.take (minCount - products.length)).length =
        minCount - products.length := by
      rw [List.length_take, moreProducts_length]
      omega
    have hpos : (moreProducts.take (minCount - products.length)).length > 0 := by
      rw [htake]; omega
    have hens : ensureMinimumProducts newId minCount products =
        insertMany newId (moreProducts.take (minCount - products.length)) products := by
      unfold ensureMinimumProducts
      simp only []
      rw [if_pos h1, if_pos hpos]
    rw [hens, insertMany_length, htake]
    omega
  · intro h
    have h1 : products.length < minCount := by omega
    have htake : (moreProducts.take (minCount - products.length)).length = 12 := by
      rw [List.length_take, moreProducts_length]
      omega
    have hpos : (moreProducts.take (minCount - products.length)).length > 0 := by
      rw [htake]; omega
    have hens : ensureMinimumProducts newId minCount products =
        insertMany newId (moreProducts.take (minCount - products.length)) products := by
      unfold ensureMinimumProducts
      simp only []
      rw [if_pos h1, if_pos hpos]
    rw [hens, insertMany_length, htake]
    exact ⟨rfl, h⟩

/-- A store of two products topped up to a minimum of 20 ends with 14
products. -/
theorem ensureMinimumProducts_length_witness :
    (ensureMinimumProducts (fun i => 100 + i) 20 sampleProducts).length = 14 :=
  ((ensureMinimumProducts_length (fun i => 100 + i) 20 sampleProducts).2.2
    (by decide)).1

/-! ## The decrement buttons of the client -/

/-- `PUT /cart/:id` on a line item of a store with distinct ids. -/
theorem putCart_found (products : ProductStore) (store : CartStore)
    (existing : CartLineItem) (q : ℚ)
    (hids : DistinctIds store) (hmem : existing ∈ store) :
    putCart products (IdParam.oid existing.id) (JsValue.num (JsNum.fin q)) store =
      (Response.ok (Body.item (populate products
          { existing with quantity := min (max q 1) 20 })),
        withQuantity existing.id (min (max q 1) 20) store) := by
  have hf := find?_id_of_mem store existing hids hmem
  rw [← setQuantityById_eq_withQuantity _ _ _ hids]
  simp [putCart, toNumber, findByIdAndUpdate, hf]

/-- `DELETE /cart/:id` on a line item of a store with distinct ids. -/
theorem deleteCart_found (store : CartStore) (existing : CartLineItem)
    (hids : DistinctIds store) (hmem : existing ∈ store) :
    deleteCart (IdParam.oid existing.id) store =
      (Response.ok (Body.message "Item removed from cart"),
        store.filter (fun it => it.id ≠ existing.id)) := by
  have hf := find?_id_of_mem store existing hids hmem
  rw [← eraseP_eq_filter store existing.id hids]
  simp [deleteCart, findByIdAndDelete, hf]

theorem two_le_of_isInteger (q : ℚ) (hint : IsInteger q) (h : 1 < q) : 2 ≤ q := by
  obtain ⟨n, rfl⟩ := (isInteger_iff q).mp hint
  have h1 : (1 : ℤ) < n := by exact_mod_cast h
  have h2 : (2 : ℤ) ≤ n := by omega
  exact_mod_cast h2

/-- C23: the decrement handlers of `CartView` and `ProductGrid` send Remove for
a displayed quantity `q ≤ 1` and SetQuantity with `q - 1` for `q > 1`; on a line
item of the store whose quantity is between 1 and 20 and an integer, as the
spec's record of a line item has it, the request either removes exactly that
line item (quantity 1) or lowers its quantity by exactly 1, and the quantity sent
is never below 1. -/
theorem handleDecrement_policy (products : ProductStore) (store : CartStore)
    (it : CartLineItem) (hids : DistinctIds store) (hmem : it ∈ store)
    (hrange : 1 ≤ it.quantity ∧ it.quantity ≤ 20) (hint : IsInteger it.quantity) :
    (∀ item : JoinedItem,
      (item.quantity ≤ 1 →
        CartView.handleDecrement item = Request.remove (IdParam.oid item.id)) ∧
      (1 < item.quantity →
        CartView.handleDecrement item =
          Request.setQuantity (IdParam.oid item.id)
            (JsValue.num (JsNum.fin (item.quantity - 1)))) ∧
      (∀ cartItems productId, ProductGrid.getCartItem cartItems productId = some item →
        ProductGrid.handleDecrement cartItems productId =
          some (CartView.handleDecrement item))) ∧
    (it.quantity = 1 →
      handle products store (CartView.handleDecrement (populate products it)) =
        (Response.ok (Body.message "Item removed from cart"),
          store.filter (fun x => x.id ≠ it.id))) ∧
    (1 < it.quantity →
      1 ≤ it.quantity - 1 ∧
      handle products store (CartView.handleDecrement (populate products it)) =
        (Response.ok (Body.item (populate products
          { it with quantity := it.quantity - 1 })),
          withQuantity it.id (it.quantity - 1) store)) := by
  refine ⟨?_, ?_, ?_⟩
  · intro item
    refine ⟨?_, ?_, ?_⟩
    · intro h
      simp [CartView.handleDecrement, h]
    · intro h
      simp [CartView.handleDecrement, not_le.mpr h]
    · intro cartItems productId hget
      by_cases h : item.quantity ≤ 1 <;>
        simp [ProductGrid.handleDecrement, CartView.handleDecrement, hget, h]
  · intro h1
    have hle : it.quantity ≤ 1 := le_of_eq h1
    simp only [CartView.handleDecrement, populate, hle, if_true, handle]
    exact deleteCart_found store it hids hmem
  · intro h1
    have h2 : 2 ≤ it.quantity := two_le_of_isInteger _ hint h1
    have hclamp : min (max (it.quantity - 1) 1) 20 = it.quantity - 1 := by
      rw [max_eq_left (by linarith), min_eq_left (by linarith [hrange.2])]
    refine ⟨by linarith, ?_⟩
    simp only [CartView.handleDecrement, populate, not_le.mpr h1, if_false, handle]
    have hput := putCart_found products store it (it.quantity - 1) hids hmem
    rw [hclamp] at hput
    simpa [populate] using hput

/-- Decrementing line item 10 of the sample cart, of quantity 3, leaves it at
quantity 2. -/
theorem handleDecrement_policy_witness :
    (handle sampleProducts sampleCart
        (CartView.handleDecrement
          (populate sampleProducts { id := 10, productId := 1, quantity := 3 }))).2 =
      [ { id := 10, productId := 1, quantity := 2 },
        { id := 11, productId := 2, quantity := 19 } ] := by
  have h := ((handleDecrement_policy sampleProducts sampleCart
    { id := 10, productId := 1, quantity := 3 }
    (by simp [DistinctIds, sampleCart])
    (by simp [sampleCart])
    (by norm_num)
    (by unfold IsInteger; rfl)).2.2 (by norm_num)).2
  rw [h]
  norm_num [withQuantity, sampleCart]

/-! ## Concurrent calls of AddOrIncrement -/

/-- The uninterrupted lines 52-64 are the store effect of the handler. -/
theorem postCart_store_eq (products : ProductStore) (newId p : ObjectId) (qty : ℚ)
    (store : CartStore) (hprod : ∃ prod ∈ products, prod.id = p) (hq : 1 ≤ qty) :
    (postCart products newId (IdArg.oid p) (JsValue.num (JsNum.fin qty)) store).2 =
      addOrIncrementStore p qty newId store := by
  have hsome : (findById products p).isSome = true := (findById_isSome_iff products p).mpr hprod
  obtain ⟨prod, hprod2⟩ := Option.isSome_iff_exists.mp hsome
  unfold addOrIncrementStore
  cases hf : findOne store p with
  | some existing =>
    rw [postCart_increment products newId p (JsValue.num (JsNum.fin qty)) store qty prod
      existing rfl hq hprod2 hf]
  | none =>
    rw [postCart_insert products newId p (JsValue.num (JsNum.fin qty)) store qty prod rfl hq
      hprod2 hf]

/-- A call that runs its two storage operations back to back does what the
uninterrupted code does. -/
theorem runSchedule_head (p : ObjectId) (qty : ℚ) (store : CartStore) (newId : ObjectId)
    (calls : List AddCall) :
    runSchedule p qty (store, AddCall.fresh newId :: calls) [0, 0] =
      (addOrIncrementStore p qty newId store, AddCall.finished newId :: calls) := by
  unfold addOrIncrementStore
  cases hf : findOne store p <;>
    simp [runSchedule, stepAt, stepAdd, AddCall.fresh, AddCall.finished, hf]

/-- Steps of the calls after the first leave the first call alone. -/
theorem runSchedule_shift (p : ObjectId) (qty : ℚ) (c : AddCall) (schedule : List Nat) :
    ∀ (store : CartStore) (calls : List AddCall),
      runSchedule p qty (store, c :: calls) (schedule.map (fun i => i + 1)) =
        ((runSchedule p qty (store, calls) schedule).1,
          c :: (runSchedule p qty (store, calls) schedule).2) := by
  induction schedule with
  | nil => intro store calls; rfl
  | cons i rest ih =>
    intro store calls
    simp only [List.map_cons, runSchedule, List.foldl_cons]
    have hstep : stepAt p qty (store, c :: calls) (i + 1) =
        ((stepAt p qty (store, calls) i).1, c :: (stepAt p qty (store, calls) i).2) := by
      simp only [stepAt, List.get?_cons_succ]
      cases calls.get? i <;> simp
    rw [hstep]
    exact ih _ _

theorem runSchedule_append (p : ObjectId) (qty : ℚ) (state : CartStore × List AddCall)
    (s1 s2 : List Nat) :
    runSchedule p qty state (s1 ++ s2) = runSchedule p qty (runSchedule p qty state s1) s2 := by
  simp [runSchedule, List.foldl_append]

theorem addOrIncrementStore_last (p id0 newId : ObjectId) (q : ℚ) (base : CartStore)
    (hno : ∀ it ∈ base, it.productId ≠ p) (hfresh : ∀ it ∈ base, it.id ≠ id0) :
    addOrIncrementStore p 1 newId (base ++ [{ id := id0, productId := p, quantity := q }]) =
      base ++ [{ id := id0, productId := p, quantity := min (q + 1) 20 }] := by
  have hfind : findOne (base ++ [{ id := id0, productId := p, quantity := q }]) p =
      some { id := id0, productId := p, quantity := q } := by
    unfold findOne
    rw [List.find?_append]
    have hnone : base.find? (fun it => it.productId = p) = none := by
      simpa [findOne] using (findOne_none_iff base p).mpr hno
    simp [hnone]
  have hset : ∀ (l : CartStore), (∀ it ∈ l, it.id ≠ id0) → ∀ v : ℚ,
      setQuantityById id0 v (l ++ [{ id := id0, productId := p, quantity := q }]) =
        l ++ [{ id := id0, productId := p, quantity := v }] := by
    intro l
    induction l with
    | nil => intro _ v; simp [setQuantityById]
    | cons x xs ih =>
      intro hx v
      have hxid : x.id ≠ id0 := hx x (List.mem_cons_self _ _)
      have ih2 := ih (fun it hit => hx it (List.mem_cons_of_mem _ hit)) v
      show setQuantityById id0 v (x :: (xs ++ [{ id := id0, productId := p, quantity := q }])) =
        x :: (xs ++ [{ id := id0, productId := p, quantity := v }])
      simp only [setQuantityById, hxid, if_false]
      rw [ih2]
  unfold addOrIncrementStore
  rw [hfind]
  exact hset base hfresh _

/-- Serial calls after the first: each raises the one line item by 1, up to 20. -/
theorem runSchedule_serial_rest (p id0 : ObjectId) (base : CartStore)
    (hno : ∀ it ∈ base, it.productId ≠ p) (hfresh : ∀ it ∈ base, it.id ≠ id0)
    (rest : List ObjectId) :
    ∀ q : ℚ, q ≤ 20 → runSchedule p 1
        (base ++ [{ id := id0, productId := p, quantity := q }], rest.map AddCall.fresh)
        (serialSchedule rest.length) =
      (base ++ [{ id := id0, productId := p, quantity := min (q + rest.length) 20 }],
        rest.map AddCall.finished) := by
  induction rest with
  | nil =>
    intro q hq
    simp only [List.length_nil, serialSchedule, runSchedule, List.foldl_nil, List.map_nil,
      Nat.cast_zero, add_zero, min_eq_left hq]
  | cons r rs ih =>
    intro q hq
    have hsched : serialSchedule (r :: rs).length =
        [0, 0] ++ (serialSchedule rs.length).map (fun i => i + 1) := rfl
    have hn : (0 : ℚ) ≤ (rs.length : ℚ) := Nat.cast_nonneg _
    have harith : min (min (q + 1) 20 + (rs.length : ℚ)) 20 =
        min (q + ((rs.length + 1 : ℕ) : ℚ)) 20 := by
      push_cast
      rcases le_total (q + 1) 20 with h | h
      · rw [min_eq_left h]
        congr 1
        ring
      · rw [min_eq_right h, min_eq_right (by linarith), min_eq_right (by linarith)]
    rw [hsched, runSchedule_append, List.map_cons, runSchedule_head,
      addOrIncrementStore_last p id0 r q base hno hfresh, runSchedule_shift,
      ih (min (q + 1) 20) (min_le_right _ _), harith]
    rfl

/-- C21, as stated, fails: two calls for product 1 on the empty cart that both
read before either writes leave two line items for the product, each of
quantity 1, where the claim has one line item of quantity 2; and of three calls,
when the second and the third both read after the first has written, one
increment is lost: one line item of quantity 2 where the claim has 3. -/
theorem concurrent_adds_lose_updates :
    runSchedule 1 1 ([], [AddCall.fresh 10, AddCall.fresh 11]) [0, 1, 0, 1] =
      ([ { id := 10, productId := 1, quantity := 1 },
         { id := 11, productId := 1, quantity := 1 } ],
        [AddCall.finished 10, AddCall.finished 11]) ∧
    runSchedule 1 1 ([], [AddCall.fresh 10, AddCall.fresh 11, AddCall.fresh 12])
        [0, 0, 1, 2, 1, 2] =
      ([ { id := 10, productId := 1, quantity := 2 } ],
        [AddCall.finished 10, AddCall.finished 11, AddCall.finished 12]) := by
  constructor
  · norm_num [runSchedule, stepAt, stepAdd, AddCall.fresh, AddCall.finished, findOne]
  · norm_num [runSchedule, stepAt, stepAdd, AddCall.fresh, AddCall.finished, findOne,
      setQuantityById]

/-- C21, amended: for an existing product `p` with no line item, `N ≥ 1` calls
of AddOrIncrement(p, 1) whose storage operations do not interleave, each call
doing its read and its write before the next call starts, end with the previous
line items and exactly one line item for `p`, of quantity `min N 20`; a call run
alone in this model changes the store as the handler does. -/
theorem serial_adds (p id0 : ObjectId) (rest : List ObjectId) (base : CartStore)
    (hno : ∀ it ∈ base, it.productId ≠ p) (hfresh : ∀ it ∈ base, it.id ≠ id0) :
    runSchedule p 1 (base, (id0 :: rest).map AddCall.fresh)
        (serialSchedule (id0 :: rest).length) =
      (base ++ [{ id := id0, productId := p,
                  quantity := min (((id0 :: rest).length : ℕ) : ℚ) 20 }],
        (id0 :: rest).map AddCall.finished) ∧
    ∀ (products : ProductStore) (newId : ObjectId) (store : CartStore),
      (∃ prod ∈ products, prod.id = p) →
      (runSchedule p 1 (store, [AddCall.fresh newId]) (serialSchedule 1)).1 =
        (postCart products newId (IdArg.oid p) (JsValue.num (JsNum.fin 1)) store).2 := by
  constructor
  · have hsched : serialSchedule (id0 :: rest).length =
        [0, 0] ++ (serialSchedule rest.length).map (fun i => i + 1) := rfl
    have hfirst : addOrIncrementStore p 1 id0 base =
        base ++ [{ id := id0, productId := p, quantity := 1 }] := by
      unfold addOrIncrementStore
      rw [(findOne_none_iff base p).mpr hno]
      norm_num
    have harith : min ((1 : ℚ) + (rest.length : ℚ)) 20 =
        min ((((id0 :: rest).length : ℕ) : ℚ)) 20 := by
      simp only [List.length_cons]
      push_cast
      congr 1
      ring
    rw [hsched, runSchedule_append, List.map_cons, runSchedule_head, hfirst,
      runSchedule_shift,
      runSchedule_serial_rest p id0 base hno hfresh rest 1 (by norm_num), harith]
    rfl
  · intro products newId store hprod
    rw [postCart_store_eq products newId p 1 store hprod (le_refl _)]
    have h := runSchedule_head p 1 store newId []
    simp only [serialSchedule, List.map_nil]
    rw [h]

/-- Three calls for product 1 on the sample cart stripped of its headphones,
run one after the other, leave one line item of quantity 3 for it. -/
theorem serial_adds_witness :
    (runSchedule 1 1
        ([ { id := 11, productId := 2, quantity := 19 } ],
          [AddCall.fresh 20, AddCall.fresh 21, AddCall.fresh 22])
        [0, 0, 1, 1, 2, 2]).1 =
      [ { id := 11, productId := 2, quantity := 19 },
        { id := 20, productId := 1, quantity := 3 } ] := by
  have h := (serial_adds 1 20 [21, 22] [ { id := 11, productId := 2, quantity := 19 } ]
    (by simp) (by simp)).1
  have hs : serialSchedule [20, 21, 22].length = [0, 0, 1, 1, 2, 2] := rfl
  rw [hs] at h
  simp only [List.map_cons, List.map_nil] at h
  rw [h]
  norm_num

/-! ## Storage failures -/

theorem storageError_none (k : Nat) : storageError none k = none := rfl

/-- Without a storage failure the handlers with `try`/`catch` are the handlers. -/
theorem handleWithFault_none (products : ProductStore) (store : CartStore) (req : Request) :
    handleWithFault none products store req = handle products store req := by
  cases req with
  | addOrIncrement newId productId quantity =>
    simp only [handleWithFault, handle, postCartWithFault, postCart, storageError_none]
  | setQuantity id quantity =>
    simp only [handleWithFault, handle, putCartWithFault, putCart, storageError_none]
  | remove id => rfl
  | checkout entropy now cartItems =>
    simp only [handleWithFault, handle, postCheckoutWithFault, postCheckout, storageError_none]
  | getCart => rfl

/-- A failure of a storage operation that the call performs is answered 500 with
the message of the handler. -/
theorem handleWithFault_performed (products : ProductStore) (store : CartStore)
    (req : Request) (k : Nat) (e : String) (hk : k < storageOps products store req) :
    (handleWithFault (some { index := k, error := e }) products store req).1 =
      Response.fail 500 (internalMessage req) := by
  cases req with
  | addOrIncrement newId productId quantity =>
    cases productId with
    | falsy => simp [storageOps] at hk
    | malformed => simp [storageOps] at hk
    | oid p =>
      cases hq : toNumber (quantityOrDefault quantity) with
      | none => simp [storageOps, hq] at hk
      | some n =>
        cases n with
        | nan => simp [storageOps, hq] at hk
        | posInf => simp [storageOps, hq] at hk
        | negInf => simp [storageOps, hq] at hk
        | fin qty =>
          by_cases hlt : qty < 1
          · simp [storageOps, hq, hlt] at hk
          · cases hp : findById products p with
            | none =>
              simp [storageOps, hq, hlt, hp] at hk
              have hk0 : k = 0 := by omega
              subst hk0
              simp [handleWithFault, postCartWithFault, hq, hlt, storageError, internalMessage]
            | some prod =>
              simp [storageOps, hq, hlt, hp] at hk
              cases hf : findOne store p <;> interval_cases k <;>
                simp [handleWithFault, postCartWithFault, hq, hlt, hp, hf, storageError,
                  internalMessage]
  | setQuantity id quantity =>
    cases hq : toNumber quantity with
    | none => simp [storageOps, hq] at hk
    | some n =>
      cases n with
      | nan => simp [storageOps, hq] at hk
      | posInf => simp [storageOps, hq] at hk
      | negInf => simp [storageOps, hq] at hk
      | fin q =>
        cases id with
        | malformed =>
          simp only [storageOps, hq] at hk
          have hk0 : k = 0 := by omega
          subst hk0
          simp [handleWithFault, putCartWithFault, hq, storageError, internalMessage]
        | oid i =>
          cases hf : store.find? (fun it => it.id = i) with
          | none =>
            simp [storageOps, hq, hf] at hk
            have hk0 : k = 0 := by omega
            subst hk0
            simp [handleWithFault, putCartWithFault, hq, storageError, internalMessage]
          | some existing =>
            simp [storageOps, hq, hf] at hk
            interval_cases k <;>
              simp [handleWithFault, putCartWithFault, hq, hf, findByIdAndUpdate, storageError,
                internalMessage]
  | remove id =>
    simp only [storageOps] at hk
    have hk0 : k = 0 := by omega
    subst hk0
    simp [handleWithFault, deleteCartWithFault, storageError, internalMessage]
  | checkout entropy now cartItems =>
    cases cartItems with
    | falsy => simp [storageOps] at hk
    | nonArray z => simp [storageOps] at hk
    | items xs =>
      by_cases hlen : xs.length = 0
      · simp [storageOps, hlen] at hk
      · cases htotal : snapshotTotal xs (JsNum.fin 0) with
        | none => simp [storageOps, htotal] at hk
        | some total =>
          have hk0 : k = 0 := by
            simp only [storageOps] at hk
            split at hk <;> omega
          subst hk0
          simp [handleWithFault, postCheckoutWithFault, hlen, htotal, storageError,
            internalMessage]
  | getCart =>
    simp only [storageOps] at hk
    have hk0 : k = 0 := by omega
    subst hk0
    simp [handleWithFault, getCartWithFault, storageError, internalMessage]

/-- A failure placed at an operation the call never reaches changes nothing. -/
theorem handleWithFault_not_reached (products : ProductStore) (store : CartStore)
    (req : Request) (k : Nat) (e : String) (hk : storageOps products store req ≤ k) :
    handleWithFault (some { index := k, error := e }) products store req =
      handle products store req := by
  cases req with
  | addOrIncrement newId productId quantity =>
    cases productId with
    | falsy => rfl
    | malformed => rfl
    | oid p =>
      cases hq : toNumber (quantityOrDefault quantity) with
      | none => simp [handleWithFault, handle, postCartWithFault, postCart, hq]
      | some n =>
        cases n with
        | nan => simp [handleWithFault, handle, postCartWithFault, postCart, hq]
        | posInf => simp [handleWithFault, handle, postCartWithFault, postCart, hq]
        | negInf => simp [handleWithFault, handle, postCartWithFault, postCart, hq]
        | fin qty =>
          by_cases hlt : qty < 1
          · simp [handleWithFault, handle, postCartWithFault, postCart, hq, hlt]
          · cases hp : findById products p with
            | none =>
              simp [storageOps, hq, hlt, hp] at hk
              have h0 : k ≠ 0 := by omega
              simp [handleWithFault, handle, postCartWithFault, postCart, hq, hlt, hp,
                storageError, h0]
            | some prod =>
              simp [storageOps, hq, hlt, hp] at hk
              have h0 : k ≠ 0 := by omega
              have h1 : k ≠ 1 := by omega
              have h2 : k ≠ 2 := by omega
              have h3 : k ≠ 3 := by omega
              cases hf : findOne store p <;>
                simp [handleWithFault, handle, postCartWithFault, postCart, hq, hlt, hp, hf,
                  storageError, h0, h1, h2, h3]
  | setQuantity id quantity =>
    cases hq : toNumber quantity with
    | none => simp [handleWithFault, handle, putCartWithFault, putCart, hq]
    | some n =>
      cases n with
      | nan => simp [handleWithFault, handle, putCartWithFault, putCart, hq]
      | posInf => simp [handleWithFault, handle, putCartWithFault, putCart, hq]
      | negInf => simp [handleWithFault, handle, putCartWithFault, putCart, hq]
      | fin q =>
        cases id with
        | malformed =>
          simp only [storageOps, hq] at hk
          have h0 : k ≠ 0 := by omega
          simp [handleWithFault, handle, putCartWithFault, putCart, hq, storageError, h0]
        | oid i =>
          cases hf : store.find? (fun it => it.id = i) with
          | none =>
            simp [storageOps, hq, hf] at hk
            have h0 : k ≠ 0 := by omega
            simp [handleWithFault, handle, putCartWithFault, putCart, hq, hf,
              findByIdAndUpdate, storageError, h0]
          | some existing =>
            simp [storageOps, hq, hf] at hk
            have h0 : k ≠ 0 := by omega
            have h1 : k ≠ 1 := by omega
            simp [handleWithFault, handle, putCartWithFault, putCart, hq, hf,
              findByIdAndUpdate, storageError, h0, h1]
  | remove id =>
    simp only [storageOps] at hk
    have h0 : k ≠ 0 := by omega
    simp [handleWithFault, handle, deleteCartWithFault, storageError, h0]
  | checkout entropy now cartItems =>
    cases cartItems with
    | falsy => rfl
    | nonArray z => rfl
    | items xs =>
      by_cases hlen : xs.length = 0
      · simp [handleWithFault, handle, postCheckoutWithFault, postCheckout, hlen]
      · cases htotal : snapshotTotal xs (JsNum.fin 0) with
        | none =>
          simp [handleWithFault, handle, postCheckoutWithFault, postCheckout, hlen, htotal]
        | some total =>
          have h0 : k ≠ 0 := by
            simp only [storageOps, htotal, Option.isSome_some, and_true] at hk
            rw [if_pos hlen] at hk
            omega
          simp [handleWithFault, handle, postCheckoutWithFault, postCheckout, hlen, htotal,
            storageError, h0]
  | getCart =>
    simp only [storageOps] at hk
    have h0 : k ≠ 0 := by omega
    simp [handleWithFault, handle, getCartWithFault, storageError, h0]

/-- The content of the storage error does not reach the answer. -/
theorem handleWithFault_error_content (products : ProductStore) (store : CartStore)
    (req : Request) (k : Nat) (e e2 : String) :
    handleWithFault (some { index := k, error := e }) products store req =
      handleWithFault (some { index := k, error := e2 }) products store req := by
  by_cases h0 : k = 0
  · subst h0
    cases req <;>
      simp [handleWithFault, postCartWithFault, putCartWithFault, deleteCartWithFault,
        postCheckoutWithFault, getCartWithFault, storageError]
  · by_cases h1 : k = 1
    · subst h1
      cases req <;>
        simp [handleWithFault, postCartWithFault, putCartWithFault, deleteCartWithFault,
          postCheckoutWithFault, getCartWithFault, storageError]
    · by_cases h2 : k = 2
      · subst h2
        cases req <;>
          simp [handleWithFault, postCartWithFault, putCartWithFault, deleteCartWithFault,
            postCheckoutWithFault, getCartWithFault, storageError]
      · by_cases h3 : k = 3
        · subst h3
          cases req <;>
            simp [handleWithFault, postCartWithFault, putCartWithFault, deleteCartWithFault,
              postCheckoutWithFault, getCartWithFault, storageError]
        · cases req <;>
            simp [handleWithFault, postCartWithFault, putCartWithFault, deleteCartWithFault,
              postCheckoutWithFault, getCartWithFault, storageError, h0, h1, h2, h3]

/-- An answer 400 is decided before any storage operation. -/
theorem storageOps_of_status_400 (products : ProductStore) (store : CartStore)
    (req : Request) (h : (handle products store req).1.status = 400) :
    storageOps products store req = 0 := by
  cases req with
  | addOrIncrement newId productId quantity =>
    cases productId with
    | falsy => rfl
    | malformed => rfl
    | oid p =>
      cases hq : toNumber (quantityOrDefault quantity) with
      | none => simp [storageOps, hq]
      | some n =>
        cases n with
        | nan => simp [storageOps, hq]
        | posInf => simp [storageOps, hq]
        | negInf => simp [storageOps, hq]
        | fin qty =>
          by_cases hlt : qty < 1
          · simp [storageOps, hq, hlt]
          · exfalso
            cases hp : findById products p with
            | none => simp [handle, postCart, hq, hlt, hp, Response.fail] at h
            | some prod =>
              cases hf : findOne store p <;>
                simp [handle, postCart, hq, hlt, hp, hf, Response.ok] at h
  | setQuantity id quantity =>
    cases hq : toNumber quantity with
    | none => simp [storageOps, hq]
    | some n =>
      cases n with
      | nan => simp [storageOps, hq]
      | posInf => simp [storageOps, hq]
      | negInf => simp [storageOps, hq]
      | fin q =>
        exfalso
        cases id with
        | malformed => simp [handle, putCart, hq, Response.fail] at h
        | oid i =>
          cases hf : store.find? (fun it => it.id = i) <;>
            simp [handle, putCart, hq, hf, findByIdAndUpdate, Response.fail, Response.ok] at h
  | remove id =>
    exfalso
    cases id with
    | malformed => simp [handle, deleteCart, Response.fail] at h
    | oid i =>
      cases hf : store.find? (fun it => it.id = i) <;>
        simp [handle, deleteCart, hf, findByIdAndDelete, Response.fail, Response.ok] at h
  | checkout entropy now cartItems =>
    cases cartItems with
    | falsy => rfl
    | nonArray z => rfl
    | items xs =>
      by_cases hlen : xs.length = 0
      · simp [storageOps, hlen]
      · cases htotal : snapshotTotal xs (JsNum.fin 0) with
        | none => simp [storageOps, htotal]
        | some total =>
          exfalso
          simp [handle, postCheckout, hlen, htotal, Response.ok] at h
  | getCart =>
    exfalso
    simp only [handle, getCart] at h
    cases hc : cartTotal (List.map (populate products) store) (JsNum.fin 0) <;>
      simp [hc, Response.fail, Response.ok] at h

/-- C22, as stated, fails: with no storage failure at all, and before any
storage operation is performed, a checkout snapshot whose one element is `null`
or lacks `productId`, and an add whose quantity is an object with an own
`toString`, both malformed requests, are answered 500. -/
theorem malformed_input_reported_internal :
    handleWithFault none sampleProducts sampleCart
        (Request.checkout 0 "" (CartItemsArg.items [SnapshotItem.broken])) =
      (Response.fail 500 "Checkout failed", sampleCart) ∧
    storageOps sampleProducts sampleCart
        (Request.checkout 0 "" (CartItemsArg.items [SnapshotItem.broken])) = 0 ∧
    handleWithFault none sampleProducts sampleCart
        (Request.addOrIncrement 12 (IdArg.oid 1) (JsValue.obj true)) =
      (Response.fail 500 "Failed to add item to cart", sampleCart) ∧
    storageOps sampleProducts sampleCart
        (Request.addOrIncrement 12 (IdArg.oid 1) (JsValue.obj true)) = 0 :=
  ⟨rfl, rfl, rfl, rfl⟩

/-- C22, amended: for every cart and checkout request, when one of the storage
operations the call performs fails, the answer is 500 with the fixed message of
the handler, whatever the content of the error; a failure placed beyond the
operations performed changes nothing; and an answer 400 is given before any
storage operation, so that no storage failure turns it into 500. -/
theorem handleWithFault_internal (products : ProductStore) (store : CartStore)
    (req : Request) :
    handleWithFault none products store req = handle products store req ∧
    (∀ k e, k < storageOps products store req →
      (handleWithFault (some { index := k, error := e }) products store req).1 =
        Response.fail 500 (internalMessage req)) ∧
    (∀ k e, storageOps products store req ≤ k →
      handleWithFault (some { index := k, error := e }) products store req =
        handle products store req) ∧
    (∀ k e e2,
      handleWithFault (some { index := k, error := e }) products store req =
        handleWithFault (some { index := k, error := e2 }) products store req) ∧
    ((handle products store req).1.status = 400 →
      ∀ fault, handleWithFault fault products store req = handle products store req) := by
  refine ⟨handleWithFault_none products store req,
    fun k e hk => handleWithFault_performed products store req k e hk,
    fun k e hk => handleWithFault_not_reached products store req k e hk,
    fun k e e2 => handleWithFault_error_content products store req k e e2, ?_⟩
  intro h fault
  have hops := storageOps_of_status_400 products store req h
  cases fault with
  | none => exact handleWithFault_none products store req
  | some f =>
    exact handleWithFault_not_reached products store req f.index f.error
      (by rw [hops]; exact Nat.zero_le _)

/-- A failing `Cart.findByIdAndDelete` makes the removal of line item 10 of the
sample cart answer 500 with the message of the handler. -/
theorem handleWithFault_internal_witness :
    (handleWithFault (some { index := 0, error := "connection reset" }) sampleProducts
        sampleCart (Request.remove (IdParam.oid 10))).1 =
      Response.fail 500 "Failed to remove item from cart" :=
  (handleWithFault_internal sampleProducts sampleCart (Request.remove (IdParam.oid 10))).2.1
    0 "connection reset" (by decide)

/-! ## Sequential increments -/

/-- The exact sum and the rounded sum give the same handler whenever the sum of
the stored and the sent quantity is a double. -/
theorem postCartDouble_eq_postCart (products : ProductStore) (newId p : ObjectId)
    (qty : ℚ) (store : CartStore)
    (hexact : ∀ existing, findOne store p = some existing →
      roundDouble (existing.quantity + qty) = existing.quantity + qty) :
    postCartDouble products newId (IdArg.oid p) (JsValue.num (JsNum.fin qty)) store =
      postCart products newId (IdArg.oid p) (JsValue.num (JsNum.fin qty)) store := by
  cases hf : findOne store p with
  | none => simp [postCartDouble, postCart, quantityOrDefault, toNumber, hf]
  | some existing =>
    simp [postCartDouble, postCart, quantityOrDefault, toNumber, hf, hexact existing hf]

theorem postCartDouble_increment_store (products : ProductStore) (newId p : ObjectId)
    (qty : ℚ) (store : CartStore) (prod : Product) (existing : CartLineItem)
    (hq1 : 1 ≤ qty) (hp : findById products p = some prod)
    (hf : findOne store p = some existing) :
    (postCartDouble products newId (IdArg.oid p) (JsValue.num (JsNum.fin qty)) store).2 =
      setQuantityById existing.id (min (roundDouble (existing.quantity + qty)) 20) store := by
  simp [postCartDouble, quantityOrDefault, toNumber, not_lt.mpr hq1, hp, hf]

theorem postCartDouble_insert_store (products : ProductStore) (newId p : ObjectId)
    (qty : ℚ) (store : CartStore) (prod : Product)
    (hq1 : 1 ≤ qty) (hp : findById products p = some prod) (hf : findOne store p = none) :
    (postCartDouble products newId (IdArg.oid p) (JsValue.num (JsNum.fin qty)) store).2 =
      store ++ [{ id := newId, productId := p, quantity := min qty 20 }] := by
  simp [postCartDouble, quantityOrDefault, toNumber, not_lt.mpr hq1, hp, hf]

theorem findOne_setQuantityById (store : CartStore) (p : ObjectId) (existing : CartLineItem)
    (q : ℚ) (hids : DistinctIds store) (hf : findOne store p = some existing) :
    findOne (setQuantityById existing.id q store) p =
      some { existing with quantity := q } := by
  induction store with
  | nil => simp [findOne] at hf
  | cons x xs ih =>
    have hnd : (x.id :: xs.map (fun it => it.id)).Nodup := by simpa [DistinctIds] using hids
    by_cases hx : x.productId = p
    · have he : existing = x := by
        simp [findOne, List.find?_cons, hx] at hf
        exact hf.symm
      subst he
      simp [setQuantityById, findOne, List.find?_cons, hx]
    · have hf2 : findOne xs p = some existing := by
        simpa [findOne, List.find?_cons, hx] using hf
      have hmem := (findOne_some_mem xs p existing hf2).1
      have hne : x.id ≠ existing.id := by
        intro heq
        exact (List.nodup_cons.mp hnd).1 (List.mem_map.mpr ⟨existing, hmem, heq.symm⟩)
      have ih2 := ih (List.nodup_cons.mp hnd).2 hf2
      simp only [setQuantityById, hne, if_false]
      simpa [findOne, List.find?_cons, hx] using ih2

theorem setQuantityById_append_last (l : CartStore) (id0 p : ObjectId) (q v : ℚ)
    (hfresh : ∀ it ∈ l, it.id ≠ id0) :
    setQuantityById id0 v (l ++ [{ id := id0, productId := p, quantity := q }]) =
      l ++ [{ id := id0, productId := p, quantity := v }] := by
  induction l with
  | nil => simp [setQuantityById]
  | cons x xs ih =>
    have hxid : x.id ≠ id0 := hfresh x (List.mem_cons_self _ _)
    have ih2 := ih (fun it hit => hfresh it (List.mem_cons_of_mem _ hit))
    show setQuantityById id0 v (x :: (xs ++ [{ id := id0, productId := p, quantity := q }])) =
      x :: (xs ++ [{ id := id0, productId := p, quantity := v }])
    simp only [setQuantityById, hxid, if_false]
    rw [ih2]

theorem findOne_append_last (l : CartStore) (p : ObjectId) (new : CartLineItem)
    (hno : findOne l p = none) (hnew : new.productId = p) :
    findOne (l ++ [new]) p = some new := by
  unfold findOne at hno ⊢
  rw [List.find?_append, hno]
  simp [hnew]

/-- The clamp absorbs a first clamp: `min (min (e + a) 20 + b) 20 = min (e + a + b) 20`
for `b ≥ 0`. -/
theorem min_add_min (x b : ℚ) (hb : 0 ≤ b) : min (min x 20 + b) 20 = min (x + b) 20 := by
  rcases le_total x 20 with h | h
  · rw [min_eq_left h]
  · rw [min_eq_right h, min_eq_right (by linarith), min_eq_right (by linarith)]

/-- Adds of 1, one after the other, on the one line item of a cart. -/
theorem sequentialAdds_one (products : ProductStore) (p id0 : ObjectId) (prod : Product)
    (hp : findById products p = some prod) (rest : List ObjectId) :
    ∀ k : ℕ, 1 ≤ k →
      sequentialAdds products p (JsValue.num (JsNum.fin 1)) rest
          [{ id := id0, productId := p, quantity := min (k : ℚ) 20 }] =
        [{ id := id0, productId := p, quantity := min ((k + rest.length : ℕ) : ℚ) 20 }] := by
  induction rest with
  | nil => intro k _; rfl
  | cons newId rest ih =>
    intro k hk
    have hf : findOne [{ id := id0, productId := p, quantity := min (k : ℚ) 20 }] p =
        some { id := id0, productId := p, quantity := min (k : ℚ) 20 } := by
      simp [findOne]
    have hmin : min (k : ℚ) 20 = ((min k 20 : ℕ) : ℚ) := by push_cast; rfl
    have hround : roundDouble (min (k : ℚ) 20 + 1) = min (k : ℚ) 20 + 1 := by
      rw [hmin]
      have h := roundDouble_natCast (min k 20 + 1) (by omega)
        (lt_of_le_of_lt (show min k 20 + 1 ≤ 21 by omega) (by norm_num))
      push_cast at h ⊢
      exact h
    have hstep := postCartDouble_increment_store products newId p 1 _ prod _ (le_refl _) hp hf
    simp only [hround, setQuantityById, if_true] at hstep
    rw [min_add_min (k : ℚ) 1 (by norm_num)] at hstep
    have hk1 : min ((k : ℚ) + 1) 20 = min (((k + 1 : ℕ) : ℕ) : ℚ) 20 := by push_cast; rfl
    rw [hk1] at hstep
    show sequentialAdds products p (JsValue.num (JsNum.fin 1)) rest
        (postCartDouble products newId (IdArg.oid p) (JsValue.num (JsNum.fin 1))
          [{ id := id0, productId := p, quantity := min (k : ℚ) 20 }]).2 = _
    rw [hstep, ih (k + 1) (by omega)]
    have hlen : k + 1 + rest.length = k + (newId :: rest).length := by
      simp only [List.length_cons]
      omega
    rw [hlen]

/-- C25, counterexample: the doubles nearest to 2.7 and 4.4, added one after the
other to a line item of quantity 7, leave the quantity `7937594343240499 / 2 ^ 49`
(the double 14.1), while one add of their sum, itself a double, leaves
`7937594343240500 / 2 ^ 49`, the next double up: `7 + 2.7` and `7 + (2.7 + 4.4)`
both fall half-way between two doubles and are rounded to the even one. -/
theorem sequential_adds_differ_in_doubles :
    roundDouble (27 / 10) = 3039929748475085 / 2 ^ 50 ∧
    roundDouble (44 / 10) = 2476979795053773 / 2 ^ 49 ∧
    roundDouble (3039929748475085 / 2 ^ 50 + 2476979795053773 / 2 ^ 49) =
      3039929748475085 / 2 ^ 50 + 2476979795053773 / 2 ^ 49 ∧
    quantityOf
      (postCartDouble sampleProducts 13 (IdArg.oid 1)
        (JsValue.num (JsNum.fin (2476979795053773 / 2 ^ 49)))
        (postCartDouble sampleProducts 12 (IdArg.oid 1)
          (JsValue.num (JsNum.fin (3039929748475085 / 2 ^ 50)))
          [{ id := 10, productId := 1, quantity := 7 }]).2).2 1 =
      some (7937594343240499 / 2 ^ 49) ∧
    quantityOf
      (postCartDouble sampleProducts 12 (IdArg.oid 1)
        (JsValue.num (JsNum.fin (3039929748475085 / 2 ^ 50 + 2476979795053773 / 2 ^ 49)))
        [{ id := 10, productId := 1, quantity := 7 }]).2 1 =
      some (7937594343240500 / 2 ^ 49) := by
  have r0 : roundDouble (27 / 10) = 3039929748475085 / 2 ^ 50 := by
    rw [roundDouble_eval _ 1 6079859496950170 (by norm_num) (by norm_num) (by norm_num)
      (by norm_num) (roundHalfEven_of_near _ _ (by norm_num) (by norm_num))]
    norm_num
  have r0b : roundDouble (44 / 10) = 2476979795053773 / 2 ^ 49 := by
    rw [roundDouble_eval _ 2 4953959590107546 (by norm_num) (by norm_num) (by norm_num)
      (by norm_num) (roundHalfEven_of_near _ _ (by norm_num) (by norm_num))]
    norm_num
  have r1 : roundDouble ((7 : ℚ) + 3039929748475085 / 2 ^ 50) = 2730307274093363 / 2 ^ 48 := by
    have h : ((7 : ℚ) + 3039929748475085 / 2 ^ 50) / (2 : ℚ) ^ ((3 : ℤ) - 52) =
        ((5460614548186726 : ℤ) : ℚ) + 1 / 2 := by norm_num
    rw [roundDouble_eval _ 3 5460614548186726 (by norm_num) (by norm_num) (by norm_num)
      (by norm_num) (by rw [h]; exact roundHalfEven_tie_even _ (by norm_num))]
    norm_num
  have r2 : roundDouble ((2730307274093363 : ℚ) / 2 ^ 48 + 2476979795053773 / 2 ^ 49) =
      7937594343240499 / 2 ^ 49 := by
    have h : ((2730307274093363 : ℚ) / 2 ^ 48 + 2476979795053773 / 2 ^ 49) /
        (2 : ℚ) ^ ((3 : ℤ) - 52) = ((7937594343240499 : ℤ) : ℚ) := by norm_num
    rw [roundDouble_eval _ 3 7937594343240499 (by norm_num) (by norm_num) (by norm_num)
      (by norm_num) (by rw [h]; exact roundHalfEven_int _)]
    norm_num
  have r3 : roundDouble ((3039929748475085 : ℚ) / 2 ^ 50 + 2476979795053773 / 2 ^ 49) =
      3039929748475085 / 2 ^ 50 + 2476979795053773 / 2 ^ 49 := by
    have h : ((3039929748475085 : ℚ) / 2 ^ 50 + 2476979795053773 / 2 ^ 49) /
        (2 : ℚ) ^ ((2 : ℤ) - 52) = ((7993889338582631 : ℤ) : ℚ) := by norm_num
    rw [roundDouble_eval _ 2 7993889338582631 (by norm_num) (by norm_num) (by norm_num)
      (by norm_num) (by rw [h]; exact roundHalfEven_int _)]
    norm_num
  have r4 : roundDouble ((7 : ℚ) +
      (3039929748475085 / 2 ^ 50 + 2476979795053773 / 2 ^ 49)) =
      7937594343240500 / 2 ^ 49 := by
    have h : ((7 : ℚ) + (3039929748475085 / 2 ^ 50 + 2476979795053773 / 2 ^ 49)) /
        (2 : ℚ) ^ ((3 : ℤ) - 52) = ((7937594343240499 : ℤ) : ℚ) + 1 / 2 := by norm_num
    rw [roundDouble_eval _ 3 (7937594343240499 + 1) (by norm_num) (by norm_num) (by norm_num)
      (by norm_num) (by rw [h]; exact roundHalfEven_tie_odd _ (by norm_num))]
    norm_num
  have hp : findById sampleProducts 1 = some
      { id := 1, name := "Wireless Headphones", price := 9999 / 100, image := "",
        description := "", category := "" } := rfl
  refine ⟨r0, r0b, r3, ?_, ?_⟩
  · have h1 := postCartDouble_increment_store sampleProducts 12 1
      (3039929748475085 / 2 ^ 50) [{ id := 10, productId := 1, quantity := 7 }] _
      { id := 10, productId := 1, quantity := 7 } (by norm_num) hp rfl
    rw [h1, r1]
    have hs : setQuantityById 10 (min ((2730307274093363 : ℚ) / 2 ^ 48) 20)
        [{ id := 10, productId := 1, quantity := 7 }] =
        [{ id := 10, productId := 1, quantity := 2730307274093363 / 2 ^ 48 }] := by
      norm_num [setQuantityById]
    have h2 := postCartDouble_increment_store sampleProducts 13 1
      (2476979795053773 / 2 ^ 49)
      [{ id := 10, productId := 1, quantity := 2730307274093363 / 2 ^ 48 }] _
      { id := 10, productId := 1, quantity := 2730307274093363 / 2 ^ 48 } (by norm_num) hp rfl
    rw [hs, h2, r2]
    norm_num [quantityOf, findOne, setQuantityById]
  · have h1 := postCartDouble_increment_store sampleProducts 12 1
      (3039929748475085 / 2 ^ 50 + 2476979795053773 / 2 ^ 49)
      [{ id := 10, productId := 1, quantity := 7 }] _
      { id := 10, productId := 1, quantity := 7 } (by norm_num) hp rfl
    rw [h1, r4]
    norm_num [quantityOf, findOne, setQuantityById]

/-- C25, amended: for integer quantities sequential increments accumulate. For an
existing product `p`, a cart store with distinct ids whose quantities are
integers between 1 and 20, and integers `a ≥ 1` and `b ≥ 1`, AddOrIncrement(p, a)
followed by AddOrIncrement(p, b) leaves the line item of `p` with the quantity
that one AddOrIncrement(p, a + b) leaves, `min (e + a + b) 20` for the prior
quantity `e` (0 when absent); and `N ≥ 1` sequential AddOrIncrement(p, 1) calls on
the empty cart leave one line item of quantity `min N 20`. Every sum is rounded
to a double, as the handler and its caller do. -/
theorem sequential_increments_accumulate (products : ProductStore) (store : CartStore)
    (p newId1 newId2 newId3 : ObjectId) (prod : Product) (a b : ℚ)
    (hp : findById products p = some prod) (hids : DistinctIds store)
    (hfresh : ∀ it ∈ store, it.id ≠ newId1) (hrange : QuantitiesInRange store)
    (hint : ∀ it ∈ store, IsInteger it.quantity)
    (ha : 1 ≤ a) (hb : 1 ≤ b) (hia : IsInteger a) (hib : IsInteger b) :
    quantityOf
        (postCartDouble products newId2 (IdArg.oid p) (JsValue.num (JsNum.fin b))
          (postCartDouble products newId1 (IdArg.oid p) (JsValue.num (JsNum.fin a))
            store).2).2 p =
      some (min (priorQuantity store p + a + b) 20) ∧
    quantityOf
        (postCartDouble products newId3 (IdArg.oid p)
          (JsValue.num (JsNum.fin (roundDouble (a + b)))) store).2 p =
      some (min (priorQuantity store p + a + b) 20) ∧
    ∀ (id0 : ObjectId) (rest : List ObjectId),
      sequentialAdds products p (JsValue.num (JsNum.fin 1)) (id0 :: rest) [] =
        [{ id := id0, productId := p,
           quantity := min (((id0 :: rest).length : ℕ) : ℚ) 20 }] := by
  have hab : IsInteger (a + b) := isInteger_add a b hia hib
  have hc1 : 1 ≤ roundDouble (a + b) := by
    rcases roundDouble_of_isInteger (a + b) hab (by linarith) with h | ⟨_, h⟩
    · rw [h]; linarith
    · linarith
  refine ⟨?_, ?_, ?_⟩
  · cases hf : findOne store p with
    | some existing =>
      have hmem := (findOne_some_mem store p existing hf).1
      have he := hrange existing hmem
      have hie := hint existing hmem
      have hprior : priorQuantity store p = existing.quantity := by
        simp [priorQuantity, hf]
      have hq1 : min (roundDouble (existing.quantity + a)) 20 = min (existing.quantity + a) 20 :=
        min_roundDouble_of_isInteger _ (isInteger_add _ _ hie hia) (by linarith [he.1])
      have hq1int : IsInteger (min (existing.quantity + a) 20) :=
        isInteger_min _ _ (isInteger_add _ _ hie hia) isInteger_twenty
      have hq1pos : 0 < min (existing.quantity + a) 20 := by
        apply lt_min
        · linarith [he.1]
        · norm_num
      have hq2 : min (roundDouble (min (existing.quantity + a) 20 + b)) 20 =
          min (existing.quantity + a + b) 20 := by
        rw [min_roundDouble_of_isInteger _ (isInteger_add _ _ hq1int hib) (by linarith),
          min_add_min _ b (by linarith)]
      have hids1 : DistinctIds (setQuantityById existing.id
          (min (existing.quantity + a) 20) store) := by
        unfold DistinctIds
        rw [setQuantityById_map_id]
        exact hids
      have hf1 := findOne_setQuantityById store p existing (min (existing.quantity + a) 20)
        hids hf
      have hf2 := findOne_setQuantityById _ p _ (min (existing.quantity + a + b) 20) hids1 hf1
      rw [postCartDouble_increment_store products newId1 p a store prod existing ha hp hf, hq1,
        postCartDouble_increment_store products newId2 p b _ prod _ hb hp hf1]
      simp only [hq2]
      simp only [quantityOf, hf2, hprior, Option.map_some']
    | none =>
      have hprior : priorQuantity store p = 0 := by simp [priorQuantity, hf]
      have hf1 : findOne (store ++ [{ id := newId1, productId := p, quantity := min a 20 }]) p =
          some { id := newId1, productId := p, quantity := min a 20 } :=
        findOne_append_last store p _ hf rfl
      have hq1int : IsInteger (min a 20) := isInteger_min _ _ hia isInteger_twenty
      have hq1pos : 0 < min a 20 := by
        apply lt_min
        · linarith
        · norm_num
      have hq2 : min (roundDouble (min a 20 + b)) 20 = min (a + b) 20 := by
        rw [min_roundDouble_of_isInteger _ (isInteger_add _ _ hq1int hib) (by linarith),
          min_add_min _ b (by linarith)]
      rw [postCartDouble_insert_store products newId1 p a store prod ha hp hf,
        postCartDouble_increment_store products newId2 p b _ prod _ hb hp hf1]
      simp only [hq2]
      rw [setQuantityById_append_last store newId1 p _ _ hfresh]
      have hf3 := findOne_append_last store p
        { id := newId1, productId := p, quantity := min (a + b) 20 } hf rfl
      simp only [quantityOf, hf3, hprior, Option.map_some', zero_add]
  · cases hf : findOne store p with
    | some existing =>
      have hmem := (findOne_some_mem store p existing hf).1
      have he := hrange existing hmem
      have hie := hint existing hmem
      have hprior : priorQuantity store p = existing.quantity := by
        simp [priorQuantity, hf]
      have hq : min (roundDouble (existing.quantity + roundDouble (a + b))) 20 =
          min (existing.quantity + a + b) 20 := by
        rcases roundDouble_of_isInteger (a + b) hab (by linarith) with h | ⟨h1, h2⟩
        · rw [h, ← add_assoc]
          exact min_roundDouble_of_isInteger _
            (isInteger_add _ _ (isInteger_add _ _ hie hia) hib) (by linarith [he.1])
        · rw [min_eq_right (twenty_le_roundDouble _ (by linarith [he.1])),
            min_eq_right (by linarith [he.1])]
      have hf1 := findOne_setQuantityById store p existing (min (existing.quantity + a + b) 20)
        hids hf
      rw [postCartDouble_increment_store products newId3 p _ store prod existing hc1 hp hf, hq]
      simp only [quantityOf, hf1, hprior, Option.map_some']
    | none =>
      have hprior : priorQuantity store p = 0 := by simp [priorQuantity, hf]
      have hq : min (roundDouble (a + b)) 20 = min (a + b) 20 :=
        min_roundDouble_of_isInteger _ hab (by linarith)
      have hf3 := findOne_append_last store p
        { id := newId3, productId := p, quantity := min (a + b) 20 } hf rfl
      rw [postCartDouble_insert_store products newId3 p _ store prod hc1 hp hf, hq]
      simp only [quantityOf, hf3, hprior, Option.map_some', zero_add]
  · intro id0 rest
    have hfirst : (postCartDouble products id0 (IdArg.oid p) (JsValue.num (JsNum.fin 1)) []).2 =
        [{ id := id0, productId := p, quantity := min ((1 : ℕ) : ℚ) 20 }] := by
      rw [postCartDouble_insert_store products id0 p 1 [] prod (le_refl _) hp rfl]
      norm_num
    show sequentialAdds products p (JsValue.num (JsNum.fin 1)) rest
        (postCartDouble products id0 (IdArg.oid p) (JsValue.num (JsNum.fin 1)) []).2 = _
    rw [hfirst, sequentialAdds_one products p id0 prod hp rest 1 (le_refl _)]
    have hlen : 1 + rest.length = (id0 :: rest).length := by
      simp only [List.length_cons]
      omega
    rw [hlen]

/-- On the sample cart, whose product 1 has quantity 3, adds of 2 and of 4 and
one add of 6 leave quantity 9; three adds of 1 on the empty cart leave quantity 3. -/
theorem sequential_increments_accumulate_witness :
    quantityOf
        (postCartDouble sampleProducts 13 (IdArg.oid 1) (JsValue.num (JsNum.fin 4))
          (postCartDouble sampleProducts 12 (IdArg.oid 1) (JsValue.num (JsNum.fin 2))
            sampleCart).2).2 1 = some 9 ∧
    quantityOf
        (postCartDouble sampleProducts 14 (IdArg.oid 1)
          (JsValue.num (JsNum.fin (roundDouble (2 + 4)))) sampleCart).2 1 = some 9 ∧
    sequentialAdds sampleProducts 1 (JsValue.num (JsNum.fin 1)) [20, 21, 22] [] =
      [{ id := 20, productId := 1, quantity := 3 }] := by
  have h := sequential_increments_accumulate sampleProducts sampleCart 1 12 13 14
    { id := 1, name := "Wireless Headphones", price := 9999 / 100, image := "",
      description := "", category := "" } 2 4 rfl
    (by simp [DistinctIds, sampleCart])
    (by simp [sampleCart])
    (by intro it hit; simp [sampleCart] at hit; rcases hit with rfl | rfl <;> norm_num)
    (by intro it hit; simp [sampleCart] at hit; rcases hit with rfl | rfl <;>
      (unfold IsInteger; rfl))
    (by norm_num) (by norm_num) (by unfold IsInteger; rfl) (by unfold IsInteger; rfl)
  have hprior : priorQuantity sampleCart 1 = 3 := by
    simp [priorQuantity, findOne, sampleCart]
  rw [hprior] at h
  refine ⟨?_, ?_, ?_⟩
  · rw [h.1]; norm_num
  · rw [h.2.1]; norm_num
  · rw [h.2.2 20 [21, 22]]; norm_num

end VibeCommerce
